import Mathlib

/-!
# Retirement calculator: year transition, projector and Monte Carlo engine

A shallow embedding of `src/calculator.js`.

Numbers.  JavaScript numbers are modelled as exact rationals (`ℚ`); rounding
error, `NaN` and the infinities are outside the model.  The only divisions of
the source whose divisor can vanish without a guard are the two gross-up
divisions of the withdrawal block (divisors `1 - 0.5 * taxRate / 100` and
`1 - taxRate / 100`) and `successCount / simulations`.  A quotient by 0 is 0
in `ℚ` and an infinity or `NaN` in JavaScript, so the model follows the
balances of the source only where these divisors are not 0; the theorems about
the balances of whole runs therefore assume a tax rate in `[0, 100)` percent,
where both gross-up divisors are positive.

Dates.  `new Date(string)` and `setFullYear` belong to the host; the model
takes the millisecond timestamps they yield (`getTime()`) as inputs.

Randomness.  `Math.random` is an arbitrary sequence of draws supplied by the
caller; the Box-Muller expression `sqrt(-2 ln u1) * cos(2 pi u2)` is
transcendental and is taken as a parameter `normal u1 u2`.  The parameter
stands for the expression where it is finite, that is for a first draw
`0 < u1 < 1`; at `u1 = 0`, which both generators can return, the source
computes an infinite sample and the balances of that trial are not finite.
The theorem that equates the Monte Carlo loop with the projector therefore
assumes that the first draw of every simulated year lies in `(0, 1)`.
-/

namespace RetirementCalculator

/-! ## Input record (`getInputs`, lines 67-88) -/

/-- The record returned by `getInputs`.  The three date fields hold the
`getTime()` value of the parsed date, `nextBirthday` the timestamp of the
birthday found by lines 120-122.  `seed` is `none` when `parseInt` yields
`NaN`. -/
structure Inputs where
  currentDate : Int
  yourBirthdate : Int
  spouseBirthdate : Int
  nextBirthday : Int
  retirementAge : ℚ
  maxAge : ℚ
  taxableAccounts : ℚ
  retirementAccounts : ℚ
  annualExpenses : ℚ
  yourSSAge : ℚ
  yourSSBenefitAtFRA : ℚ
  spouseSSAge : ℚ
  spouseOwnBenefit : ℚ
  inflationRate : ℚ
  returnRate : ℚ
  taxRate : ℚ
  stdDev : ℚ
  simulations : Int
  seed : Option Int

/-- The JavaScript expression `x || d` on numbers: `d` when `x` is zero. -/
def jsOr (x d : ℚ) : ℚ := if x = 0 then d else x

/-- Milliseconds in a year: `365.25 * 24 * 60 * 60 * 1000`. -/
def msInYear : ℚ := 365.25 * 24 * 60 * 60 * 1000

/-- Lines 99-103: whole years elapsed between two timestamps. -/
def calculateAge (birthdate currentDate : Int) : Int :=
  ⌊((currentDate - birthdate : Int) : ℚ) / msInYear⌋

/-- Lines 118-125 and 421-428: the fraction of a year left until the next
birthday, clamped to `[0, 1]`. -/
def firstYearFraction (i : Inputs) : ℚ :=
  let msRemaining : ℚ := ((i.nextBirthday - i.currentDate : Int) : ℚ)
  max 0 (min 1 (msRemaining / msInYear))

/-- The factor `(isFirstYear ? firstYearFraction : 1)`. -/
def yearFraction (i : Inputs) (isFirstYear : Bool) : ℚ :=
  if isFirstYear then firstYearFraction i else 1

/-! ## Loop state -/

/-- The mutable variables of the year loop (lines 109-112, 127-128). -/
structure LoopState where
  taxable : ℚ
  retirement : ℚ
  yourAge : Int
  spouseAge : Int
  isFirstYear : Bool
  yearIdx : ℕ

/-- Lines 109-112, 127-128 (and 415-431): the state before the first year. -/
def initialState (i : Inputs) : LoopState :=
  { taxable := i.taxableAccounts
    retirement := i.retirementAccounts
    yourAge := calculateAge i.yourBirthdate i.currentDate
    spouseAge := calculateAge i.spouseBirthdate i.currentDate
    isFirstYear := true
    yearIdx := 0 }

/-- Lines 251-254 (and 526-529): the end of an iteration that does not stop. -/
def advance (s : LoopState) (taxable retirement : ℚ) : LoopState :=
  { taxable := taxable
    retirement := retirement
    yourAge := s.yourAge + 1
    spouseAge := s.spouseAge + 1
    isFirstYear := false
    yearIdx := s.yearIdx + 1 }

/-- Number of iterations after which the guard `yourAge <= maxAge` is false
for a loop entered at age `yourAge`. -/
def yearsLeft (i : Inputs) (yourAge : Int) : ℕ :=
  (⌊i.maxAge⌋ + 1 - yourAge).toNat

/-! ## Social Security (lines 134-157, identical at 446-471) -/

/-- Full retirement age, `yourFRA` and `spouseFRA`. -/
def fra : ℚ := 67

/-- Lines 131 and 443: `Math.pow(1 + inflationRate / 100, yearIdx)`. -/
def inflationMultiplier (i : Inputs) (yearIdx : ℕ) : ℚ :=
  (1 + i.inflationRate / 100) ^ yearIdx

/-- Lines 132 and 444. -/
def adjustedExpenses (i : Inputs) (s : LoopState) : ℚ :=
  i.annualExpenses * inflationMultiplier i s.yearIdx * yearFraction i s.isFirstYear

/-- Lines 137-139 and 450-452: the claiming-age multiplier. -/
def ssMultiplier (ssAge : ℚ) : ℚ :=
  let delayYears := ssAge - fra
  let earlyYears := fra - ssAge
  if delayYears > 0 then 1 + (delayYears * 0.08) else 1 - (earlyYears * 0.067)

/-- Lines 135-141 and 447-454. -/
def yourSSIncome (i : Inputs) (s : LoopState) : ℚ :=
  if (s.yourAge : ℚ) ≥ i.yourSSAge then
    i.yourSSBenefitAtFRA * ssMultiplier i.yourSSAge * inflationMultiplier i s.yearIdx
      * yearFraction i s.isFirstYear
  else 0

/-- Lines 145-150 and 459-464. -/
def adjustedSpousalBenefit (i : Inputs) : ℚ :=
  let spousalBenefit := i.yourSSBenefitAtFRA * 0.5
  if i.spouseSSAge < fra then
    let earlyYears := fra - i.spouseSSAge
    spousalBenefit * (1 - earlyYears * 0.067)
  else spousalBenefit

/-- Lines 143-152 and 456-466. -/
def spouseSSIncome (i : Inputs) (s : LoopState) : ℚ :=
  if (s.spouseAge : ℚ) ≥ i.spouseSSAge ∧ (s.yourAge : ℚ) ≥ i.yourSSAge then
    max i.spouseOwnBenefit (adjustedSpousalBenefit i) * inflationMultiplier i s.yearIdx
      * yearFraction i s.isFirstYear
  else 0

/-- Lines 154 and 468. -/
def totalSSIncome (i : Inputs) (s : LoopState) : ℚ :=
  yourSSIncome i s + spouseSSIncome i s

/-- Lines 155-156 and 469-470. -/
def ssTaxes (i : Inputs) (s : LoopState) : ℚ :=
  let ssTaxable := totalSSIncome i s * 0.85
  ssTaxable * (i.taxRate / 100)

/-- Lines 157 and 471. -/
def netSSIncome (i : Inputs) (s : LoopState) : ℚ :=
  totalSSIncome i s - ssTaxes i s

/-- Lines 160 and 474. -/
def netNeeded (i : Inputs) (s : LoopState) : ℚ :=
  if (s.yourAge : ℚ) ≥ i.retirementAge then adjustedExpenses i s - netSSIncome i s else 0

/-! ## Withdrawal block of `calculateProjections` (lines 162-196) -/

/-- The variables the withdrawal block of `calculateProjections` assigns. -/
structure Withdrawal where
  taxable : ℚ
  retirement : ℚ
  taxableWithdrawal : ℚ
  retirementWithdrawal : ℚ
  withdrawalTaxes : ℚ

/-- Lines 163-196. -/
def withdrawalStep (taxRate netNeeded taxable retirement : ℚ) : Withdrawal :=
  if netNeeded > 0 then
    let taxableEffectiveRate := 0.5 * (taxRate / 100)
    let grossNeededFromTaxable := netNeeded / (1 - taxableEffectiveRate)
    if taxable ≥ grossNeededFromTaxable then
      { taxableWithdrawal := grossNeededFromTaxable
        withdrawalTaxes := grossNeededFromTaxable * taxableEffectiveRate
        taxable := taxable - grossNeededFromTaxable
        retirementWithdrawal := 0
        retirement := retirement }
    else if taxable > 0 then
      let taxesOnTaxable := taxable * taxableEffectiveRate
      let netFromTaxable := taxable - taxesOnTaxable
      let stillNeeded := netNeeded - netFromTaxable
      let retirementWithdrawal := stillNeeded / (1 - taxRate / 100)
      { taxableWithdrawal := taxable
        withdrawalTaxes := taxesOnTaxable + retirementWithdrawal * (taxRate / 100)
        taxable := 0
        retirementWithdrawal := retirementWithdrawal
        retirement := retirement - retirementWithdrawal }
    else
      let retirementWithdrawal := netNeeded / (1 - taxRate / 100)
      { taxableWithdrawal := 0
        withdrawalTaxes := retirementWithdrawal * (taxRate / 100)
        taxable := taxable
        retirementWithdrawal := retirementWithdrawal
        retirement := retirement - retirementWithdrawal }
  else
    { taxableWithdrawal := 0
      withdrawalTaxes := 0
      taxable := taxable
      retirementWithdrawal := 0
      retirement := retirement }

/-! ## Growth (lines 201-205, and 500-504 with the sampled rate) -/

/-- Lines 202-205 and 501-504: `rate` is `returnRate / 100` in the projector
and `randomReturn` in the Monte Carlo loop, `frac` the first-year factor. -/
def applyReturns (rate frac taxable retirement : ℚ) : ℚ × ℚ :=
  let totalAfterWithdrawal := taxable + retirement
  let returnAmount := totalAfterWithdrawal * rate * frac
  (taxable + returnAmount * (taxable / jsOr totalAfterWithdrawal 1),
   retirement + returnAmount * (retirement / jsOr totalAfterWithdrawal 1))

/-! ## Required minimum distributions -/

/-- Lines 211-215: the object literal `rmdTable` of `calculateProjections`. -/
def rmdTable : List (Int × ℚ) :=
  [(73, 27.4), (74, 26.5), (75, 25.5), (76, 24.6), (77, 23.7), (78, 22.9), (79, 22.0),
   (80, 21.1), (81, 20.2), (82, 19.4), (83, 18.5), (84, 17.7), (85, 16.8), (86, 16.0),
   (87, 15.2), (88, 14.4), (89, 13.7), (90, 12.9), (91, 12.2), (92, 11.5), (93, 10.8),
   (94, 10.1), (95, 9.5)]

/-- Line 216: `rmdTable[yourAge] || 9.5`. -/
def rmdFactor (yourAge : Int) : ℚ :=
  match rmdTable.lookup yourAge with
  | some v => jsOr v 9.5
  | none => 9.5

/-- The variables the RMD block of `calculateProjections` assigns. -/
structure Rmd where
  taxable : ℚ
  retirement : ℚ
  rmdAmount : ℚ
  rmdTaxes : ℚ

/-- Lines 208-224: the RMD block of `calculateProjections`. -/
def rmdStep (taxRate : ℚ) (yourAge : Int) (retirementWithdrawal taxable retirement : ℚ) :
    Rmd :=
  if yourAge ≥ 73 ∧ retirement > 0 then
    let requiredRmd := retirement / rmdFactor yourAge
    if requiredRmd > retirementWithdrawal then
      let rmdAmount := requiredRmd - retirementWithdrawal
      let rmdTaxes := rmdAmount * (taxRate / 100)
      { rmdAmount := rmdAmount
        retirement := retirement - rmdAmount
        rmdTaxes := rmdTaxes
        taxable := taxable + (rmdAmount - rmdTaxes) }
    else { rmdAmount := 0, rmdTaxes := 0, taxable := taxable, retirement := retirement }
  else { rmdAmount := 0, rmdTaxes := 0, taxable := taxable, retirement := retirement }

/-! ## The deterministic projector (`calculateProjections`, lines 105-259) -/

/-- One element of `results` (lines 232-247).  `withdrawalRate` is the number
before `toFixed(2)` formats it. -/
structure Snapshot where
  yourAge : Int
  spouseAge : Int
  year : ℕ
  taxable : ℚ
  retirement : ℚ
  total : ℚ
  expenses : ℚ
  yourSSIncome : ℚ
  spouseSSIncome : ℚ
  totalSSIncome : ℚ
  netSSIncome : ℚ
  withdrawal : ℚ
  taxes : ℚ
  withdrawalRate : ℚ

/-- What one iteration of the projector loop leaves behind: the two balances
(not clamped) and the snapshot pushed to `results`. -/
structure YearOutcome where
  taxable : ℚ
  retirement : ℚ
  snapshot : Snapshot

/-- Lines 131-247: the body of the loop of `calculateProjections`. -/
def projectYear (i : Inputs) (s : LoopState) : YearOutcome :=
  let w := withdrawalStep i.taxRate (netNeeded i s) s.taxable s.retirement
  let totalBeforeReturns := w.taxable + w.retirement
  let g := applyReturns (i.returnRate / 100) (yearFraction i s.isFirstYear) w.taxable w.retirement
  let m := rmdStep i.taxRate s.yourAge w.retirementWithdrawal g.1 g.2
  let totalTaxes := ssTaxes i s + w.withdrawalTaxes
  let totalTaxesPaid := totalTaxes + m.rmdTaxes
  let totalGrossWithdrawal := w.taxableWithdrawal + w.retirementWithdrawal + m.rmdAmount
  let total := m.taxable + m.retirement
  let withdrawalRate :=
    if totalBeforeReturns > 0 then totalGrossWithdrawal / totalBeforeReturns * 100 else 0
  { taxable := m.taxable
    retirement := m.retirement
    snapshot :=
      { yourAge := s.yourAge
        spouseAge := s.spouseAge
        year := s.yearIdx + 1
        taxable := max 0 m.taxable
        retirement := max 0 m.retirement
        total := max 0 total
        expenses := if (s.yourAge : ℚ) ≥ i.retirementAge then adjustedExpenses i s else 0
        yourSSIncome := yourSSIncome i s
        spouseSSIncome := spouseSSIncome i s
        totalSSIncome := totalSSIncome i s
        netSSIncome := netSSIncome i s
        withdrawal := totalGrossWithdrawal
        taxes := totalTaxesPaid
        withdrawalRate := withdrawalRate } }

/-- The variables assigned by the withdrawal block in the year that starts in
state `s` (the value `w` of `projectYear`). -/
def yearWithdrawal (i : Inputs) (s : LoopState) : Withdrawal :=
  withdrawalStep i.taxRate (netNeeded i s) s.taxable s.retirement

/-- The balances `taxable` and `retirement` after lines 202-205 in the year
that starts in state `s` (the value `g` of `projectYear`). -/
def yearGrowth (i : Inputs) (s : LoopState) : ℚ × ℚ :=
  applyReturns (i.returnRate / 100) (yearFraction i s.isFirstYear)
    (yearWithdrawal i s).taxable (yearWithdrawal i s).retirement

/-- The variables assigned by the RMD block in the year that starts in state
`s` (the value `m` of `projectYear`). -/
def yearRmd (i : Inputs) (s : LoopState) : Rmd :=
  rmdStep i.taxRate s.yourAge (yearWithdrawal i s).retirementWithdrawal
    (yearGrowth i s).1 (yearGrowth i s).2

/-- Lines 130-255: the loop of `calculateProjections`, with the number of
iterations it may still make. -/
def projectionLoop (i : Inputs) : ℕ → LoopState → List Snapshot
  | 0, _ => []
  | fuel + 1, s =>
    if (s.yourAge : ℚ) ≤ i.maxAge then
      let y := projectYear i s
      if y.taxable + y.retirement ≤ 0 ∧ (s.yourAge : ℚ) ≥ i.retirementAge then
        [y.snapshot]
      else
        y.snapshot :: projectionLoop i fuel (advance s y.taxable y.retirement)
    else []

/-- Lines 105-257: the list `results` built by `calculateProjections`. -/
def calculateProjections (i : Inputs) : List Snapshot :=
  projectionLoop i (yearsLeft i (initialState i).yourAge) (initialState i)

/-- Line 264 of `displayProjections`: `results[results.length - 1]?.total || 0`,
the final total balance of the projection. -/
def finalBalance (results : List Snapshot) : ℚ :=
  match results.getLast? with
  | some last => jsOr last.total 0
  | none => 0

/-! ## Seeded generator (`mulberry32`, lines 393-401) -/

/-- The 32-bit pattern of a JavaScript number that holds an integer
(`ToUint32`, and the bits of `ToInt32`). -/
def toUint32 (x : Int) : ℕ := (x % 4294967296).toNat

/-- The 32-bit pattern of `Math.imul(a, b)`. -/
def imul (a b : ℕ) : ℕ := (a * b) % 4294967296

/-- Lines 396-399: one call of the closure returned by `mulberry32`, from the
value of the captured variable `seed`; returns the draw and the new value of
`seed` (which line 396 does not truncate: it stays an exact integer as long
as it is below `2 ^ 53`). -/
def mulberry32 (seed : Int) : ℚ × Int :=
  let seed1 := seed + 0x6D2B79F5
  let t0 := toUint32 seed1
  let t1 := imul (t0 ^^^ (t0 >>> 15)) (t0 ||| 1)
  let t2 := t1 ^^^ ((t1 + imul (t1 ^^^ (t1 >>> 7)) (t1 ||| 61)) % 4294967296)
  (((t2 ^^^ (t2 >>> 14) : ℕ) : ℚ) / 4294967296, seed1)

/-- The value returned by the call number `k + 1` of the closure of
`mulberry32` whose captured variable holds `seed` before the first call. -/
def mulberry32Nth (seed : Int) : ℕ → ℚ
  | 0 => (mulberry32 seed).1
  | k + 1 => mulberry32Nth (mulberry32 seed).2 k

/-- The function `rng` of line 412 together with its state: the closure of
`mulberry32` with its captured `seed`, or `Math.random`, modelled as the
sequence `random` of the values its successive calls return and the number of
calls made so far. -/
inductive Rng where
  | seeded (seed : Int)
  | ambient (random : ℕ → ℚ) (calls : ℕ)

/-- One call `rng()`. -/
def Rng.next : Rng → ℚ × Rng
  | .seeded seed => ((mulberry32 seed).1, .seeded (mulberry32 seed).2)
  | .ambient random calls => (random calls, .ambient random (calls + 1))

/-- Line 412: `inputs.seed ? mulberry32(inputs.seed) : Math.random`. -/
def chooseRng (i : Inputs) (random : ℕ → ℚ) : Rng :=
  match i.seed with
  | some seed => if seed ≠ 0 then .seeded seed else .ambient random 0
  | none => .ambient random 0

/-- The function `rng` after `k` further calls. -/
def Rng.drop : Rng → ℕ → Rng
  | g, 0 => g
  | g, k + 1 => Rng.drop g.next.2 k

/-- The value returned by the call number `k + 1` of `rng`, counted from the
state `g`. -/
def Rng.nth (g : Rng) (k : ℕ) : ℚ := (g.drop k).next.1

/-! ## The Monte Carlo loop (`runMonteCarlo`, lines 403-552) -/

/-- Lines 477-498: the withdrawal block of `runMonteCarlo`; returns `taxable`
and `retirement`. -/
def mcWithdrawalStep (taxRate netNeeded taxable retirement : ℚ) : ℚ × ℚ :=
  if netNeeded > 0 then
    let taxableEffectiveRate := 0.5 * (taxRate / 100)
    let grossNeededFromTaxable := netNeeded / (1 - taxableEffectiveRate)
    if taxable ≥ grossNeededFromTaxable then
      (taxable - grossNeededFromTaxable, retirement)
    else if taxable > 0 then
      let withdrawalTaxes := taxable * taxableEffectiveRate
      let netFromTaxable := taxable - withdrawalTaxes
      let stillNeeded := netNeeded - netFromTaxable
      let retirementWithdrawal := stillNeeded / (1 - taxRate / 100)
      (0, retirement - retirementWithdrawal)
    else
      let retirementWithdrawal := netNeeded / (1 - taxRate / 100)
      (taxable, retirement - retirementWithdrawal)
  else (taxable, retirement)

/-- Lines 508-512: the object literal `rmdTable` of `runMonteCarlo`. -/
def mcRmdTable : List (Int × ℚ) :=
  [(73, 27.4), (74, 26.5), (75, 25.5), (76, 24.6), (77, 23.7), (78, 22.9), (79, 22.0),
   (80, 21.1), (81, 20.2), (82, 19.4), (83, 18.5), (84, 17.7), (85, 16.8), (86, 16.0),
   (87, 15.2), (88, 14.4), (89, 13.7), (90, 12.9), (91, 12.2), (92, 11.5), (93, 10.8),
   (94, 10.1), (95, 9.5)]

/-- Line 513: `rmdTable[yourAge] || 9.5` in `runMonteCarlo`. -/
def mcRmdFactor (yourAge : Int) : ℚ :=
  match mcRmdTable.lookup yourAge with
  | some v => jsOr v 9.5
  | none => 9.5

/-- Lines 506-519: the RMD block of `runMonteCarlo`; returns `taxable` and
`retirement`. -/
def mcRmdStep (taxRate : ℚ) (yourAge : Int) (taxable retirement : ℚ) : ℚ × ℚ :=
  if yourAge ≥ 73 ∧ retirement > 0 then
    let requiredRmd := retirement / mcRmdFactor yourAge
    let rmdAmount := max 0 requiredRmd
    let rmdTaxes := rmdAmount * (taxRate / 100)
    (taxable + (rmdAmount - rmdTaxes), retirement - rmdAmount)
  else (taxable, retirement)

/-- Lines 436-441: the realized return from the two draws.  `normal u1 u2` is
the value of line 440, which is finite for `0 < u1 < 1`. -/
def randomReturn (i : Inputs) (normal : ℚ → ℚ → ℚ) (u1 u2 : ℚ) : ℚ :=
  let mean := i.returnRate / 100
  let sd := i.stdDev / 100
  mean + sd * normal u1 u2

/-- Lines 443-519: the body of the year loop of a trial after the draws;
returns `taxable` and `retirement`. -/
def mcYear (i : Inputs) (realized : ℚ) (s : LoopState) : ℚ × ℚ :=
  let w := mcWithdrawalStep i.taxRate (netNeeded i s) s.taxable s.retirement
  let g := applyReturns realized (yearFraction i s.isFirstYear) w.1 w.2
  mcRmdStep i.taxRate s.yourAge g.1 g.2

/-- What a trial contributes: the value pushed to `endBalances` and the
variable `broke`. -/
structure TrialOutcome where
  endBalance : ℚ
  broke : Bool

/-- Lines 434-533: the year loop of one trial, with the number of iterations
it may still make; returns the outcome and the generator after the trial. -/
def trialLoop (i : Inputs) (normal : ℚ → ℚ → ℚ) : ℕ → Rng → LoopState → TrialOutcome × Rng
  | 0, g, s => ({ endBalance := s.taxable + s.retirement, broke := false }, g)
  | fuel + 1, g, s =>
    if (s.yourAge : ℚ) ≤ i.maxAge then
      let d1 := g.next
      let d2 := d1.2.next
      let y := mcYear i (randomReturn i normal d1.1 d2.1) s
      if y.1 + y.2 ≤ 0 ∧ (s.yourAge : ℚ) ≥ i.retirementAge then
        ({ endBalance := y.1 + y.2, broke := true }, d2.2)
      else
        trialLoop i normal fuel d2.2 (advance s y.1 y.2)
    else ({ endBalance := s.taxable + s.retirement, broke := false }, g)

/-- The value of `yourAge` in the last iteration that the year loop of a trial
executes (`none` when it executes none): an observation on `trialLoop`, whose
recursion it follows. -/
def trialLastAge (i : Inputs) (normal : ℚ → ℚ → ℚ) : ℕ → Rng → LoopState → Option Int
  | 0, _, _ => none
  | fuel + 1, g, s =>
    if (s.yourAge : ℚ) ≤ i.maxAge then
      let d1 := g.next
      let d2 := d1.2.next
      let y := mcYear i (randomReturn i normal d1.1 d2.1) s
      if y.1 + y.2 ≤ 0 ∧ (s.yourAge : ℚ) ≥ i.retirementAge then
        some s.yourAge
      else
        match trialLastAge i normal fuel d2.2 (advance s y.1 y.2) with
        | some a => some a
        | none => some s.yourAge
    else none

/-- Lines 415-534: one iteration of the simulation loop. -/
def runTrial (i : Inputs) (normal : ℚ → ℚ → ℚ) (g : Rng) : TrialOutcome × Rng :=
  trialLoop i normal (yearsLeft i (initialState i).yourAge) g (initialState i)

/-- Lines 414-535: the simulation loop, `n` trials from generator `g`, in the
order in which they are pushed. -/
def runTrials (i : Inputs) (normal : ℚ → ℚ → ℚ) : ℕ → Rng → List TrialOutcome
  | 0, _ => []
  | n + 1, g => (runTrial i normal g).1 :: runTrials i normal n (runTrial i normal g).2

/-- Line 538: the quantiles. -/
def quantiles : List ℚ := [0.1, 0.25, 0.5, 0.75, 0.9]

/-- Line 539: `endBalances[Math.floor(p * endBalances.length)] || 0`. -/
def percentileAt (sorted : List ℚ) (p : ℚ) : ℚ :=
  match sorted[⌊p * (sorted.length : ℚ)⌋.toNat]? with
  | some v => jsOr v 0
  | none => 0

/-- Lines 538-540. -/
def percentilesOf (sorted : List ℚ) : List ℚ :=
  quantiles.map (percentileAt sorted)

/-- The object passed to `displayMonteCarloResults` (lines 542-547). -/
structure MonteCarloResults where
  successRate : ℚ
  medianEndBalance : ℚ
  percentiles : List ℚ
  endBalances : List ℚ

/-- Lines 410-547: `runMonteCarlo`, given the values `random` that
`Math.random` would return and the Box-Muller transform `normal`. -/
def runMonteCarlo (i : Inputs) (random : ℕ → ℚ) (normal : ℚ → ℚ → ℚ) : MonteCarloResults :=
  let outcomes := runTrials i normal i.simulations.toNat (chooseRng i random)
  let successCount := (outcomes.filter (fun o => !o.broke)).length
  let endBalances := (outcomes.map TrialOutcome.endBalance).insertionSort (· ≤ ·)
  let percentiles := percentilesOf endBalances
  { successRate := ((successCount : ℚ) / (i.simulations : ℚ)) * 100
    medianEndBalance := percentiles.getD 2 0
    percentiles := percentiles
    endBalances := endBalances }

/-- Line 562 of `displayMonteCarloResults`: the labels under which the
percentiles are listed (`percentileLabels[idx]` for `percentiles[idx]`). -/
def percentileLabels : List ℚ := [10, 20, 50, 75, 90]

/-! ## Histogram (`updateHistogram`, lines 579-593) -/

/-- Line 580. -/
def binWidth : ℚ := 500000

/-- Lines 588-592: the callback of `forEach`. -/
def addToBin (minBin : ℚ) (numBins : Int) (bins : List ℕ) (val : ℚ) : List ℕ :=
  let binIndex := ⌊(val - minBin) / binWidth⌋
  if binIndex ≥ 0 ∧ binIndex < numBins then bins.modify (· + 1) binIndex.toNat else bins

/-- Lines 580-593: the array `bins`.  For the empty array `Math.min()` is
`Infinity` and `Math.max()` is `-Infinity`, so both bin bounds are 0 and there
is no bin. -/
def updateHistogram (endBalances : List ℚ) : List ℕ :=
  match endBalances with
  | [] => []
  | v :: vs =>
    let minVal := vs.foldl min v
    let maxVal := vs.foldl max v
    let minBin := (⌊min minVal 0 / binWidth⌋ : ℚ) * binWidth
    let maxBin := (⌈max maxVal 0 / binWidth⌉ : ℚ) * binWidth
    let numBins := ⌈(maxBin - minBin) / binWidth⌉
    endBalances.foldl (addToBin minBin numBins) (List.replicate numBins.toNat 0)

/-! ## Sample input records -/

/-- A household whose primary is 73 and a half years old, with half a year
left until the next birthday, simulated for that one year (`maxAge` 73);
no Social Security, no inflation, no growth, tax rate 20%. -/
def sampleInputs : Inputs :=
  { currentDate := 2319483600000
    yourBirthdate := 0
    spouseBirthdate := 0
    nextBirthday := 2335262400000
    retirementAge := 65
    maxAge := 73
    taxableAccounts := 0
    retirementAccounts := 299000
    annualExpenses := 40000
    yourSSAge := 67
    yourSSBenefitAtFRA := 0
    spouseSSAge := 67
    spouseOwnBenefit := 0
    inflationRate := 0
    returnRate := 0
    taxRate := 20
    stdDev := 0
    simulations := 1
    seed := some 7 }

/-- The household of `sampleInputs` eight years earlier (primary 65 and a
half), simulated for the one year at age 65, with 10000 in the tax-deferred
account only. -/
def youngInputs : Inputs :=
  { sampleInputs with
    currentDate := 2067022800000
    nextBirthday := 2082801600000
    maxAge := 65
    retirementAccounts := 10000 }

/-- A record that supplies the seed 0 and a standard deviation of 10%: the
primary is 65, retires at 70 and holds 299000 tax-deferred. -/
def zeroSeedInputs : Inputs :=
  { youngInputs with
    retirementAge := 70
    retirementAccounts := 299000
    stdDev := 10
    seed := some 0 }

/-- A household with nothing: the record `youngInputs` with both balances and
the expenses at 0. -/
def pennilessInputs : Inputs :=
  { youngInputs with
    retirementAccounts := 0
    annualExpenses := 0 }

/-- The household of `sampleInputs` with a secondary spouse who claims at 62
and enters an own benefit of 1000. -/
def earlySpouseInputs : Inputs :=
  { sampleInputs with
    spouseSSAge := 62
    spouseOwnBenefit := 1000 }

/-- The household of `sampleInputs` with a primary who claims at 75 (and is
73) and a secondary spouse with an own benefit of 1000. -/
def waitingPrimaryInputs : Inputs :=
  { sampleInputs with
    yourSSAge := 75
    yourSSBenefitAtFRA := 2000
    spouseOwnBenefit := 1000 }

/-- The household of `sampleInputs` with a flat tax rate of 100%. -/
def fullTaxInputs : Inputs :=
  { sampleInputs with taxRate := 100 }

/-- The household of `youngInputs` simulated up to age 66: two years fit, and
the first one depletes the portfolio. -/
def depletingInputs : Inputs :=
  { youngInputs with maxAge := 66 }

/-! # Theorems -/

/-! ## General lemmas -/

theorem mcRmdFactor_eq (yourAge : Int) : mcRmdFactor yourAge = rmdFactor yourAge := rfl

theorem jsOr_zero (v : ℚ) : jsOr v 0 = v := by
  unfold jsOr
  split_ifs with h
  · exact h.symm
  · rfl

theorem yearsLeft_of_guard (i : Inputs) (a : Int) (hg : (a : ℚ) ≤ i.maxAge) :
    yearsLeft i a = yearsLeft i (a + 1) + 1 := by
  have h1 : a ≤ ⌊i.maxAge⌋ := Int.le_floor.mpr hg
  unfold yearsLeft
  omega

theorem yearsLeft_of_not_guard (i : Inputs) (a : Int) (hg : ¬ (a : ℚ) ≤ i.maxAge) :
    yearsLeft i a = 0 := by
  have h1 : ¬ a ≤ ⌊i.maxAge⌋ := fun h => hg (Int.le_floor.mp h)
  unfold yearsLeft
  omega

/-- Every snapshot of the loop is the snapshot of `projectYear` at a state that
passes the guard `yourAge <= maxAge` and satisfies any property `P` that holds
at entry and is kept by `advance`. -/
theorem projectionLoop_mem (i : Inputs) (P : LoopState → Prop)
    (hstep : ∀ s t r, P s → P (advance s t r)) :
    ∀ (fuel : ℕ) (s : LoopState), P s → ∀ snap ∈ projectionLoop i fuel s,
      ∃ s1, P s1 ∧ (s1.yourAge : ℚ) ≤ i.maxAge ∧ snap = (projectYear i s1).snapshot := by
  intro fuel
  induction fuel with
  | zero =>
    intro s _ snap h
    simp [projectionLoop] at h
  | succ n ih =>
    intro s hP snap h
    simp only [projectionLoop] at h
    split_ifs at h with hg hb
    · rw [List.mem_singleton] at h
      exact ⟨s, hP, hg, h⟩
    · rcases List.mem_cons.mp h with h | h
      · exact ⟨s, hP, hg, h⟩
      · exact ih _ (hstep s _ _ hP) snap h
    · simp at h

/-- The fuel `yearsLeft` is enough for the projector loop: with any larger
fuel the loop returns the same list, so it never stops for lack of fuel. -/
theorem projectionLoop_fuel (i : Inputs) :
    ∀ (fuel : ℕ) (s : LoopState), yearsLeft i s.yourAge ≤ fuel →
      projectionLoop i fuel s = projectionLoop i (yearsLeft i s.yourAge) s := by
  intro fuel
  induction fuel with
  | zero =>
    intro s h
    rw [Nat.le_zero.mp h]
  | succ n ih =>
    intro s h
    by_cases hg : (s.yourAge : ℚ) ≤ i.maxAge
    · have hy := yearsLeft_of_guard i s.yourAge hg
      have hadv : ∀ t r, (advance s t r).yourAge = s.yourAge + 1 := fun _ _ => rfl
      rw [hy]
      simp only [projectionLoop, if_pos hg]
      split_ifs with hb
      · rfl
      · rw [ih (advance s _ _) (by rw [hadv]; omega), hadv]
    · rw [yearsLeft_of_not_guard i s.yourAge hg]
      simp only [projectionLoop, if_neg hg]

/-- The fuel `yearsLeft` is enough for the year loop of a trial. -/
theorem trialLoop_fuel (i : Inputs) (normal : ℚ → ℚ → ℚ) :
    ∀ (fuel : ℕ) (g : Rng) (s : LoopState), yearsLeft i s.yourAge ≤ fuel →
      trialLoop i normal fuel g s = trialLoop i normal (yearsLeft i s.yourAge) g s := by
  intro fuel
  induction fuel with
  | zero =>
    intro g s h
    rw [Nat.le_zero.mp h]
  | succ n ih =>
    intro g s h
    by_cases hg : (s.yourAge : ℚ) ≤ i.maxAge
    · have hy := yearsLeft_of_guard i s.yourAge hg
      have hadv : ∀ t r, (advance s t r).yourAge = s.yourAge + 1 := fun _ _ => rfl
      rw [hy]
      simp only [trialLoop, if_pos hg]
      split_ifs with hb
      · rfl
      · rw [ih _ (advance s _ _) (by rw [hadv]; omega), hadv]
    · rw [yearsLeft_of_not_guard i s.yourAge hg]
      simp only [trialLoop, if_neg hg]

theorem projectionLoop_one (i : Inputs) (s : LoopState) (hg : (s.yourAge : ℚ) ≤ i.maxAge) :
    projectionLoop i 1 s = [(projectYear i s).snapshot] := by
  simp only [projectionLoop, if_pos hg]
  split_ifs with hb
  · rfl
  · rfl

theorem projectionLoop_ne_nil (i : Inputs) (n : ℕ) (s : LoopState)
    (hg : (s.yourAge : ℚ) ≤ i.maxAge) : projectionLoop i (n + 1) s ≠ [] := by
  simp only [projectionLoop, if_pos hg]
  split_ifs <;> simp

/-- One iteration of the trial loop ends with the balance left by `mcYear`,
whether the trial breaks or the loop ends at the next guard. -/
theorem trialLoop_one (i : Inputs) (normal : ℚ → ℚ → ℚ) (g : Rng) (s : LoopState)
    (hg : (s.yourAge : ℚ) ≤ i.maxAge) :
    (trialLoop i normal 1 g s).1.endBalance
      = (mcYear i (randomReturn i normal g.next.1 g.next.2.next.1) s).1
        + (mcYear i (randomReturn i normal g.next.1 g.next.2.next.1) s).2 := by
  simp only [trialLoop, if_pos hg]
  split_ifs with hb
  · rfl
  · rfl

theorem runTrials_mem (i : Inputs) (normal : ℚ → ℚ → ℚ) :
    ∀ (n : ℕ) (g : Rng), ∀ o ∈ runTrials i normal n g,
      ∃ g1 : Rng, o = (runTrial i normal g1).1 := by
  intro n
  induction n with
  | zero =>
    intro g o h
    simp [runTrials] at h
  | succ k ih =>
    intro g o h
    simp only [runTrials] at h
    rcases List.mem_cons.mp h with h | h
    · exact ⟨g, h⟩
    · exact ih _ o h

theorem runTrials_length (i : Inputs) (normal : ℚ → ℚ → ℚ) :
    ∀ (n : ℕ) (g : Rng), (runTrials i normal n g).length = n := by
  intro n
  induction n with
  | zero => intro g; rfl
  | succ k ih =>
    intro g
    simp only [runTrials, List.length_cons, ih]

/-- With one trial of one year the sorted list `endBalances` is the balance
left by `mcYear` on the first two draws. -/
theorem runMonteCarlo_one (i : Inputs) (random : ℕ → ℚ) (normal : ℚ → ℚ → ℚ)
    (hsim : i.simulations = 1) (hfuel : yearsLeft i (initialState i).yourAge = 1)
    (hg : ((initialState i).yourAge : ℚ) ≤ i.maxAge) :
    (runMonteCarlo i random normal).endBalances
      = [(mcYear i (randomReturn i normal (chooseRng i random).next.1
              (chooseRng i random).next.2.next.1) (initialState i)).1
          + (mcYear i (randomReturn i normal (chooseRng i random).next.1
              (chooseRng i random).next.2.next.1) (initialState i)).2] := by
  simp only [runMonteCarlo, hsim, Int.toNat_one, runTrials, runTrial, hfuel, List.map_cons,
    List.map_nil, List.insertionSort, List.orderedInsert, trialLoop_one i normal _ _ hg]

theorem randomReturn_of_stdDev_zero (i : Inputs) (normal : ℚ → ℚ → ℚ) (u1 u2 : ℚ)
    (hsd : i.stdDev = 0) : randomReturn i normal u1 u2 = i.returnRate / 100 := by
  simp [randomReturn, hsd]

/-- For a first draw in `(0, 1)`, where the sample of line 440 is finite, a
zero standard deviation makes the realized return the mean return. -/
theorem randomReturn_of_finite_draw (i : Inputs) (normal : ℚ → ℚ → ℚ) (u1 u2 : ℚ)
    (hsd : i.stdDev = 0) (hpos : 0 < u1) (hlt : u1 < 1) :
    randomReturn i normal u1 u2 = i.returnRate / 100 := by
  simp [randomReturn, hsd]

theorem rng_drop_add (a b : ℕ) : ∀ g : Rng, (g.drop a).drop b = g.drop (a + b) := by
  induction a with
  | zero =>
    intro g
    rw [Nat.zero_add]
    rfl
  | succ n ih =>
    intro g
    have h : n + 1 + b = (n + b) + 1 := by omega
    rw [h]
    exact ih g.next.2

theorem rng_nth_drop (g : Rng) (a b : ℕ) : (g.drop a).nth b = g.nth (a + b) := by
  unfold Rng.nth
  rw [rng_drop_add]

/-- The year loop of a trial makes two calls of `rng` per year executed: it
leaves the generator `2 * m` calls further, for a number `m` of years that is
at most the fuel. -/
theorem trialLoop_rng (i : Inputs) (normal : ℚ → ℚ → ℚ) :
    ∀ (fuel : ℕ) (g : Rng) (s : LoopState),
      ∃ m : ℕ, m ≤ fuel ∧ (trialLoop i normal fuel g s).2 = g.drop (2 * m) := by
  intro fuel
  induction fuel with
  | zero =>
    intro g s
    exact ⟨0, le_refl 0, rfl⟩
  | succ n ih =>
    intro g s
    by_cases hg : (s.yourAge : ℚ) ≤ i.maxAge
    · by_cases hb : (mcYear i (randomReturn i normal g.next.1 g.next.2.next.1) s).1
          + (mcYear i (randomReturn i normal g.next.1 g.next.2.next.1) s).2 ≤ 0
          ∧ (s.yourAge : ℚ) ≥ i.retirementAge
      · refine ⟨1, by omega, ?_⟩
        simp only [trialLoop, if_pos hg, if_pos hb]
        rfl
      · obtain ⟨m, hm, hrng⟩ := ih g.next.2.next.2
          (advance s (mcYear i (randomReturn i normal g.next.1 g.next.2.next.1) s).1
            (mcYear i (randomReturn i normal g.next.1 g.next.2.next.1) s).2)
        refine ⟨m + 1, by omega, ?_⟩
        simp only [trialLoop, if_pos hg, if_neg hb]
        rw [hrng]
        have h2 : g.next.2.next.2 = g.drop 2 := rfl
        rw [h2, rng_drop_add]
        congr 1
        omega
    · refine ⟨0, Nat.zero_le _, ?_⟩
      simp only [trialLoop, if_neg hg]
      rfl

/-- Every trial of the simulation loop is run from a state of the generator
whose first draws of the year are first draws of the year of the whole run:
when the draws number `2 * k + 1` of the run lie in `(0, 1)` for
`k < n * fuel`, so do those of each of the `n` trials for `k < fuel`, where
`fuel` bounds the years of a trial. -/
theorem runTrials_mem_draws (i : Inputs) (normal : ℚ → ℚ → ℚ) :
    ∀ (n : ℕ) (g : Rng),
      (∀ k : ℕ, k < n * yearsLeft i (initialState i).yourAge →
        0 < g.nth (2 * k) ∧ g.nth (2 * k) < 1) →
      ∀ o ∈ runTrials i normal n g,
        ∃ g1 : Rng, o = (runTrial i normal g1).1
          ∧ ∀ k : ℕ, k < yearsLeft i (initialState i).yourAge →
              0 < g1.nth (2 * k) ∧ g1.nth (2 * k) < 1 := by
  intro n
  induction n with
  | zero =>
    intro g _ o h
    simp [runTrials] at h
  | succ j ih =>
    intro g hdraw o h
    simp only [runTrials] at h
    rcases List.mem_cons.mp h with h | h
    · refine ⟨g, h, ?_⟩
      intro k hk
      apply hdraw k
      calc k < yearsLeft i (initialState i).yourAge := hk
        _ ≤ (j + 1) * yearsLeft i (initialState i).yourAge := Nat.le_mul_of_pos_left _ (by omega)
    · obtain ⟨m, hm, hrng⟩ := trialLoop_rng i normal (yearsLeft i (initialState i).yourAge) g
        (initialState i)
      have hrun : (runTrial i normal g).2 = g.drop (2 * m) := hrng
      rw [hrun] at h
      apply ih (g.drop (2 * m)) _ o h
      intro k hk
      rw [rng_nth_drop]
      have hidx : 2 * m + 2 * k = 2 * (m + k) := by ring
      rw [hidx]
      apply hdraw (m + k)
      have hexp : (j + 1) * yearsLeft i (initialState i).yourAge
          = j * yearsLeft i (initialState i).yourAge + yearsLeft i (initialState i).yourAge := by
        ring
      omega

/-- A non-zero seed makes the whole result independent of `Math.random`: two
runs on the same record agree whatever `Math.random` returns. -/
theorem runMonteCarlo_seeded (i : Inputs) (seed : Int) (hseed : i.seed = some seed)
    (hne : seed ≠ 0) (random1 random2 : ℕ → ℚ) (normal : ℚ → ℚ → ℚ) :
    runMonteCarlo i random1 normal = runMonteCarlo i random2 normal := by
  have h : ∀ random, chooseRng i random = Rng.seeded seed := by
    intro random
    simp only [chooseRng, hseed, if_pos hne]
  simp only [runMonteCarlo, h]

theorem mcWithdrawalStep_eq (r n T D : ℚ) :
    mcWithdrawalStep r n T D
      = ((withdrawalStep r n T D).taxable, (withdrawalStep r n T D).retirement) := by
  by_cases hn : n > 0
  · by_cases h1 : T ≥ n / (1 - 0.5 * (r / 100))
    · simp only [mcWithdrawalStep, withdrawalStep, if_pos hn, if_pos h1]
    · by_cases h2 : T > 0
      · simp only [mcWithdrawalStep, withdrawalStep, if_pos hn, if_neg h1, if_pos h2]
      · simp only [mcWithdrawalStep, withdrawalStep, if_pos hn, if_neg h1, if_neg h2]
  · simp only [mcWithdrawalStep, withdrawalStep, if_neg hn]

theorem mcRmdStep_of_lt (r : ℚ) (age : Int) (T D : ℚ) (h : age < 73) :
    mcRmdStep r age T D = (T, D) := by
  have hn : ¬ (age ≥ 73 ∧ D > 0) := fun hh => by omega
  simp only [mcRmdStep, if_neg hn]

theorem rmdStep_of_lt (r : ℚ) (age : Int) (W T D : ℚ) (h : age < 73) :
    rmdStep r age W T D = { taxable := T, retirement := D, rmdAmount := 0, rmdTaxes := 0 } := by
  have hn : ¬ (age ≥ 73 ∧ D > 0) := fun hh => by omega
  simp only [rmdStep, if_neg hn]

/-- Below age 73 the Monte Carlo year at the mean return leaves the balances
of the projector year. -/
theorem mcYear_eq_projectYear (i : Inputs) (s : LoopState) (h : s.yourAge < 73) :
    mcYear i (i.returnRate / 100) s = ((projectYear i s).taxable, (projectYear i s).retirement) := by
  simp only [mcYear, projectYear, mcWithdrawalStep_eq, mcRmdStep_of_lt _ _ _ _ h,
    rmdStep_of_lt _ _ _ _ _ h]

theorem getLast?_map_cons (x : Snapshot) (rest : List Snapshot) (d : ℚ) :
    (((x :: rest).getLast?).map Snapshot.total).getD d
      = ((rest.getLast?).map Snapshot.total).getD x.total := by
  rw [List.getLast?_cons]
  cases rest.getLast? <;> rfl

/-- With zero standard deviation, no year at age 73 or more and the first draw
of every year in `(0, 1)`, a trial ends with the (unclamped) balance whose
clamp is the total of the last snapshot of the projector loop run from the
same state with the same fuel. -/
theorem trialLoop_endBalance (i : Inputs) (normal : ℚ → ℚ → ℚ) (hsd : i.stdDev = 0)
    (hmax : i.maxAge < 73) :
    ∀ (fuel : ℕ) (g : Rng) (s : LoopState),
      (∀ k : ℕ, k < fuel → 0 < g.nth (2 * k) ∧ g.nth (2 * k) < 1) →
      max 0 (trialLoop i normal fuel g s).1.endBalance
        = (((projectionLoop i fuel s).getLast?).map Snapshot.total).getD
            (max 0 (s.taxable + s.retirement)) := by
  intro fuel
  induction fuel with
  | zero =>
    intro g s _
    rfl
  | succ n ih =>
    intro g s hdraw
    simp only [trialLoop, projectionLoop]
    by_cases hg : (s.yourAge : ℚ) ≤ i.maxAge
    · have hage : s.yourAge < 73 := by
        have h1 : (s.yourAge : ℚ) < 73 := lt_of_le_of_lt hg hmax
        exact_mod_cast h1
      have hu : 0 < g.next.1 ∧ g.next.1 < 1 := hdraw 0 (Nat.succ_pos n)
      have hnext : ∀ k : ℕ, k < n →
          0 < g.next.2.next.2.nth (2 * k) ∧ g.next.2.next.2.nth (2 * k) < 1 := by
        intro k hk
        have h2 : g.next.2.next.2 = g.drop 2 := rfl
        have hidx : 2 + 2 * k = 2 * (k + 1) := by ring
        rw [h2, rng_nth_drop, hidx]
        exact hdraw (k + 1) (by omega)
      rw [if_pos hg, if_pos hg, randomReturn_of_finite_draw i normal _ _ hsd hu.1 hu.2,
        mcYear_eq_projectYear i s hage]
      by_cases hb : (projectYear i s).taxable + (projectYear i s).retirement ≤ 0
          ∧ (s.yourAge : ℚ) ≥ i.retirementAge
      · rw [if_pos hb, if_pos hb]
        rfl
      · rw [if_neg hb, if_neg hb, getLast?_map_cons, ih _ _ hnext]
        rfl
    · rw [if_neg hg, if_neg hg]
      rfl

theorem finalBalance_eq (l : List Snapshot) (d : ℚ) (h : l ≠ []) :
    finalBalance l = ((l.getLast?).map Snapshot.total).getD d := by
  unfold finalBalance
  cases hl : l.getLast? with
  | none => exact absurd (List.getLast?_eq_none_iff.mp hl) h
  | some x => simp [jsOr_zero]

theorem percentileIndex_lt (N : ℕ) (p : ℚ) (hp0 : 0 ≤ p) (hp1 : p < 1) (hN : 0 < N) :
    ⌊p * (N : ℚ)⌋.toNat < N := by
  have hNq : (0 : ℚ) < N := by exact_mod_cast hN
  have h0 : (0 : Int) ≤ ⌊p * (N : ℚ)⌋ := Int.floor_nonneg.mpr (mul_nonneg hp0 hNq.le)
  have h1 : ⌊p * (N : ℚ)⌋ < (N : Int) := by
    rw [Int.floor_lt]
    have : p * (N : ℚ) < 1 * N := mul_lt_mul_of_pos_right hp1 hNq
    simpa using this
  omega

theorem percentileIndex_mono (N : ℕ) (p q : ℚ) (hpq : p ≤ q) :
    ⌊p * (N : ℚ)⌋.toNat ≤ ⌊q * (N : ℚ)⌋.toNat := by
  have hNq : (0 : ℚ) ≤ N := by exact_mod_cast Nat.zero_le N
  have : ⌊p * (N : ℚ)⌋ ≤ ⌊q * (N : ℚ)⌋ := Int.floor_le_floor (mul_le_mul_of_nonneg_right hpq hNq)
  omega

theorem percentileAt_eq_getElem (l : List ℚ) (p : ℚ) (h : ⌊p * (l.length : ℚ)⌋.toNat < l.length) :
    percentileAt l p = l[⌊p * (l.length : ℚ)⌋.toNat] := by
  unfold percentileAt
  rw [List.getElem?_eq_getElem h]
  exact jsOr_zero _

theorem percentileAt_mono (l : List ℚ) (hs : l.Sorted (· ≤ ·)) (p q : ℚ)
    (hp0 : 0 ≤ p) (hpq : p ≤ q) (hq1 : q < 1) (hl : 0 < l.length) :
    percentileAt l p ≤ percentileAt l q := by
  have hq : ⌊q * (l.length : ℚ)⌋.toNat < l.length :=
    percentileIndex_lt l.length q (hp0.trans hpq) hq1 hl
  have hp : ⌊p * (l.length : ℚ)⌋.toNat < l.length :=
    percentileIndex_lt l.length p hp0 (lt_of_le_of_lt hpq hq1) hl
  rw [percentileAt_eq_getElem l p hp, percentileAt_eq_getElem l q hq]
  have h := hs.rel_get_of_le (a := ⟨_, hp⟩) (b := ⟨_, hq⟩)
    (percentileIndex_mono l.length p q hpq)
  simpa using h

/-- Every snapshot of `calculateProjections` is the snapshot of `projectYear`
at a state that passes the loop guard and has `isFirstYear` exactly when
`yearIdx = 0`. -/
theorem calculateProjections_mem (i : Inputs) (snap : Snapshot)
    (h : snap ∈ calculateProjections i) :
    ∃ s : LoopState, snap = (projectYear i s).snapshot
      ∧ (s.isFirstYear = true ↔ s.yearIdx = 0) ∧ (s.yourAge : ℚ) ≤ i.maxAge := by
  obtain ⟨s, hP, hg, hs⟩ := projectionLoop_mem i
    (fun s => (s.isFirstYear = true ↔ s.yearIdx = 0))
    (fun s t r _ => by simp [advance])
    _ (initialState i) (by simp [initialState]) snap h
  exact ⟨s, hs, hP, hg⟩

theorem firstYear_ite (i : Inputs) (s : LoopState)
    (hP : s.isFirstYear = true ↔ s.yearIdx = 0) :
    (if s.yearIdx + 1 = 1 then firstYearFraction i else 1)
      = (if s.isFirstYear then firstYearFraction i else 1) := by
  by_cases h0 : s.yearIdx = 0
  · have := hP.mpr h0
    simp [h0, this]
  · have : ¬ s.isFirstYear = true := fun h => h0 (hP.mp h)
    simp [h0, this]

theorem rmdTable_keys : ∀ p ∈ rmdTable, 73 ≤ p.1 ∧ p.1 ≤ 95 := by decide

theorem rmdFactor_outside (a : Int) (h : a < 73 ∨ 95 < a) : rmdFactor a = 9.5 := by
  have hnone : rmdTable.lookup a = none := by
    rw [List.lookup_eq_none_iff]
    intro p hp
    have hk := rmdTable_keys p hp
    simp only [bne_iff_ne, ne_eq]
    omega
  simp only [rmdFactor, hnone]

theorem rmdFactor_inside (a : Int) (h1 : 73 ≤ a) (h2 : a ≤ 95) :
    rmdTable.lookup a = some (rmdFactor a) ∧ 9.5 ≤ rmdFactor a ∧ rmdFactor a ≤ 27.4 := by
  interval_cases a <;> simp +decide [rmdFactor, rmdTable, List.lookup, jsOr] <;> norm_num

theorem rmdFactor_decreasing (a : Int) (h1 : 73 ≤ a) (h2 : a ≤ 94) :
    rmdFactor (a + 1) < rmdFactor a := by
  interval_cases a <;> simp +decide [rmdFactor, rmdTable, List.lookup, jsOr] <;> norm_num

theorem rmdFactor_ge (a : Int) : 9.5 ≤ rmdFactor a := by
  by_cases h : a < 73 ∨ 95 < a
  · rw [rmdFactor_outside a h]
  · exact (rmdFactor_inside a (by omega) (by omega)).2.1

theorem shiftRight_lt (x n : ℕ) (h : x < 4294967296) : x >>> n < 4294967296 := by
  rw [Nat.shiftRight_eq_div_pow]
  exact lt_of_le_of_lt (Nat.div_le_self _ _) h

theorem xor_lt (x y : ℕ) (hx : x < 4294967296) (hy : y < 4294967296) :
    x ^^^ y < 4294967296 := by
  have h32 : (4294967296 : ℕ) = 2 ^ 32 := by norm_num
  rw [h32] at hx hy ⊢
  exact Nat.xor_lt_two_pow hx hy

/-- One call of the generator returns `m / 2 ^ 32` for a 32-bit `m`, whatever
the captured variable holds. -/
theorem mulberry32_range (seed : Int) :
    ∃ m : ℕ, m < 4294967296 ∧ (mulberry32 seed).1 = (m : ℚ) / 4294967296 := by
  have hmod : ∀ x : ℕ, x % 4294967296 < 4294967296 := fun x => Nat.mod_lt x (by norm_num)
  have ht1 : ∀ a b : ℕ, imul a b < 4294967296 := fun a b => hmod (a * b)
  refine ⟨_, ?_, rfl⟩
  exact xor_lt _ _ (xor_lt _ _ (ht1 _ _) (hmod _))
    (shiftRight_lt _ 14 (xor_lt _ _ (ht1 _ _) (hmod _)))

theorem mulberry32Nth_range (k : ℕ) :
    ∀ seed : Int, ∃ m : ℕ, m < 4294967296 ∧ mulberry32Nth seed k = (m : ℚ) / 4294967296 := by
  induction k with
  | zero =>
    intro seed
    exact mulberry32_range seed
  | succ n ih =>
    intro seed
    exact ih (mulberry32 seed).2

theorem snapshot_total_le_zero_iff (i : Inputs) (s : LoopState) :
    (projectYear i s).snapshot.total ≤ 0
      ↔ (projectYear i s).taxable + (projectYear i s).retirement ≤ 0 := by
  have h : (projectYear i s).snapshot.total
      = max 0 ((projectYear i s).taxable + (projectYear i s).retirement) := rfl
  rw [h]
  constructor
  · intro hm
    exact le_trans (le_max_right _ _) hm
  · intro ht
    exact max_le (le_refl 0) ht

theorem projectionLoop_length_le (i : Inputs) :
    ∀ (fuel : ℕ) (s : LoopState), (projectionLoop i fuel s).length ≤ fuel := by
  intro fuel
  induction fuel with
  | zero =>
    intro s
    simp [projectionLoop]
  | succ n ih =>
    intro s
    simp only [projectionLoop]
    split_ifs with hg hb
    · simp
    · simp only [List.length_cons]
      exact Nat.succ_le_succ (ih _)
    · simp

/-- The snapshot at position `k` of the loop started in state `s` is the
snapshot of `projectYear` at the state `k` years later, and unless it is the
last snapshot the stop test of line 249 fails there. -/
theorem projectionLoop_getElem? (i : Inputs) :
    ∀ (fuel : ℕ) (s : LoopState) (k : ℕ) (snap : Snapshot),
      (projectionLoop i fuel s)[k]? = some snap →
      ∃ s1 : LoopState, snap = (projectYear i s1).snapshot
        ∧ s1.yearIdx = s.yearIdx + k ∧ s1.yourAge = s.yourAge + k
        ∧ s1.spouseAge = s.spouseAge + k
        ∧ (s1.isFirstYear = true ↔ (s.isFirstYear = true ∧ k = 0))
        ∧ (k + 1 < (projectionLoop i fuel s).length →
            ¬ ((projectYear i s1).taxable + (projectYear i s1).retirement ≤ 0
                ∧ (s1.yourAge : ℚ) ≥ i.retirementAge)) := by
  intro fuel
  induction fuel with
  | zero =>
    intro s k snap h
    simp [projectionLoop] at h
  | succ n ih =>
    intro s k snap h
    simp only [projectionLoop] at h ⊢
    by_cases hg : (s.yourAge : ℚ) ≤ i.maxAge
    · rw [if_pos hg] at h ⊢
      by_cases hb : (projectYear i s).taxable + (projectYear i s).retirement ≤ 0
          ∧ (s.yourAge : ℚ) ≥ i.retirementAge
      · rw [if_pos hb] at h ⊢
        cases k with
        | zero =>
          simp only [List.getElem?_cons_zero, Option.some.injEq] at h
          refine ⟨s, h.symm, by simp, by simp, by simp, by simp, ?_⟩
          intro hlen
          simp at hlen
        | succ j =>
          simp at h
      · rw [if_neg hb] at h ⊢
        cases k with
        | zero =>
          simp only [List.getElem?_cons_zero, Option.some.injEq] at h
          exact ⟨s, h.symm, by simp, by simp, by simp, by simp, fun _ => hb⟩
        | succ j =>
          simp only [List.getElem?_cons_succ] at h
          obtain ⟨s1, h1, h2, h3, h4, h5, h6⟩ := ih _ j snap h
          refine ⟨s1, h1, ?_, ?_, ?_, ?_, ?_⟩
          · rw [h2]
            simp only [advance]
            omega
          · rw [h3]
            simp only [advance]
            push_cast
            ring
          · rw [h4]
            simp only [advance]
            push_cast
            ring
          · rw [h5]
            simp [advance]
          · intro hlen
            simp only [List.length_cons] at hlen
            exact h6 (by omega)
    · rw [if_neg hg] at h
      simp at h

/-- Without a stop the loop started with fuel `yearsLeft` makes exactly that
many snapshots. -/
theorem projectionLoop_length_of_no_stop (i : Inputs) :
    ∀ (fuel : ℕ) (s : LoopState), fuel = yearsLeft i s.yourAge →
      (∀ snap ∈ projectionLoop i fuel s,
        ¬ (snap.total ≤ 0 ∧ (snap.yourAge : ℚ) ≥ i.retirementAge)) →
      (projectionLoop i fuel s).length = fuel := by
  intro fuel
  induction fuel with
  | zero =>
    intro s _ _
    simp [projectionLoop]
  | succ n ih =>
    intro s hfuel hno
    have hg : (s.yourAge : ℚ) ≤ i.maxAge := by
      by_contra hng
      rw [yearsLeft_of_not_guard i s.yourAge hng] at hfuel
      omega
    have hn : n = yearsLeft i (s.yourAge + 1) := by
      rw [yearsLeft_of_guard i s.yourAge hg] at hfuel
      omega
    simp only [projectionLoop, if_pos hg] at hno ⊢
    by_cases hb : (projectYear i s).taxable + (projectYear i s).retirement ≤ 0
        ∧ (s.yourAge : ℚ) ≥ i.retirementAge
    · exfalso
      rw [if_pos hb] at hno
      exact hno _ (List.mem_singleton.mpr rfl)
        ⟨(snapshot_total_le_zero_iff i s).mpr hb.1, hb.2⟩
    · rw [if_neg hb] at hno ⊢
      simp only [List.length_cons]
      rw [ih (advance s _ _) hn (fun snap hm => hno snap (List.mem_cons_of_mem _ hm))]

/-- The last snapshot of the loop started with fuel `yearsLeft` either stops
the trajectory or is the snapshot of the last age that passes the guard. -/
theorem projectionLoop_last (i : Inputs) :
    ∀ (fuel : ℕ) (s : LoopState), fuel = yearsLeft i s.yourAge →
      ∀ last : Snapshot, (projectionLoop i fuel s).getLast? = some last →
        (last.total ≤ 0 ∧ (last.yourAge : ℚ) ≥ i.retirementAge) ∨ last.yourAge = ⌊i.maxAge⌋ := by
  intro fuel
  induction fuel with
  | zero =>
    intro s _ last h
    simp [projectionLoop] at h
  | succ n ih =>
    intro s hfuel last h
    have hg : (s.yourAge : ℚ) ≤ i.maxAge := by
      by_contra hng
      rw [yearsLeft_of_not_guard i s.yourAge hng] at hfuel
      omega
    have hn : n = yearsLeft i (s.yourAge + 1) := by
      rw [yearsLeft_of_guard i s.yourAge hg] at hfuel
      omega
    simp only [projectionLoop, if_pos hg] at h
    by_cases hb : (projectYear i s).taxable + (projectYear i s).retirement ≤ 0
        ∧ (s.yourAge : ℚ) ≥ i.retirementAge
    · rw [if_pos hb, List.getLast?_singleton, Option.some.injEq] at h
      subst h
      exact Or.inl ⟨(snapshot_total_le_zero_iff i s).mpr hb.1, hb.2⟩
    · rw [if_neg hb, List.getLast?_cons, Option.some.injEq] at h
      cases hrest : (projectionLoop i n (advance s (projectYear i s).taxable
          (projectYear i s).retirement)).getLast? with
      | some l =>
        rw [hrest] at h
        simp only [Option.getD_some] at h
        subst h
        exact ih _ hn l hrest
      | none =>
        rw [hrest] at h
        simp only [Option.getD_none] at h
        subst h
        right
        have hnil := List.getLast?_eq_none_iff.mp hrest
        have hn0 : n = 0 := by
          by_contra hne
          obtain ⟨m, rfl⟩ := Nat.exists_eq_succ_of_ne_zero hne
          have hg1 : (((advance s (projectYear i s).taxable
              (projectYear i s).retirement).yourAge : Int) : ℚ) ≤ i.maxAge := by
            by_contra hng
            have h0 := yearsLeft_of_not_guard i _ hng
            simp only [advance] at h0
            omega
          exact projectionLoop_ne_nil i m _ hg1 hnil
        have hfl : s.yourAge ≤ ⌊i.maxAge⌋ := Int.le_floor.mpr hg
        have hy : yearsLeft i s.yourAge = 1 := by omega
        show s.yourAge = ⌊i.maxAge⌋
        unfold yearsLeft at hy
        omega

theorem firstYearFraction_nonneg (i : Inputs) : 0 ≤ firstYearFraction i :=
  le_max_left _ _

theorem firstYearFraction_le_one (i : Inputs) : firstYearFraction i ≤ 1 :=
  max_le zero_le_one (min_le_left _ _)

theorem yearFraction_nonneg (i : Inputs) (b : Bool) : 0 ≤ yearFraction i b := by
  unfold yearFraction
  split_ifs
  · exact firstYearFraction_nonneg i
  · exact zero_le_one

/-- The withdrawal block takes out of the two balances what it records as
withdrawn. -/
theorem withdrawalStep_total (r n T D : ℚ) :
    (withdrawalStep r n T D).taxable + (withdrawalStep r n T D).retirement
      = T + D - (withdrawalStep r n T D).taxableWithdrawal
          - (withdrawalStep r n T D).retirementWithdrawal := by
  by_cases hn : n > 0
  · by_cases h1 : T ≥ n / (1 - 0.5 * (r / 100))
    · simp only [withdrawalStep, if_pos hn, if_pos h1]
      ring
    · by_cases h2 : T > 0
      · simp only [withdrawalStep, if_pos hn, if_neg h1, if_pos h2]
        ring
      · simp only [withdrawalStep, if_pos hn, if_neg h1, if_neg h2]
        ring
  · simp only [withdrawalStep, if_neg hn]
    ring

/-- With a tax rate in `[0, 100)` percent the gross withdrawals net of the
withdrawal tax are exactly `netNeeded`. -/
theorem withdrawalStep_net (r n T D : ℚ) (hn : n > 0) (hr0 : 0 ≤ r) (hr1 : r < 100) :
    (withdrawalStep r n T D).taxableWithdrawal + (withdrawalStep r n T D).retirementWithdrawal
      - (withdrawalStep r n T D).withdrawalTaxes = n := by
  have he : (1 : ℚ) - 0.5 * (r / 100) ≠ 0 := by
    norm_num
    linarith
  have hf : (1 : ℚ) - r / 100 ≠ 0 := by
    have : (0 : ℚ) < 1 - r / 100 := by linarith
    exact ne_of_gt this
  by_cases h1 : T ≥ n / (1 - 0.5 * (r / 100))
  · have hg : n / (1 - 0.5 * (r / 100)) * (1 - 0.5 * (r / 100)) = n := div_mul_cancel₀ n he
    simp only [withdrawalStep, if_pos hn, if_pos h1]
    linear_combination hg
  · by_cases h2 : T > 0
    · have hW : (n - (T - T * (0.5 * (r / 100)))) / (1 - r / 100) * (1 - r / 100)
          = n - (T - T * (0.5 * (r / 100))) := div_mul_cancel₀ _ hf
      simp only [withdrawalStep, if_pos hn, if_neg h1, if_pos h2]
      linear_combination hW
    · have hW : n / (1 - r / 100) * (1 - r / 100) = n := div_mul_cancel₀ n hf
      simp only [withdrawalStep, if_pos hn, if_neg h1, if_neg h2]
      linear_combination hW

/-- The growth step multiplies the combined balance by `1 + rate * frac`. -/
theorem applyReturns_total (rate frac T D : ℚ) :
    (applyReturns rate frac T D).1 + (applyReturns rate frac T D).2
      = (T + D) * (1 + rate * frac) := by
  by_cases h : T + D = 0
  · simp only [applyReturns, h, zero_mul, add_zero]
  · have hj : jsOr (T + D) 1 = T + D := by simp only [jsOr, if_neg h]
    simp only [applyReturns, hj]
    field_simp
    ring

theorem rmdStep_taxes (r : ℚ) (age : Int) (W T D : ℚ) :
    (rmdStep r age W T D).rmdTaxes = (rmdStep r age W T D).rmdAmount * (r / 100) := by
  by_cases hg : age ≥ 73 ∧ D > 0
  · by_cases h : D / rmdFactor age > W
    · simp only [rmdStep, if_pos hg, if_pos h]
    · simp only [rmdStep, if_pos hg, if_neg h, zero_mul]
  · simp only [rmdStep, if_neg hg, zero_mul]

/-- The RMD block lowers the combined balance by the RMD tax only. -/
theorem rmdStep_total (r : ℚ) (age : Int) (W T D : ℚ) :
    (rmdStep r age W T D).taxable + (rmdStep r age W T D).retirement
      = T + D - (rmdStep r age W T D).rmdTaxes := by
  by_cases hg : age ≥ 73 ∧ D > 0
  · by_cases h : D / rmdFactor age > W
    · simp only [rmdStep, if_pos hg, if_pos h]
      ring
    · simp only [rmdStep, if_pos hg, if_neg h]
      ring
  · simp only [rmdStep, if_neg hg]
    ring

/-- Signs after the withdrawal block, for a non-negative taxable balance and a
tax rate in `[0, 100)` percent: the taxable balance stays non-negative, the
tax-deferred withdrawal is non-negative, and the tax-deferred balance changes
only in a year with `netNeeded > 0` that empties the taxable balance. -/
theorem withdrawalStep_signs (r n T D : ℚ) (hT : 0 ≤ T) (hr0 : 0 ≤ r) (hr1 : r < 100) :
    0 ≤ (withdrawalStep r n T D).taxable
    ∧ 0 ≤ (withdrawalStep r n T D).retirementWithdrawal
    ∧ ((withdrawalStep r n T D).retirement = D
        ∨ ((withdrawalStep r n T D).taxable = 0 ∧ n > 0)) := by
  have he : (0 : ℚ) < 1 - 0.5 * (r / 100) := by
    norm_num
    linarith
  have hf : (0 : ℚ) < 1 - r / 100 := by linarith
  by_cases hn : n > 0
  · by_cases h1 : T ≥ n / (1 - 0.5 * (r / 100))
    · simp only [withdrawalStep, if_pos hn, if_pos h1]
      exact ⟨by linarith, le_refl 0, Or.inl trivial⟩
    · by_cases h2 : T > 0
      · simp only [withdrawalStep, if_pos hn, if_neg h1, if_pos h2]
        have hlt : T < n / (1 - 0.5 * (r / 100)) := not_le.mp h1
        have hmul : T * (1 - 0.5 * (r / 100)) < n := (lt_div_iff₀ he).mp hlt
        exact ⟨le_refl 0, div_nonneg (by linarith) hf.le, Or.inr ⟨trivial, hn⟩⟩
      · simp only [withdrawalStep, if_pos hn, if_neg h1, if_neg h2]
        have hT0 : T = 0 := le_antisymm (not_lt.mp h2) hT
        exact ⟨hT, div_nonneg hn.le hf.le, Or.inr ⟨hT0, hn⟩⟩
  · simp only [withdrawalStep, if_neg hn]
    exact ⟨hT, le_refl 0, Or.inl trivial⟩

/-- With a non-negative growth factor the growth step multiplies both balances
by one positive number. -/
theorem applyReturns_scale (rate frac T D : ℚ) (hq : 0 ≤ rate * frac) :
    ∃ c : ℚ, 0 < c ∧ applyReturns rate frac T D = (T * c, D * c) := by
  by_cases h : T + D = 0
  · refine ⟨1, zero_lt_one, ?_⟩
    simp only [applyReturns, h, zero_mul, add_zero, mul_one]
  · refine ⟨1 + rate * frac, by linarith, ?_⟩
    have hj : jsOr (T + D) 1 = T + D := by simp only [jsOr, if_neg h]
    simp only [applyReturns, hj, Prod.mk.injEq]
    constructor
    · field_simp
      ring
    · field_simp
      ring

/-- Signs after the RMD block of the projector, for a tax rate in `[0, 100)`
percent and a non-negative withdrawal already taken. -/
theorem rmdStep_signs (r : ℚ) (age : Int) (W T D : ℚ) (hr0 : 0 ≤ r) (hr1 : r < 100)
    (hW : 0 ≤ W) :
    T ≤ (rmdStep r age W T D).taxable
    ∧ (D ≤ 0 → (rmdStep r age W T D).retirement = D ∧ (rmdStep r age W T D).taxable = T)
    ∧ (0 ≤ D → 0 ≤ (rmdStep r age W T D).retirement) := by
  by_cases hg : age ≥ 73 ∧ D > 0
  · by_cases h : D / rmdFactor age > W
    · simp only [rmdStep, if_pos hg, if_pos h]
      have hfac : (1 : ℚ) ≤ rmdFactor age := by
        have h95 := rmdFactor_ge age
        have : (1 : ℚ) ≤ 9.5 := by norm_num
        exact le_trans this h95
      have hpos : (0 : ℚ) < rmdFactor age := lt_of_lt_of_le zero_lt_one hfac
      have hle : D / rmdFactor age ≤ D := by
        rw [div_le_iff₀ hpos]
        nlinarith [hg.2]
      have hamt : 0 < D / rmdFactor age - W := by linarith
      have hone : 0 < 1 - r / 100 := by linarith
      have hkeep : 0 ≤ (D / rmdFactor age - W) * (1 - r / 100) :=
        mul_nonneg hamt.le hone.le
      refine ⟨by linarith, ?_, ?_⟩
      · intro hD
        exact absurd hg.2 (not_lt.mpr hD)
      · intro _
        linarith
    · simp only [rmdStep, if_pos hg, if_neg h]
      exact ⟨le_refl T, fun _ => ⟨trivial, trivial⟩, fun hD => hD⟩
  · simp only [rmdStep, if_neg hg]
    exact ⟨le_refl T, fun _ => ⟨trivial, trivial⟩, fun hD => hD⟩

theorem netNeeded_pos_age (i : Inputs) (s : LoopState) (h : netNeeded i s > 0) :
    (s.yourAge : ℚ) ≥ i.retirementAge := by
  by_contra hn
  simp only [netNeeded, if_neg hn] at h
  exact lt_irrefl 0 h

/-- Signs at the end of a projector year that starts with non-negative
balances, for a tax rate in `[0, 100)` percent and a non-negative return
rate: the taxable balance is non-negative, and the tax-deferred balance is
negative only with a taxable balance of 0 at an age `>= retirementAge`. -/
theorem projectYear_signs (i : Inputs) (s : LoopState) (hT : 0 ≤ s.taxable)
    (hD : 0 ≤ s.retirement) (hr0 : 0 ≤ i.taxRate) (hr1 : i.taxRate < 100)
    (hret : 0 ≤ i.returnRate) :
    0 ≤ (projectYear i s).taxable
    ∧ ((projectYear i s).retirement < 0 →
        (projectYear i s).taxable = 0 ∧ (s.yourAge : ℚ) ≥ i.retirementAge) := by
  have h1 : (projectYear i s).taxable = (yearRmd i s).taxable := rfl
  have h2 : (projectYear i s).retirement = (yearRmd i s).retirement := rfl
  obtain ⟨hw1, hw2, hw3⟩ :=
    withdrawalStep_signs i.taxRate (netNeeded i s) s.taxable s.retirement hT hr0 hr1
  have hq : 0 ≤ i.returnRate / 100 * yearFraction i s.isFirstYear :=
    mul_nonneg (div_nonneg hret (by norm_num)) (yearFraction_nonneg i _)
  obtain ⟨c, hc, hg⟩ := applyReturns_scale (i.returnRate / 100)
    (yearFraction i s.isFirstYear) (yearWithdrawal i s).taxable
    (yearWithdrawal i s).retirement hq
  have hg1 : (yearGrowth i s).1 = (yearWithdrawal i s).taxable * c := congrArg Prod.fst hg
  have hg2 : (yearGrowth i s).2 = (yearWithdrawal i s).retirement * c := congrArg Prod.snd hg
  obtain ⟨hm1, hm2, hm3⟩ := rmdStep_signs i.taxRate s.yourAge
    (yearWithdrawal i s).retirementWithdrawal (yearGrowth i s).1 (yearGrowth i s).2 hr0 hr1 hw2
  have hg1nn : 0 ≤ (yearGrowth i s).1 := by
    rw [hg1]
    exact mul_nonneg hw1 hc.le
  rw [h1, h2]
  refine ⟨le_trans hg1nn hm1, ?_⟩
  intro hneg
  have hgneg : (yearGrowth i s).2 < 0 := by
    by_contra hnn
    exact absurd (hm3 (not_lt.mp hnn)) (not_le.mpr hneg)
  obtain ⟨_, hmt⟩ := hm2 hgneg.le
  have hwneg : (yearWithdrawal i s).retirement < 0 := by
    by_contra hnn
    have : 0 ≤ (yearWithdrawal i s).retirement * c := mul_nonneg (not_lt.mp hnn) hc.le
    rw [← hg2] at this
    exact absurd this (not_le.mpr hgneg)
  rcases hw3 with heq | ⟨hz, hn⟩
  · exfalso
    have : (yearWithdrawal i s).retirement = s.retirement := heq
    linarith
  · refine ⟨?_, netNeeded_pos_age i s hn⟩
    have hy : (yearRmd i s).taxable = (yearGrowth i s).1 := hmt
    have hz1 : (yearWithdrawal i s).taxable = 0 := hz
    rw [hy, hg1, hz1, zero_mul]

/-- The snapshot at position `k` of the loop is the snapshot of `projectYear`
at a state that satisfies any property `P` which holds at entry and is kept by
every year that does not stop the loop; unless it is the last snapshot, the
stop test fails at that state. -/
theorem projectionLoop_getElem?_inv (i : Inputs) (P : LoopState → Prop)
    (hstep : ∀ s, P s → (s.yourAge : ℚ) ≤ i.maxAge →
      ¬ ((projectYear i s).taxable + (projectYear i s).retirement ≤ 0
          ∧ (s.yourAge : ℚ) ≥ i.retirementAge) →
      P (advance s (projectYear i s).taxable (projectYear i s).retirement)) :
    ∀ (fuel : ℕ) (s : LoopState) (k : ℕ) (snap : Snapshot), P s →
      (projectionLoop i fuel s)[k]? = some snap →
      ∃ s1 : LoopState, P s1 ∧ snap = (projectYear i s1).snapshot
        ∧ (k + 1 < (projectionLoop i fuel s).length →
            ¬ ((projectYear i s1).taxable + (projectYear i s1).retirement ≤ 0
                ∧ (s1.yourAge : ℚ) ≥ i.retirementAge)) := by
  intro fuel
  induction fuel with
  | zero =>
    intro s k snap _ h
    simp [projectionLoop] at h
  | succ n ih =>
    intro s k snap hP h
    simp only [projectionLoop] at h ⊢
    by_cases hg : (s.yourAge : ℚ) ≤ i.maxAge
    · rw [if_pos hg] at h ⊢
      by_cases hb : (projectYear i s).taxable + (projectYear i s).retirement ≤ 0
          ∧ (s.yourAge : ℚ) ≥ i.retirementAge
      · rw [if_pos hb] at h ⊢
        cases k with
        | zero =>
          simp only [List.getElem?_cons_zero, Option.some.injEq] at h
          refine ⟨s, hP, h.symm, ?_⟩
          intro hlen
          simp at hlen
        | succ j =>
          simp at h
      · rw [if_neg hb] at h ⊢
        cases k with
        | zero =>
          simp only [List.getElem?_cons_zero, Option.some.injEq] at h
          exact ⟨s, hP, h.symm, fun _ => hb⟩
        | succ j =>
          simp only [List.getElem?_cons_succ] at h
          obtain ⟨s1, h1, h2, h3⟩ := ih _ j snap (hstep s hP hg hb) h
          refine ⟨s1, h1, h2, ?_⟩
          intro hlen
          simp only [List.length_cons] at hlen
          exact h3 (by omega)
    · rw [if_neg hg] at h
      simp at h

theorem trialLastAge_none (i : Inputs) (normal : ℚ → ℚ → ℚ) :
    ∀ (fuel : ℕ) (g : Rng) (s : LoopState), trialLastAge i normal fuel g s = none →
      trialLoop i normal fuel g s
        = ({ endBalance := s.taxable + s.retirement, broke := false }, g) := by
  intro fuel g s h
  cases fuel with
  | zero => rfl
  | succ n =>
    by_cases hg : (s.yourAge : ℚ) ≤ i.maxAge
    · exfalso
      simp only [trialLastAge, if_pos hg] at h
      split_ifs at h
      cases hrec : trialLastAge i normal n g.next.2.next.2
          (advance s (mcYear i (randomReturn i normal g.next.1 g.next.2.next.1) s).1
            (mcYear i (randomReturn i normal g.next.1 g.next.2.next.1) s).2) with
      | none => simp [hrec] at h
      | some a => simp [hrec] at h
    · simp only [trialLoop, if_neg hg]

/-- The flag `broke` and the terminal balance of the year loop of a trial: a
broke trial ends at a balance `<= 0`, and when the last year executed is at an
age `>= retirementAge` the trial is not broke exactly when its terminal
balance is positive. -/
theorem trialLoop_flag (i : Inputs) (normal : ℚ → ℚ → ℚ) :
    ∀ (fuel : ℕ) (g : Rng) (s : LoopState),
      ((trialLoop i normal fuel g s).1.broke = true →
          (trialLoop i normal fuel g s).1.endBalance ≤ 0)
      ∧ (∀ a : Int, trialLastAge i normal fuel g s = some a → (a : ℚ) ≥ i.retirementAge →
          ((trialLoop i normal fuel g s).1.broke = false
            ↔ (trialLoop i normal fuel g s).1.endBalance > 0)) := by
  intro fuel
  induction fuel with
  | zero =>
    intro g s
    constructor
    · intro h
      simp [trialLoop] at h
    · intro a h
      simp [trialLastAge] at h
  | succ n ih =>
    intro g s
    by_cases hg : (s.yourAge : ℚ) ≤ i.maxAge
    · by_cases hb : (mcYear i (randomReturn i normal g.next.1 g.next.2.next.1) s).1
          + (mcYear i (randomReturn i normal g.next.1 g.next.2.next.1) s).2 ≤ 0
          ∧ (s.yourAge : ℚ) ≥ i.retirementAge
      · simp only [trialLoop, trialLastAge, if_pos hg, if_pos hb]
        constructor
        · intro _
          exact hb.1
        · intro a _ _
          constructor
          · intro h
            simp at h
          · intro h
            exact absurd hb.1 (not_le.mpr h)
      · simp only [trialLoop, trialLastAge, if_pos hg, if_neg hb]
        obtain ⟨ih1, ih2⟩ := ih g.next.2.next.2
          (advance s (mcYear i (randomReturn i normal g.next.1 g.next.2.next.1) s).1
            (mcYear i (randomReturn i normal g.next.1 g.next.2.next.1) s).2)
        refine ⟨ih1, ?_⟩
        intro a ha hage
        cases hrec : trialLastAge i normal n g.next.2.next.2
            (advance s (mcYear i (randomReturn i normal g.next.1 g.next.2.next.1) s).1
              (mcYear i (randomReturn i normal g.next.1 g.next.2.next.1) s).2) with
        | some b =>
          rw [hrec] at ha
          simp only [Option.some.injEq] at ha
          subst ha
          exact ih2 b hrec hage
        | none =>
          rw [hrec] at ha
          simp only [Option.some.injEq] at ha
          subst ha
          rw [trialLastAge_none i normal n _ _ hrec]
          have hpos : (mcYear i (randomReturn i normal g.next.1 g.next.2.next.1) s).1
              + (mcYear i (randomReturn i normal g.next.1 g.next.2.next.1) s).2 > 0 := by
            by_contra hle
            exact hb ⟨not_lt.mp hle, hage⟩
          simp only [advance, true_iff]
          exact hpos
    · simp only [trialLoop, trialLastAge, if_neg hg]
      constructor
      · intro h
        simp at h
      · intro a h
        simp at h

/-- A trial that executes at least one year and is not broke has executed the
year of the last age that passes the guard, `floor(maxAge)`. -/
theorem trialLastAge_of_not_broke (i : Inputs) (normal : ℚ → ℚ → ℚ) :
    ∀ (fuel : ℕ) (g : Rng) (s : LoopState), fuel = yearsLeft i s.yourAge →
      (s.yourAge : ℚ) ≤ i.maxAge → (trialLoop i normal fuel g s).1.broke = false →
      trialLastAge i normal fuel g s = some ⌊i.maxAge⌋ := by
  intro fuel
  induction fuel with
  | zero =>
    intro g s hfuel hg _
    rw [yearsLeft_of_guard i s.yourAge hg] at hfuel
    omega
  | succ n ih =>
    intro g s hfuel hg hnb
    have hn : n = yearsLeft i (s.yourAge + 1) := by
      rw [yearsLeft_of_guard i s.yourAge hg] at hfuel
      omega
    by_cases hb : (mcYear i (randomReturn i normal g.next.1 g.next.2.next.1) s).1
        + (mcYear i (randomReturn i normal g.next.1 g.next.2.next.1) s).2 ≤ 0
        ∧ (s.yourAge : ℚ) ≥ i.retirementAge
    · simp only [trialLoop, if_pos hg, if_pos hb] at hnb
      simp at hnb
    · simp only [trialLoop, if_pos hg, if_neg hb] at hnb
      simp only [trialLastAge, if_pos hg, if_neg hb]
      by_cases hg1 : ((s.yourAge + 1 : Int) : ℚ) ≤ i.maxAge
      · rw [ih g.next.2.next.2 _ hn hg1 hnb]
      · have h0 : n = 0 := by
          rw [hn]
          exact yearsLeft_of_not_guard i _ hg1
        subst h0
        simp only [trialLastAge]
        have hfl : s.yourAge ≤ ⌊i.maxAge⌋ := Int.le_floor.mpr hg
        have hfl1 : ¬ s.yourAge + 1 ≤ ⌊i.maxAge⌋ := fun h => hg1 (Int.le_floor.mp h)
        congr 1
        omega

/-! ## Evaluation of the sample records -/

theorem calculateAge_sample : calculateAge 0 2319483600000 = 73 := by
  unfold calculateAge msInYear
  rw [Int.floor_eq_iff]
  norm_num

theorem firstYearFraction_sample : firstYearFraction sampleInputs = 1 / 2 := by
  norm_num [firstYearFraction, sampleInputs, msInYear]

theorem rmdFactor_73 : rmdFactor 73 = 27.4 := by
  norm_num [rmdFactor, rmdTable, List.lookup, jsOr]

theorem initialState_sample :
    initialState sampleInputs
      = { taxable := 0, retirement := 299000, yourAge := 73, spouseAge := 73,
          isFirstYear := true, yearIdx := 0 } := by
  simp only [initialState, sampleInputs, calculateAge_sample]

theorem netNeeded_sample : netNeeded sampleInputs (initialState sampleInputs) = 20000 := by
  rw [initialState_sample]
  simp only [netNeeded, adjustedExpenses, netSSIncome, ssTaxes, totalSSIncome, yourSSIncome,
    spouseSSIncome, adjustedSpousalBenefit, ssMultiplier, fra, inflationMultiplier,
    yearFraction, firstYearFraction_sample]
  norm_num [sampleInputs]

theorem requiredRmd_sample : (274000 : ℚ) / rmdFactor 73 = 10000 := by
  rw [rmdFactor_73]
  norm_num

theorem yearFraction_sample :
    yearFraction sampleInputs (initialState sampleInputs).isFirstYear = 1 / 2 := by
  rw [initialState_sample]
  simp only [yearFraction, firstYearFraction_sample, if_true]

theorem mcWithdrawalStep_sample :
    mcWithdrawalStep sampleInputs.taxRate (netNeeded sampleInputs (initialState sampleInputs))
      (initialState sampleInputs).taxable (initialState sampleInputs).retirement
      = (0, 274000) := by
  rw [netNeeded_sample, initialState_sample]
  norm_num [mcWithdrawalStep, sampleInputs]

theorem withdrawalStep_sample :
    withdrawalStep sampleInputs.taxRate (netNeeded sampleInputs (initialState sampleInputs))
      (initialState sampleInputs).taxable (initialState sampleInputs).retirement
      = { taxable := 0, retirement := 274000, taxableWithdrawal := 0,
          retirementWithdrawal := 25000, withdrawalTaxes := 5000 } := by
  rw [netNeeded_sample, initialState_sample]
  norm_num [withdrawalStep, sampleInputs]

theorem applyReturns_sample : applyReturns 0 (1 / 2) 0 274000 = (0, 274000) := by
  norm_num [applyReturns, jsOr]

theorem mcRmdStep_sample : mcRmdStep sampleInputs.taxRate 73 0 274000 = (8000, 264000) := by
  simp only [mcRmdStep, mcRmdFactor_eq, requiredRmd_sample]
  norm_num [sampleInputs]

theorem rmdStep_sample :
    rmdStep sampleInputs.taxRate 73 25000 0 274000
      = { taxable := 0, retirement := 274000, rmdAmount := 0, rmdTaxes := 0 } := by
  simp only [rmdStep, requiredRmd_sample]
  norm_num

theorem mcYear_sample :
    mcYear sampleInputs (sampleInputs.returnRate / 100) (initialState sampleInputs)
      = (8000, 264000) := by
  have hrate : sampleInputs.returnRate / 100 = 0 := by norm_num [sampleInputs]
  have hage : (initialState sampleInputs).yourAge = 73 := by rw [initialState_sample]
  simp only [mcYear, mcWithdrawalStep_sample, yearFraction_sample, hrate, applyReturns_sample,
    hage, mcRmdStep_sample]

theorem projectYear_sample :
    (projectYear sampleInputs (initialState sampleInputs)).taxable = 0
    ∧ (projectYear sampleInputs (initialState sampleInputs)).retirement = 274000 := by
  have hrate : sampleInputs.returnRate / 100 = 0 := by norm_num [sampleInputs]
  have hage : (initialState sampleInputs).yourAge = 73 := by rw [initialState_sample]
  constructor
  · simp only [projectYear, withdrawalStep_sample, yearFraction_sample, hrate,
      applyReturns_sample, hage, rmdStep_sample]
  · simp only [projectYear, withdrawalStep_sample, yearFraction_sample, hrate,
      applyReturns_sample, hage, rmdStep_sample]

theorem yearsLeft_sample : yearsLeft sampleInputs (initialState sampleInputs).yourAge = 1 := by
  rw [initialState_sample]
  norm_num [yearsLeft, sampleInputs]

theorem guard_sample : ((initialState sampleInputs).yourAge : ℚ) ≤ sampleInputs.maxAge := by
  rw [initialState_sample]
  norm_num [sampleInputs]

theorem runMonteCarlo_sample (random : ℕ → ℚ) (normal : ℚ → ℚ → ℚ) :
    (runMonteCarlo sampleInputs random normal).endBalances = [272000] := by
  rw [runMonteCarlo_one sampleInputs random normal rfl yearsLeft_sample guard_sample,
    randomReturn_of_stdDev_zero sampleInputs normal _ _ rfl, mcYear_sample]
  norm_num

theorem finalBalance_sample : finalBalance (calculateProjections sampleInputs) = 274000 := by
  rw [calculateProjections, yearsLeft_sample, projectionLoop_one _ _ guard_sample]
  have ht : (projectYear sampleInputs (initialState sampleInputs)).snapshot.total
      = max 0 ((projectYear sampleInputs (initialState sampleInputs)).taxable
          + (projectYear sampleInputs (initialState sampleInputs)).retirement) := rfl
  simp only [finalBalance, List.getLast?_singleton, jsOr_zero, ht, projectYear_sample.1,
    projectYear_sample.2]
  norm_num

theorem calculateAge_young : calculateAge 0 2067022800000 = 65 := by
  unfold calculateAge msInYear
  rw [Int.floor_eq_iff]
  norm_num

theorem firstYearFraction_young : firstYearFraction youngInputs = 1 / 2 := by
  norm_num [firstYearFraction, youngInputs, sampleInputs, msInYear]

theorem initialState_young :
    initialState youngInputs
      = { taxable := 0, retirement := 10000, yourAge := 65, spouseAge := 65,
          isFirstYear := true, yearIdx := 0 } := by
  simp only [initialState, youngInputs, sampleInputs, calculateAge_young]

theorem netNeeded_young : netNeeded youngInputs (initialState youngInputs) = 20000 := by
  rw [initialState_young]
  simp only [netNeeded, adjustedExpenses, netSSIncome, ssTaxes, totalSSIncome, yourSSIncome,
    spouseSSIncome, adjustedSpousalBenefit, ssMultiplier, fra, inflationMultiplier,
    yearFraction, firstYearFraction_young]
  norm_num [youngInputs, sampleInputs]

theorem mcYear_young (realized : ℚ) :
    mcYear youngInputs realized (initialState youngInputs) = (0, -15000 * (1 + realized / 2)) := by
  have hw : mcWithdrawalStep youngInputs.taxRate
      (netNeeded youngInputs (initialState youngInputs))
      (initialState youngInputs).taxable (initialState youngInputs).retirement
      = (0, -15000) := by
    rw [netNeeded_young, initialState_young]
    norm_num [mcWithdrawalStep, youngInputs, sampleInputs]
  have hfrac : yearFraction youngInputs (initialState youngInputs).isFirstYear = 1 / 2 := by
    rw [initialState_young]
    simp only [yearFraction, firstYearFraction_young, if_true]
  have hage : (initialState youngInputs).yourAge = 65 := by rw [initialState_young]
  simp only [mcYear, hw, hfrac, hage]
  norm_num [applyReturns, jsOr, mcRmdStep]
  ring

theorem yearsLeft_young : yearsLeft youngInputs (initialState youngInputs).yourAge = 1 := by
  rw [initialState_young]
  norm_num [yearsLeft, youngInputs, sampleInputs]

theorem guard_young : ((initialState youngInputs).yourAge : ℚ) ≤ youngInputs.maxAge := by
  rw [initialState_young]
  norm_num [youngInputs, sampleInputs]

theorem runMonteCarlo_young (random : ℕ → ℚ) (normal : ℚ → ℚ → ℚ) :
    (runMonteCarlo youngInputs random normal).endBalances = [-15000] := by
  have hg : ((initialState youngInputs).yourAge : ℚ) ≤ youngInputs.maxAge := by
    rw [initialState_young]
    norm_num [youngInputs, sampleInputs]
  rw [runMonteCarlo_one youngInputs random normal rfl yearsLeft_young hg, mcYear_young,
    randomReturn_of_stdDev_zero youngInputs normal _ _ rfl]
  norm_num [youngInputs, sampleInputs]

theorem finalBalance_young : finalBalance (calculateProjections youngInputs) = 0 := by
  rw [calculateProjections, yearsLeft_young, projectionLoop_one _ _ guard_young]
  have hage : (initialState youngInputs).yourAge < 73 := by
    rw [initialState_young]
    norm_num
  have hy := mcYear_eq_projectYear youngInputs (initialState youngInputs) hage
  rw [mcYear_young] at hy
  have h1 : (projectYear youngInputs (initialState youngInputs)).taxable = 0 :=
    (congrArg Prod.fst hy).symm
  have h2 : (projectYear youngInputs (initialState youngInputs)).retirement
      = -15000 * (1 + youngInputs.returnRate / 100 / 2) := (congrArg Prod.snd hy).symm
  have ht : (projectYear youngInputs (initialState youngInputs)).snapshot.total
      = max 0 ((projectYear youngInputs (initialState youngInputs)).taxable
          + (projectYear youngInputs (initialState youngInputs)).retirement) := rfl
  simp only [finalBalance, List.getLast?_singleton, jsOr_zero, ht, h1, h2]
  norm_num [youngInputs, sampleInputs]

theorem initialState_zeroSeed :
    initialState zeroSeedInputs
      = { taxable := 0, retirement := 299000, yourAge := 65, spouseAge := 65,
          isFirstYear := true, yearIdx := 0 } := by
  simp only [initialState, zeroSeedInputs, youngInputs, sampleInputs, calculateAge_young]

theorem mcYear_zeroSeed (realized : ℚ) :
    mcYear zeroSeedInputs realized (initialState zeroSeedInputs)
      = (0, 299000 * (1 + realized / 2)) := by
  have hfy : firstYearFraction zeroSeedInputs = 1 / 2 := by
    norm_num [firstYearFraction, zeroSeedInputs, youngInputs, sampleInputs, msInYear]
  have hn : netNeeded zeroSeedInputs (initialState zeroSeedInputs) = 0 := by
    rw [initialState_zeroSeed]
    norm_num [netNeeded, zeroSeedInputs, youngInputs, sampleInputs]
  have hw : mcWithdrawalStep zeroSeedInputs.taxRate
      (netNeeded zeroSeedInputs (initialState zeroSeedInputs))
      (initialState zeroSeedInputs).taxable (initialState zeroSeedInputs).retirement
      = (0, 299000) := by
    rw [hn, initialState_zeroSeed]
    norm_num [mcWithdrawalStep]
  have hfrac : yearFraction zeroSeedInputs (initialState zeroSeedInputs).isFirstYear
      = 1 / 2 := by
    rw [initialState_zeroSeed]
    simp only [yearFraction, hfy, if_true]
  have hage : (initialState zeroSeedInputs).yourAge = 65 := by rw [initialState_zeroSeed]
  simp only [mcYear, hw, hfrac, hage]
  norm_num [applyReturns, jsOr, mcRmdStep]
  ring

theorem initialState_earlySpouse :
    initialState earlySpouseInputs
      = { taxable := 0, retirement := 299000, yourAge := 73, spouseAge := 73,
          isFirstYear := true, yearIdx := 0 } := by
  simp only [initialState, earlySpouseInputs, sampleInputs, calculateAge_sample]

theorem firstYearFraction_earlySpouse : firstYearFraction earlySpouseInputs = 1 / 2 := by
  norm_num [firstYearFraction, earlySpouseInputs, sampleInputs, msInYear]

theorem spouseSSIncome_earlySpouse :
    spouseSSIncome earlySpouseInputs (initialState earlySpouseInputs) = 500 := by
  rw [initialState_earlySpouse]
  simp only [spouseSSIncome, adjustedSpousalBenefit, fra, inflationMultiplier, yearFraction,
    firstYearFraction_earlySpouse]
  norm_num [earlySpouseInputs, sampleInputs]

theorem calculateProjections_earlySpouse :
    calculateProjections earlySpouseInputs
      = [(projectYear earlySpouseInputs (initialState earlySpouseInputs)).snapshot] := by
  have hfuel : yearsLeft earlySpouseInputs (initialState earlySpouseInputs).yourAge = 1 := by
    rw [initialState_earlySpouse]
    norm_num [yearsLeft, earlySpouseInputs, sampleInputs]
  have hg : ((initialState earlySpouseInputs).yourAge : ℚ) ≤ earlySpouseInputs.maxAge := by
    rw [initialState_earlySpouse]
    norm_num [earlySpouseInputs, sampleInputs]
  rw [calculateProjections, hfuel, projectionLoop_one _ _ hg]

theorem initialState_waitingPrimary :
    initialState waitingPrimaryInputs
      = { taxable := 0, retirement := 299000, yourAge := 73, spouseAge := 73,
          isFirstYear := true, yearIdx := 0 } := by
  simp only [initialState, waitingPrimaryInputs, sampleInputs, calculateAge_sample]

theorem yearWithdrawal_sample :
    yearWithdrawal sampleInputs (initialState sampleInputs)
      = { taxable := 0, retirement := 274000, taxableWithdrawal := 0,
          retirementWithdrawal := 25000, withdrawalTaxes := 5000 } :=
  withdrawalStep_sample

theorem yearRmd_sample :
    yearRmd sampleInputs (initialState sampleInputs)
      = { taxable := 0, retirement := 274000, rmdAmount := 0, rmdTaxes := 0 } := by
  have hrate : sampleInputs.returnRate / 100 = 0 := by norm_num [sampleInputs]
  have hage : (initialState sampleInputs).yourAge = 73 := by rw [initialState_sample]
  simp only [yearRmd, yearGrowth, yearWithdrawal_sample, yearFraction_sample, hrate,
    applyReturns_sample, hage, rmdStep_sample]

theorem calculateProjections_sample :
    calculateProjections sampleInputs
      = [(projectYear sampleInputs (initialState sampleInputs)).snapshot] := by
  rw [calculateProjections, yearsLeft_sample, projectionLoop_one _ _ guard_sample]

theorem initialState_depleting :
    initialState depletingInputs
      = { taxable := 0, retirement := 10000, yourAge := 65, spouseAge := 65,
          isFirstYear := true, yearIdx := 0 } := by
  simp only [initialState, depletingInputs, youngInputs, sampleInputs, calculateAge_young]

theorem yearsLeft_depleting :
    yearsLeft depletingInputs (initialState depletingInputs).yourAge = 2 := by
  rw [initialState_depleting]
  norm_num [yearsLeft, depletingInputs, youngInputs, sampleInputs]
  rfl

theorem projectYear_depleting :
    (projectYear depletingInputs (initialState depletingInputs)).taxable = 0
    ∧ (projectYear depletingInputs (initialState depletingInputs)).retirement = -15000 := by
  have hfy : firstYearFraction depletingInputs = 1 / 2 := by
    norm_num [firstYearFraction, depletingInputs, youngInputs, sampleInputs, msInYear]
  have hn : netNeeded depletingInputs (initialState depletingInputs) = 20000 := by
    rw [initialState_depleting]
    simp only [netNeeded, adjustedExpenses, netSSIncome, ssTaxes, totalSSIncome, yourSSIncome,
      spouseSSIncome, adjustedSpousalBenefit, ssMultiplier, fra, inflationMultiplier,
      yearFraction, hfy]
    norm_num [depletingInputs, youngInputs, sampleInputs]
  have hage : (initialState depletingInputs).yourAge < 73 := by
    rw [initialState_depleting]
    norm_num
  have hy := mcYear_eq_projectYear depletingInputs (initialState depletingInputs) hage
  have hm : mcYear depletingInputs (depletingInputs.returnRate / 100)
      (initialState depletingInputs) = (0, -15000) := by
    simp only [mcYear, hn]
    rw [initialState_depleting]
    simp only [yearFraction, hfy]
    norm_num [mcWithdrawalStep, applyReturns, jsOr, mcRmdStep, depletingInputs, youngInputs,
      sampleInputs]
  rw [hm] at hy
  exact ⟨(congrArg Prod.fst hy).symm, (congrArg Prod.snd hy).symm⟩

theorem calculateProjections_depleting :
    calculateProjections depletingInputs
      = [(projectYear depletingInputs (initialState depletingInputs)).snapshot] := by
  have hg : ((initialState depletingInputs).yourAge : ℚ) ≤ depletingInputs.maxAge := by
    rw [initialState_depleting]
    norm_num [depletingInputs, youngInputs, sampleInputs]
  have hb : (projectYear depletingInputs (initialState depletingInputs)).taxable
      + (projectYear depletingInputs (initialState depletingInputs)).retirement ≤ 0
      ∧ ((initialState depletingInputs).yourAge : ℚ) ≥ depletingInputs.retirementAge := by
    rw [projectYear_depleting.1, projectYear_depleting.2, initialState_depleting]
    norm_num [depletingInputs, youngInputs, sampleInputs]
  rw [calculateProjections, yearsLeft_depleting]
  simp only [projectionLoop, if_pos hg, if_pos hb]

theorem netNeeded_fullTax : netNeeded fullTaxInputs (initialState fullTaxInputs) = 20000 := by
  have hinit : initialState fullTaxInputs
      = { taxable := 0, retirement := 299000, yourAge := 73, spouseAge := 73,
          isFirstYear := true, yearIdx := 0 } := by
    simp only [initialState, fullTaxInputs, sampleInputs, calculateAge_sample]
  have hfy : firstYearFraction fullTaxInputs = 1 / 2 := by
    norm_num [firstYearFraction, fullTaxInputs, sampleInputs, msInYear]
  rw [hinit]
  simp only [netNeeded, adjustedExpenses, netSSIncome, ssTaxes, totalSSIncome, yourSSIncome,
    spouseSSIncome, adjustedSpousalBenefit, ssMultiplier, fra, inflationMultiplier,
    yearFraction, hfy]
  norm_num [fullTaxInputs, sampleInputs]

theorem runTrial_young (normal : ℚ → ℚ → ℚ) (g : Rng) :
    (runTrial youngInputs normal g).1 = { endBalance := -15000, broke := true } := by
  have hrate : youngInputs.returnRate / 100 = 0 := by norm_num [youngInputs, sampleInputs]
  have hb : (mcYear youngInputs (youngInputs.returnRate / 100) (initialState youngInputs)).1
      + (mcYear youngInputs (youngInputs.returnRate / 100) (initialState youngInputs)).2 ≤ 0
      ∧ ((initialState youngInputs).yourAge : ℚ) ≥ youngInputs.retirementAge := by
    rw [mcYear_young, initialState_young, hrate]
    norm_num [youngInputs, sampleInputs]
  simp only [runTrial, yearsLeft_young, trialLoop, if_pos guard_young,
    randomReturn_of_stdDev_zero youngInputs normal _ _ rfl, if_pos hb]
  rw [mcYear_young, hrate]
  norm_num

theorem runTrial_sample (normal : ℚ → ℚ → ℚ) (g : Rng) :
    (runTrial sampleInputs normal g).1 = { endBalance := 272000, broke := false } := by
  have hb : ¬ ((mcYear sampleInputs (sampleInputs.returnRate / 100)
        (initialState sampleInputs)).1
      + (mcYear sampleInputs (sampleInputs.returnRate / 100) (initialState sampleInputs)).2 ≤ 0
      ∧ ((initialState sampleInputs).yourAge : ℚ) ≥ sampleInputs.retirementAge) := by
    rw [mcYear_sample]
    norm_num
  simp only [runTrial, yearsLeft_sample, trialLoop, if_pos guard_sample,
    randomReturn_of_stdDev_zero sampleInputs normal _ _ rfl, if_neg hb]
  rw [mcYear_sample]
  simp only [advance]
  norm_num

/-- The first draw of the generator seeded with 7 is `50271532 / 2^32`. -/
theorem mulberry32_seven_draw : (Rng.seeded 7).nth 0 = 50271532 / 4294967296 := rfl

/-- The generator can return 0: seeded with 2463401483, its state after the
increment of line 395 is `2^32`, that is 0 as a 32-bit integer, and the first
draw is 0. -/
theorem mulberry32_zero_draw : (Rng.seeded 2463401483).nth 0 = 0 := by
  norm_num [Rng.nth, Rng.drop, Rng.next, mulberry32, toUint32, imul]

/-! ## Zero-variance equivalence (C1) -/

/-- C1, as stated, fails in three ways.  On `sampleInputs` (age 73) the
Monte Carlo RMD block forces out a distribution that the projector does not
take: the trial ends at 272000, the projection at 274000.  On `youngInputs`
(age 65, no RMD) the portfolio is depleted: the trial records -15000, the
snapshot total is clamped to 0.  With `maxAge` below the current age no year
is simulated: the trial records the initial 299000 and there is no snapshot
(final balance 0). -/
theorem zero_variance_fails :
    (sampleInputs.stdDev = 0
      ∧ (∀ (random : ℕ → ℚ) (normal : ℚ → ℚ → ℚ),
          (runMonteCarlo sampleInputs random normal).endBalances = [272000])
      ∧ finalBalance (calculateProjections sampleInputs) = 274000)
    ∧ (youngInputs.stdDev = 0
      ∧ (∀ (random : ℕ → ℚ) (normal : ℚ → ℚ → ℚ),
          (runMonteCarlo youngInputs random normal).endBalances = [-15000])
      ∧ finalBalance (calculateProjections youngInputs) = 0)
    ∧ ((∀ (random : ℕ → ℚ) (normal : ℚ → ℚ → ℚ),
          (runMonteCarlo { sampleInputs with maxAge := 60 } random normal).endBalances
            = [299000])
      ∧ calculateProjections { sampleInputs with maxAge := 60 } = []
      ∧ finalBalance (calculateProjections { sampleInputs with maxAge := 60 }) = 0) := by
  have hinit : initialState { sampleInputs with maxAge := 60 }
      = { taxable := 0, retirement := 299000, yourAge := 73, spouseAge := 73,
          isFirstYear := true, yearIdx := 0 } := by
    simp only [initialState, sampleInputs, calculateAge_sample]
  have hfuel : yearsLeft { sampleInputs with maxAge := 60 }
      (initialState { sampleInputs with maxAge := 60 }).yourAge = 0 := by
    rw [hinit]
    norm_num [yearsLeft, sampleInputs]
  have hnil : calculateProjections { sampleInputs with maxAge := 60 } = [] := by
    rw [calculateProjections, hfuel]
    rfl
  refine ⟨⟨rfl, runMonteCarlo_sample, finalBalance_sample⟩,
    ⟨rfl, runMonteCarlo_young, finalBalance_young⟩, ?_, hnil, ?_⟩
  · intro random normal
    have hsim : ({ sampleInputs with maxAge := 60 } : Inputs).simulations = 1 := rfl
    simp only [runMonteCarlo, hsim, Int.toNat_one, runTrials, runTrial, hfuel, trialLoop,
      List.map_cons, List.map_nil, List.insertionSort, List.orderedInsert, hinit]
    norm_num
  · rw [hnil]
    rfl

/-- C1, amended. For every input record with zero standard deviation, tax
rate in `[0, 100)` percent, `maxAge` below 73 (so that no simulated year runs
the RMD block), at least one simulated year (current age `<= maxAge`) and a
generator whose first draw `u1` of every simulated year lies in `(0, 1)` (so
that the Box-Muller sample of line 440 is finite; the draws are numbered from
0 over the whole run, two per year, and a run makes at most
`simulations * yearsLeft` years), `runMonteCarlo` records one terminal balance
per trial and every terminal balance, clamped at 0, equals the total of the
last snapshot of `calculateProjections` for the same record. -/
theorem zero_variance_equivalence (i : Inputs) (random : ℕ → ℚ) (normal : ℚ → ℚ → ℚ)
    (hsd : i.stdDev = 0) (hmax : i.maxAge < 73)
    (hyear : (calculateAge i.yourBirthdate i.currentDate : ℚ) ≤ i.maxAge)
    (hr0 : 0 ≤ i.taxRate) (hr1 : i.taxRate < 100)
    (hdraw : ∀ k : ℕ,
      k < i.simulations.toNat * yearsLeft i (calculateAge i.yourBirthdate i.currentDate) →
        0 < (chooseRng i random).nth (2 * k) ∧ (chooseRng i random).nth (2 * k) < 1) :
    (runMonteCarlo i random normal).endBalances.length = i.simulations.toNat
    ∧ ∀ b ∈ (runMonteCarlo i random normal).endBalances,
        max 0 b = finalBalance (calculateProjections i) := by
  have hg : ((initialState i).yourAge : ℚ) ≤ i.maxAge := hyear
  have hfuel : ∃ n, yearsLeft i (initialState i).yourAge = n + 1 := by
    have h1 : (initialState i).yourAge ≤ ⌊i.maxAge⌋ := Int.le_floor.mpr hg
    refine ⟨(⌊i.maxAge⌋ - (initialState i).yourAge).toNat, ?_⟩
    unfold yearsLeft
    omega
  obtain ⟨n, hn⟩ := hfuel
  have hne : calculateProjections i ≠ [] := by
    rw [calculateProjections, hn]
    exact projectionLoop_ne_nil i n _ hg
  constructor
  · simp only [runMonteCarlo, List.length_insertionSort, List.length_map, runTrials_length]
  · intro b hb
    have hb1 : b ∈ (runTrials i normal i.simulations.toNat (chooseRng i random)).map
        TrialOutcome.endBalance :=
      (List.perm_insertionSort (· ≤ ·) _).mem_iff.mp hb
    obtain ⟨o, ho, rfl⟩ := List.mem_map.mp hb1
    obtain ⟨g1, rfl, hg1⟩ := runTrials_mem_draws i normal _ _ hdraw o ho
    rw [finalBalance_eq _ (max 0 ((initialState i).taxable + (initialState i).retirement)) hne]
    exact trialLoop_endBalance i normal hsd hmax _ g1 (initialState i) hg1

/-- Witness of the amended C1 on `youngInputs`: standard deviation 0, tax rate
20%, `maxAge` 65, current age 65, seed 7; the run has one trial of one year,
whose first draw is `50271532 / 2^32`; the trial ends at -15000 and the
projection at 0. -/
theorem zero_variance_equivalence_witness :
    (youngInputs.stdDev = 0 ∧ youngInputs.maxAge < 73
      ∧ (calculateAge youngInputs.yourBirthdate youngInputs.currentDate : ℚ)
          ≤ youngInputs.maxAge
      ∧ 0 ≤ youngInputs.taxRate ∧ youngInputs.taxRate < 100)
    ∧ ∀ (random : ℕ → ℚ) (normal : ℚ → ℚ → ℚ),
        (∀ k : ℕ,
          k < youngInputs.simulations.toNat
              * yearsLeft youngInputs
                  (calculateAge youngInputs.yourBirthdate youngInputs.currentDate) →
            0 < (chooseRng youngInputs random).nth (2 * k)
              ∧ (chooseRng youngInputs random).nth (2 * k) < 1)
        ∧ (runMonteCarlo youngInputs random normal).endBalances.length
            = youngInputs.simulations.toNat
        ∧ ∀ b ∈ (runMonteCarlo youngInputs random normal).endBalances,
            max 0 b = finalBalance (calculateProjections youngInputs) := by
  have h1 : youngInputs.maxAge < 73 := by norm_num [youngInputs, sampleInputs]
  have h2 : (calculateAge youngInputs.yourBirthdate youngInputs.currentDate : ℚ)
      ≤ youngInputs.maxAge := guard_young
  have h3 : 0 ≤ youngInputs.taxRate := by norm_num [youngInputs, sampleInputs]
  have h4 : youngInputs.taxRate < 100 := by norm_num [youngInputs, sampleInputs]
  have h5 : ∀ (random : ℕ → ℚ) (k : ℕ),
      k < youngInputs.simulations.toNat
          * yearsLeft youngInputs
              (calculateAge youngInputs.yourBirthdate youngInputs.currentDate) →
        0 < (chooseRng youngInputs random).nth (2 * k)
          ∧ (chooseRng youngInputs random).nth (2 * k) < 1 := by
    intro random k hk
    have hy : yearsLeft youngInputs
        (calculateAge youngInputs.yourBirthdate youngInputs.currentDate) = 1 := yearsLeft_young
    have hs : youngInputs.simulations.toNat = 1 := rfl
    rw [hy, hs] at hk
    have hk0 : k = 0 := by omega
    have hd : (chooseRng youngInputs random).nth (2 * 0) = 50271532 / 4294967296 :=
      mulberry32_seven_draw
    rw [hk0, hd]
    norm_num
  exact ⟨⟨rfl, h1, h2, h3, h4⟩, fun random normal =>
    ⟨h5 random, zero_variance_equivalence youngInputs random normal rfl h1 h2 h3 h4 (h5 random)⟩⟩

/-! ## Seeded determinism (C2) -/

/-- C2. With the seed 0 supplied, line 412 takes the seed for absent and
draws from `Math.random`: the generator chosen for `zeroSeedInputs` is the
ambient one, its first draws are `random 0` and `random 1`, and the one
terminal balance of the run is `299000 + 14950 * normal (random 0) (random 1)`,
a function of what `Math.random` returned. -/
theorem seed_zero_draws_from_Math_random :
    zeroSeedInputs.seed = some 0
    ∧ (∀ random : ℕ → ℚ, chooseRng zeroSeedInputs random = Rng.ambient random 0)
    ∧ (∀ random : ℕ → ℚ, (chooseRng zeroSeedInputs random).next.1 = random 0)
    ∧ (∀ (random : ℕ → ℚ) (normal : ℚ → ℚ → ℚ),
        (runMonteCarlo zeroSeedInputs random normal).endBalances
          = [299000 + 14950 * normal (random 0) (random 1)]) := by
  refine ⟨rfl, fun _ => rfl, fun _ => rfl, ?_⟩
  intro random normal
  have hfuel : yearsLeft zeroSeedInputs (initialState zeroSeedInputs).yourAge = 1 := by
    rw [initialState_zeroSeed]
    norm_num [yearsLeft, zeroSeedInputs, youngInputs, sampleInputs]
  have hg : ((initialState zeroSeedInputs).yourAge : ℚ) ≤ zeroSeedInputs.maxAge := by
    rw [initialState_zeroSeed]
    norm_num [zeroSeedInputs, youngInputs, sampleInputs]
  have hrng : chooseRng zeroSeedInputs random = Rng.ambient random 0 := rfl
  rw [runMonteCarlo_one zeroSeedInputs random normal rfl hfuel hg, mcYear_zeroSeed, hrng]
  simp only [Rng.next, randomReturn]
  norm_num [zeroSeedInputs, youngInputs, sampleInputs]
  ring

/-! ## Non-negativity (C3) -/

/-- C3, as stated, fails in the Monte Carlo loop: `youngInputs` has
non-negative balances and rates, yet its year leaves the tax-deferred balance
at -15000 and that value is the terminal balance pushed to `endBalances`. -/
theorem monteCarlo_balance_negative :
    0 ≤ youngInputs.taxableAccounts ∧ 0 ≤ youngInputs.retirementAccounts
    ∧ 0 ≤ youngInputs.inflationRate ∧ 0 ≤ youngInputs.returnRate
    ∧ 0 ≤ youngInputs.taxRate ∧ 0 ≤ youngInputs.stdDev
    ∧ (mcYear youngInputs (youngInputs.returnRate / 100) (initialState youngInputs)).2 = -15000
    ∧ ∀ (random : ℕ → ℚ) (normal : ℚ → ℚ → ℚ),
        (runMonteCarlo youngInputs random normal).endBalances = [-15000] := by
  refine ⟨?_, ?_, ?_, ?_, ?_, ?_, ?_, runMonteCarlo_young⟩
  · norm_num [youngInputs, sampleInputs]
  · norm_num [youngInputs, sampleInputs]
  · norm_num [youngInputs, sampleInputs]
  · norm_num [youngInputs, sampleInputs]
  · norm_num [youngInputs, sampleInputs]
  · norm_num [youngInputs, sampleInputs]
  · rw [mcYear_young]
    norm_num [youngInputs, sampleInputs]

/-- C3, amended. For every input record whose tax rate lies in `[0, 100)`
percent, every snapshot produced by `calculateProjections` has taxable,
tax-deferred and total balance `>= 0`: the snapshot stores `max(0, .)` of each
balance. -/
theorem snapshots_nonneg (i : Inputs) (hr0 : 0 ≤ i.taxRate) (hr1 : i.taxRate < 100) :
    ∀ snap ∈ calculateProjections i,
      0 ≤ snap.taxable ∧ 0 ≤ snap.retirement ∧ 0 ≤ snap.total := by
  intro snap hmem
  obtain ⟨s, _, _, rfl⟩ := projectionLoop_mem i (fun _ => True) (fun _ _ _ _ => trivial)
    _ (initialState i) trivial snap hmem
  exact ⟨le_max_left _ _, le_max_left _ _, le_max_left _ _⟩

/-- Witness of the amended C3 on `sampleInputs` (tax rate 20%), whose
projection has one snapshot. -/
theorem snapshots_nonneg_witness :
    (0 ≤ sampleInputs.taxRate ∧ sampleInputs.taxRate < 100)
    ∧ (calculateProjections sampleInputs).length = 1
    ∧ ∀ snap ∈ calculateProjections sampleInputs,
        0 ≤ snap.taxable ∧ 0 ≤ snap.retirement ∧ 0 ≤ snap.total := by
  refine ⟨by norm_num [sampleInputs], ?_,
    snapshots_nonneg sampleInputs (by norm_num [sampleInputs]) (by norm_num [sampleInputs])⟩
  have hfuel : yearsLeft sampleInputs (initialState sampleInputs).yourAge = 1 := by
    rw [initialState_sample]
    norm_num [yearsLeft, sampleInputs]
  have hg : ((initialState sampleInputs).yourAge : ℚ) ≤ sampleInputs.maxAge := by
    rw [initialState_sample]
    norm_num [sampleInputs]
  rw [calculateProjections, hfuel, projectionLoop_one _ _ hg]
  rfl

/-! ## Withdrawal block (C4, C5) -/

/-- C4. Taxable-only withdrawal: when `netNeeded > 0`, the tax rate is in
`[0, 100)` percent and the taxable balance `T` is at least
`g = netNeeded / (1 - 0.5 r)`, the withdrawal block takes exactly `g` from the
taxable bucket, records the tax `g * 0.5 r`, takes nothing from tax-deferred
and leaves `D` unchanged. -/
theorem withdrawalStep_taxable_only (taxRate netNeeded T D : ℚ)
    (hn : netNeeded > 0) (hr0 : 0 ≤ taxRate) (hr1 : taxRate < 100)
    (hT : T ≥ netNeeded / (1 - 0.5 * (taxRate / 100))) :
    (withdrawalStep taxRate netNeeded T D).taxableWithdrawal
        = netNeeded / (1 - 0.5 * (taxRate / 100))
      ∧ (withdrawalStep taxRate netNeeded T D).taxable
        = T - netNeeded / (1 - 0.5 * (taxRate / 100))
      ∧ (withdrawalStep taxRate netNeeded T D).withdrawalTaxes
        = netNeeded / (1 - 0.5 * (taxRate / 100)) * (0.5 * (taxRate / 100))
      ∧ (withdrawalStep taxRate netNeeded T D).retirementWithdrawal = 0
      ∧ (withdrawalStep taxRate netNeeded T D).retirement = D := by
  simp only [withdrawalStep, if_pos hn, if_pos hT, and_self]

/-- Witness of C4: `T = 1000`, `D = 5000`, tax rate 20%, `netNeeded = 900`
give a taxable withdrawal of 1000, tax 100 and `D = 5000`. -/
theorem withdrawalStep_taxable_only_witness :
    ((900 : ℚ) > 0 ∧ (0 : ℚ) ≤ 20 ∧ (20 : ℚ) < 100
      ∧ (1000 : ℚ) ≥ 900 / (1 - 0.5 * (20 / 100)))
    ∧ (withdrawalStep 20 900 1000 5000).taxableWithdrawal = 1000
    ∧ (withdrawalStep 20 900 1000 5000).taxable = 0
    ∧ (withdrawalStep 20 900 1000 5000).withdrawalTaxes = 100
    ∧ (withdrawalStep 20 900 1000 5000).retirementWithdrawal = 0
    ∧ (withdrawalStep 20 900 1000 5000).retirement = 5000 := by
  have h := withdrawalStep_taxable_only 20 900 1000 5000 (by norm_num) (by norm_num)
    (by norm_num) (by norm_num)
  refine ⟨by norm_num, ?_⟩
  norm_num at h ⊢
  exact h

/-- C5. Spillover withdrawal: when `netNeeded > 0`, the tax rate is in
`[0, 100)` percent and `0 < T < netNeeded / (1 - 0.5 r)`, the withdrawal block
drains the taxable bucket (taxable withdrawal `T`, taxable balance 0), takes
`W = (netNeeded - (T - T * 0.5 r)) / (1 - r)` from tax-deferred (`D` becomes
`D - W`) and records the tax `T * 0.5 r + W * r`. -/
theorem withdrawalStep_spillover (taxRate netNeeded T D : ℚ)
    (hn : netNeeded > 0) (hr0 : 0 ≤ taxRate) (hr1 : taxRate < 100)
    (hT0 : 0 < T) (hT : T < netNeeded / (1 - 0.5 * (taxRate / 100))) :
    (withdrawalStep taxRate netNeeded T D).taxable = 0
      ∧ (withdrawalStep taxRate netNeeded T D).taxableWithdrawal = T
      ∧ (withdrawalStep taxRate netNeeded T D).retirementWithdrawal
        = (netNeeded - (T - T * (0.5 * (taxRate / 100)))) / (1 - taxRate / 100)
      ∧ (withdrawalStep taxRate netNeeded T D).retirement
        = D - (netNeeded - (T - T * (0.5 * (taxRate / 100)))) / (1 - taxRate / 100)
      ∧ (withdrawalStep taxRate netNeeded T D).withdrawalTaxes
        = T * (0.5 * (taxRate / 100))
          + (netNeeded - (T - T * (0.5 * (taxRate / 100)))) / (1 - taxRate / 100)
            * (taxRate / 100) := by
  have h1 : ¬ T ≥ netNeeded / (1 - 0.5 * (taxRate / 100)) := not_le.mpr hT
  have h2 : T > 0 := hT0
  simp only [withdrawalStep, if_pos hn, if_neg h1, if_pos h2, and_self]

/-- Witness of C5: tax rate 20%, `T = 500`, `netNeeded = 900` give
`W = 562.5` and total tax `162.5`. -/
theorem withdrawalStep_spillover_witness :
    ((900 : ℚ) > 0 ∧ (0 : ℚ) ≤ 20 ∧ (20 : ℚ) < 100 ∧ (0 : ℚ) < 500
      ∧ (500 : ℚ) < 900 / (1 - 0.5 * (20 / 100)))
    ∧ (withdrawalStep 20 900 500 5000).taxable = 0
    ∧ (withdrawalStep 20 900 500 5000).taxableWithdrawal = 500
    ∧ (withdrawalStep 20 900 500 5000).retirementWithdrawal = 562.5
    ∧ (withdrawalStep 20 900 500 5000).retirement = 5000 - 562.5
    ∧ (withdrawalStep 20 900 500 5000).withdrawalTaxes = 162.5 := by
  have h := withdrawalStep_spillover 20 900 500 5000 (by norm_num) (by norm_num)
    (by norm_num) (by norm_num) (by norm_num)
  refine ⟨by norm_num, ?_⟩
  norm_num at h ⊢
  exact h

/-! ## Required minimum distributions (C6, C7) -/

/-- C6. RMD block of the projector: at age 73 or more with a positive
post-growth tax-deferred balance `D`, with `required = D / divisor(age)` and
`W` the tax-deferred withdrawal of the withdrawal block: when `required > W`
the block reduces `D` by `required - W`, charges the tax `(required - W) * r`
and adds `(required - W) * (1 - r)` to the taxable balance `T`; when
`required <= W` it changes neither balance and charges no tax.  The loop body
`projectYear` runs the block with `W = retirementWithdrawal` on the balances
left by the growth step. -/
theorem rmdStep_shortfall (taxRate : ℚ) (yourAge : Int) (W T D : ℚ)
    (hage : yourAge ≥ 73) (hD : D > 0) :
    (D / rmdFactor yourAge > W →
        (rmdStep taxRate yourAge W T D).rmdAmount = D / rmdFactor yourAge - W
        ∧ (rmdStep taxRate yourAge W T D).retirement = D - (D / rmdFactor yourAge - W)
        ∧ (rmdStep taxRate yourAge W T D).rmdTaxes
            = (D / rmdFactor yourAge - W) * (taxRate / 100)
        ∧ (rmdStep taxRate yourAge W T D).taxable
            = T + (D / rmdFactor yourAge - W) * (1 - taxRate / 100))
    ∧ (D / rmdFactor yourAge ≤ W →
        (rmdStep taxRate yourAge W T D).rmdAmount = 0
        ∧ (rmdStep taxRate yourAge W T D).retirement = D
        ∧ (rmdStep taxRate yourAge W T D).rmdTaxes = 0
        ∧ (rmdStep taxRate yourAge W T D).taxable = T) := by
  have hg : yourAge ≥ 73 ∧ D > 0 := ⟨hage, hD⟩
  constructor
  · intro h
    simp only [rmdStep, if_pos hg, if_pos h, true_and]
    ring
  · intro h
    have h1 : ¬ D / rmdFactor yourAge > W := not_lt.mpr h
    simp only [rmdStep, if_pos hg, if_neg h1, and_self]

/-- Witness of C6: age 73 and `D = 274000` require 10000; with `W = 0` the
full 10000 is forced out (tax 2000 at 20%, 8000 credited to taxable), with
`W = 10000` nothing happens. -/
theorem rmdStep_shortfall_witness :
    ((73 : Int) ≥ 73 ∧ (274000 : ℚ) > 0)
    ∧ (274000 : ℚ) / rmdFactor 73 = 10000
    ∧ (rmdStep 20 73 0 0 274000).rmdAmount = 10000
    ∧ (rmdStep 20 73 0 0 274000).retirement = 264000
    ∧ (rmdStep 20 73 0 0 274000).rmdTaxes = 2000
    ∧ (rmdStep 20 73 0 0 274000).taxable = 8000
    ∧ (rmdStep 20 73 10000 0 274000).retirement = 274000
    ∧ (rmdStep 20 73 10000 0 274000).taxable = 0
    ∧ (rmdStep 20 73 10000 0 274000).rmdTaxes = 0 := by
  have hreq : (274000 : ℚ) / rmdFactor 73 = 10000 := by rw [rmdFactor_73]; norm_num
  have h0 := (rmdStep_shortfall 20 73 0 0 274000 (by norm_num) (by norm_num)).1
    (by rw [hreq]; norm_num)
  have h1 := (rmdStep_shortfall 20 73 10000 0 274000 (by norm_num) (by norm_num)).2
    (by rw [hreq])
  rw [hreq] at h0
  refine ⟨by norm_num, hreq, ?_, ?_, ?_, ?_, h1.2.1, h1.2.2.2, h1.2.2.1⟩
  · rw [h0.1]; norm_num
  · rw [h0.2.1]; norm_num
  · rw [h0.2.2.1]; norm_num
  · rw [h0.2.2.2]; norm_num

/-- C7. The RMD block of `runMonteCarlo` does not compare the requirement with
the tax-deferred withdrawal already taken.  On `sampleInputs` (age 73, no
growth) the withdrawal block takes 25000 from tax-deferred, leaving 274000;
the requirement is 10000, already met; the projector leaves the balances at
`(0, 274000)`, the Monte Carlo year forces a further 10000 out and ends at
`(8000, 264000)`. -/
theorem mcRmdStep_ignores_withdrawal_taken :
    (initialState sampleInputs).yourAge = 73
    ∧ mcWithdrawalStep sampleInputs.taxRate (netNeeded sampleInputs (initialState sampleInputs))
        (initialState sampleInputs).taxable (initialState sampleInputs).retirement
        = (0, 299000 - 25000)
    ∧ applyReturns (sampleInputs.returnRate / 100) (1 / 2) 0 274000 = (0, 274000)
    ∧ (274000 : ℚ) / rmdFactor 73 = 10000
    ∧ mcRmdStep sampleInputs.taxRate 73 0 274000 = (8000, 264000)
    ∧ mcYear sampleInputs (sampleInputs.returnRate / 100) (initialState sampleInputs)
        = (8000, 264000)
    ∧ (projectYear sampleInputs (initialState sampleInputs)).taxable = 0
    ∧ (projectYear sampleInputs (initialState sampleInputs)).retirement = 274000 := by
  have hrate : sampleInputs.returnRate / 100 = 0 := by norm_num [sampleInputs]
  refine ⟨?_, ?_, ?_, requiredRmd_sample, mcRmdStep_sample, mcYear_sample,
    projectYear_sample.1, projectYear_sample.2⟩
  · rw [initialState_sample]
  · rw [mcWithdrawalStep_sample]
    norm_num
  · rw [hrate, applyReturns_sample]

/-! ## Histogram (C8) -/

/-- C8. The histogram drops every balance that lies on the upper bound
`maxBin`: the guard `binIndex < numBins` excludes the index
`(maxBin - minBin) / binWidth` of a balance equal to `maxBin`.  For the single
terminal balance 0, which is what `runMonteCarlo` records for
`pennilessInputs`, and for any all-zero list there is no bin at all; for
`[250000, 500000]` the one bin counts 1 of the 2 balances. -/
theorem updateHistogram_drops_upper_bound :
    (∀ (random : ℕ → ℚ) (normal : ℚ → ℚ → ℚ),
      (runMonteCarlo pennilessInputs random normal).endBalances = [0])
    ∧ updateHistogram [0] = []
    ∧ (updateHistogram [0]).sum = 0 ∧ ([0] : List ℚ).length = 1
    ∧ updateHistogram [0, 0, 0] = []
    ∧ updateHistogram [250000, 500000] = [1]
    ∧ (updateHistogram [250000, 500000]).sum = 1 ∧ ([250000, 500000] : List ℚ).length = 2 := by
  have h1 : updateHistogram [0] = [] := by
    norm_num [updateHistogram, addToBin, binWidth]
  have h3 : updateHistogram [0, 0, 0] = [] := by
    norm_num [updateHistogram, addToBin, binWidth]
  have h2 : updateHistogram [250000, 500000] = [1] := by
    norm_num [updateHistogram, addToBin, binWidth, List.modify, List.modifyTailIdx]
  refine ⟨?_, h1, ?_, rfl, h3, h2, ?_, rfl⟩
  · intro random normal
    have hinit : initialState pennilessInputs
        = { taxable := 0, retirement := 0, yourAge := 65, spouseAge := 65,
            isFirstYear := true, yearIdx := 0 } := by
      simp only [initialState, pennilessInputs, youngInputs, sampleInputs, calculateAge_young]
    have hfuel : yearsLeft pennilessInputs (initialState pennilessInputs).yourAge = 1 := by
      rw [hinit]
      norm_num [yearsLeft, pennilessInputs, youngInputs, sampleInputs]
    have hg : ((initialState pennilessInputs).yourAge : ℚ) ≤ pennilessInputs.maxAge := by
      rw [hinit]
      norm_num [pennilessInputs, youngInputs, sampleInputs]
    have hn : netNeeded pennilessInputs (initialState pennilessInputs) = 0 := by
      rw [hinit]
      simp only [netNeeded, adjustedExpenses, netSSIncome, ssTaxes, totalSSIncome,
        yourSSIncome, spouseSSIncome, adjustedSpousalBenefit, ssMultiplier, fra,
        inflationMultiplier, yearFraction]
      norm_num [pennilessInputs, youngInputs, sampleInputs]
    have hy : ∀ realized : ℚ,
        mcYear pennilessInputs realized (initialState pennilessInputs) = (0, 0) := by
      intro realized
      simp only [mcYear, hn]
      rw [hinit]
      norm_num [mcWithdrawalStep, applyReturns, mcRmdStep]
    rw [runMonteCarlo_one pennilessInputs random normal rfl hfuel hg, hy]
    norm_num
  · rw [h1]; rfl
  · rw [h2]; rfl

/-! ## Percentiles (C9) -/

/-- C9. Percentile monotonicity: for every list of at least five terminal
balances, the five percentiles read from the sorted list at index
`floor(p * N)` for `p` in 0.1, 0.25, 0.5, 0.75, 0.9 (with `|| 0`) are
non-decreasing. -/
theorem percentiles_monotone (endBalances : List ℚ) (hN : 5 ≤ endBalances.length) :
    ∃ p10 p25 p50 p75 p90 : ℚ,
      percentilesOf (endBalances.insertionSort (· ≤ ·)) = [p10, p25, p50, p75, p90]
      ∧ p10 ≤ p25 ∧ p25 ≤ p50 ∧ p50 ≤ p75 ∧ p75 ≤ p90 := by
  have hs : (endBalances.insertionSort (· ≤ ·)).Sorted (· ≤ ·) :=
    List.sorted_insertionSort (· ≤ ·) endBalances
  have hl : 0 < (endBalances.insertionSort (· ≤ ·)).length := by
    rw [List.length_insertionSort]; omega
  refine ⟨_, _, _, _, _, rfl, ?_, ?_, ?_, ?_⟩
  · exact percentileAt_mono _ hs _ _ (by norm_num) (by norm_num) (by norm_num) hl
  · exact percentileAt_mono _ hs _ _ (by norm_num) (by norm_num) (by norm_num) hl
  · exact percentileAt_mono _ hs _ _ (by norm_num) (by norm_num) (by norm_num) hl
  · exact percentileAt_mono _ hs _ _ (by norm_num) (by norm_num) (by norm_num) hl

/-- Witness of C9 on the five balances 5, 3, 1, 4, 2. -/
theorem percentiles_monotone_witness :
    5 ≤ ([5, 3, 1, 4, 2] : List ℚ).length
    ∧ ∃ p10 p25 p50 p75 p90 : ℚ,
      percentilesOf (([5, 3, 1, 4, 2] : List ℚ).insertionSort (· ≤ ·))
        = [p10, p25, p50, p75, p90]
      ∧ p10 ≤ p25 ∧ p25 ≤ p50 ∧ p50 ≤ p75 ∧ p75 ≤ p90 :=
  ⟨by decide, percentiles_monotone [5, 3, 1, 4, 2] (by decide)⟩

/-! ## Social Security (C10) -/

/-- C10. Claiming-age multiplier of the primary spouse: `ssMultiplier a` is
`1 + 0.08 * (a - 67)` for `a > 67`, `1 - 0.067 * (67 - a)` for `a < 67` and 1
for `a = 67`.  In every year (loop state `s`, in the projector and in the
Monte Carlo loop alike) the primary's income is
`FRA benefit * multiplier * inflation multiplier * first-year factor` when the
age is at least `a` and 0 otherwise; and every snapshot of the projector
records that income, with inflation multiplier
`(1 + inflationRate / 100) ^ (year - 1)` and the first-year fraction in the
first year only. -/
theorem ssMultiplier_claiming_age (i : Inputs) :
    (i.yourSSAge > 67 → ssMultiplier i.yourSSAge = 1 + 0.08 * (i.yourSSAge - 67))
    ∧ (i.yourSSAge < 67 → ssMultiplier i.yourSSAge = 1 - 0.067 * (67 - i.yourSSAge))
    ∧ (i.yourSSAge = 67 → ssMultiplier i.yourSSAge = 1)
    ∧ (∀ s : LoopState,
        ((s.yourAge : ℚ) ≥ i.yourSSAge →
          yourSSIncome i s
            = i.yourSSBenefitAtFRA * ssMultiplier i.yourSSAge
                * (1 + i.inflationRate / 100) ^ s.yearIdx
                * (if s.isFirstYear then firstYearFraction i else 1))
        ∧ ((s.yourAge : ℚ) < i.yourSSAge → yourSSIncome i s = 0))
    ∧ (∀ snap ∈ calculateProjections i,
        ((snap.yourAge : ℚ) ≥ i.yourSSAge →
          snap.yourSSIncome
            = i.yourSSBenefitAtFRA * ssMultiplier i.yourSSAge
                * (1 + i.inflationRate / 100) ^ (snap.year - 1)
                * (if snap.year = 1 then firstYearFraction i else 1))
        ∧ ((snap.yourAge : ℚ) < i.yourSSAge → snap.yourSSIncome = 0)) := by
  have hstate : ∀ s : LoopState,
      ((s.yourAge : ℚ) ≥ i.yourSSAge →
        yourSSIncome i s
          = i.yourSSBenefitAtFRA * ssMultiplier i.yourSSAge
              * (1 + i.inflationRate / 100) ^ s.yearIdx
              * (if s.isFirstYear then firstYearFraction i else 1))
      ∧ ((s.yourAge : ℚ) < i.yourSSAge → yourSSIncome i s = 0) := by
    intro s
    constructor
    · intro h
      simp only [yourSSIncome, if_pos h, inflationMultiplier, yearFraction]
    · intro h
      have h1 : ¬ (s.yourAge : ℚ) ≥ i.yourSSAge := not_le.mpr h
      simp only [yourSSIncome, if_neg h1]
  refine ⟨?_, ?_, ?_, hstate, ?_⟩
  · intro h
    have h1 : i.yourSSAge - 67 > 0 := by linarith
    simp only [ssMultiplier, fra, if_pos h1]
    ring
  · intro h
    have h1 : ¬ i.yourSSAge - 67 > 0 := by linarith
    simp only [ssMultiplier, fra, if_neg h1]
    ring
  · intro h
    have h1 : ¬ i.yourSSAge - 67 > 0 := by linarith
    simp only [ssMultiplier, fra, if_neg h1, h]
    norm_num
  · intro snap hmem
    obtain ⟨s, hP, _, rfl⟩ := projectionLoop_mem i
      (fun s => (s.isFirstYear = true ↔ s.yearIdx = 0))
      (fun s t r _ => by simp [advance])
      _ (initialState i) (by simp [initialState]) snap hmem
    have hs := hstate s
    have hyear : (projectYear i s).snapshot.year = s.yearIdx + 1 := rfl
    have hinc : (projectYear i s).snapshot.yourSSIncome = yourSSIncome i s := rfl
    have hage : (projectYear i s).snapshot.yourAge = s.yourAge := rfl
    rw [hyear, hinc, hage]
    have hfirst : (if s.yearIdx + 1 = 1 then firstYearFraction i else 1)
        = (if s.isFirstYear then firstYearFraction i else 1) := by
      by_cases h0 : s.yearIdx = 0
      · have := hP.mpr h0
        simp [h0, this]
      · have : ¬ s.isFirstYear = true := fun h => h0 (hP.mp h)
        simp [h0, this]
    rw [hfirst, Nat.add_sub_cancel]
    exact hs

/-- Witness of C10: claiming at 70 multiplies by 1.24, at 62 by 0.665, at 67
by 1 (the record `sampleInputs` claims at 67). -/
theorem ssMultiplier_claiming_age_witness :
    ssMultiplier 70 = 1.24 ∧ ssMultiplier 62 = 0.665
    ∧ (sampleInputs.yourSSAge = 67 ∧ ssMultiplier sampleInputs.yourSSAge = 1) := by
  have h70 := (ssMultiplier_claiming_age { sampleInputs with yourSSAge := 70 }).1
    (by norm_num)
  have h62 := (ssMultiplier_claiming_age { sampleInputs with yourSSAge := 62 }).2.1
    (by norm_num)
  have h67 := (ssMultiplier_claiming_age sampleInputs).2.2.1 (by norm_num [sampleInputs])
  refine ⟨?_, ?_, by norm_num [sampleInputs], h67⟩
  · norm_num at h70 ⊢
    exact h70
  · norm_num at h62 ⊢
    exact h62

/-! ## Secondary spouse benefit (C11, C12) -/

/-- C11, as stated, fails: the own benefit of the secondary spouse is not
adjusted for the claiming age.  `earlySpouseInputs` claims at 62 with an own
benefit of 1000 and a primary FRA benefit of 0: the code pays
`max(1000, 0) = 1000` before scaling (500 in the half first year, recorded in
the snapshot), where the claim gives `max(1000 * 0.665, 0) = 665`. -/
theorem spouse_own_benefit_not_adjusted :
    ((initialState earlySpouseInputs).spouseAge : ℚ) ≥ earlySpouseInputs.spouseSSAge
    ∧ ((initialState earlySpouseInputs).yourAge : ℚ) ≥ earlySpouseInputs.yourSSAge
    ∧ max earlySpouseInputs.spouseOwnBenefit (adjustedSpousalBenefit earlySpouseInputs) = 1000
    ∧ max (earlySpouseInputs.spouseOwnBenefit * ssMultiplier earlySpouseInputs.spouseSSAge)
        (0.5 * earlySpouseInputs.yourSSBenefitAtFRA
          * (1 - 0.067 * (67 - earlySpouseInputs.spouseSSAge))) = 665
    ∧ inflationMultiplier earlySpouseInputs (initialState earlySpouseInputs).yearIdx
        * yearFraction earlySpouseInputs (initialState earlySpouseInputs).isFirstYear = 1 / 2
    ∧ spouseSSIncome earlySpouseInputs (initialState earlySpouseInputs) = 1000 * (1 / 2)
    ∧ (calculateProjections earlySpouseInputs).map Snapshot.spouseSSIncome = [500] := by
  refine ⟨?_, ?_, ?_, ?_, ?_, ?_, ?_⟩
  · rw [initialState_earlySpouse]
    norm_num [earlySpouseInputs, sampleInputs]
  · rw [initialState_earlySpouse]
    norm_num [earlySpouseInputs, sampleInputs]
  · norm_num [adjustedSpousalBenefit, fra, earlySpouseInputs, sampleInputs]
  · norm_num [ssMultiplier, fra, earlySpouseInputs, sampleInputs]
  · rw [initialState_earlySpouse]
    simp only [inflationMultiplier, yearFraction, firstYearFraction_earlySpouse]
    norm_num
  · rw [spouseSSIncome_earlySpouse]
    norm_num
  · rw [calculateProjections_earlySpouse]
    simp only [List.map_cons, List.map_nil]
    have h : (projectYear earlySpouseInputs (initialState earlySpouseInputs)).snapshot.spouseSSIncome
        = spouseSSIncome earlySpouseInputs (initialState earlySpouseInputs) := rfl
    rw [h, spouseSSIncome_earlySpouse]

/-- C11, amended. In every year (loop state `s`, in the projector and in the
Monte Carlo loop alike) in which the primary's age is at least the primary's
claiming age and the secondary's age is at least the secondary's claiming age
`a_s`, the secondary's income is `max(own, spousal)` times the inflation
multiplier and the first-year factor, where `own` is the own benefit as
entered (`spouseOwnBenefit`, with no claiming-age adjustment) and `spousal` is
`0.5 *` the primary's FRA benefit, multiplied by `1 - 0.067 * (67 - a_s)` when
`a_s < 67`; every snapshot of the projector records that income. -/
theorem spouseSSIncome_max_own_spousal (i : Inputs) :
    (∀ s : LoopState, (s.spouseAge : ℚ) ≥ i.spouseSSAge → (s.yourAge : ℚ) ≥ i.yourSSAge →
        spouseSSIncome i s
          = max i.spouseOwnBenefit
              (0.5 * i.yourSSBenefitAtFRA
                * (if i.spouseSSAge < 67 then 1 - 0.067 * (67 - i.spouseSSAge) else 1))
            * (1 + i.inflationRate / 100) ^ s.yearIdx
            * (if s.isFirstYear then firstYearFraction i else 1))
    ∧ (∀ snap ∈ calculateProjections i,
        (snap.spouseAge : ℚ) ≥ i.spouseSSAge → (snap.yourAge : ℚ) ≥ i.yourSSAge →
        snap.spouseSSIncome
          = max i.spouseOwnBenefit
              (0.5 * i.yourSSBenefitAtFRA
                * (if i.spouseSSAge < 67 then 1 - 0.067 * (67 - i.spouseSSAge) else 1))
            * (1 + i.inflationRate / 100) ^ (snap.year - 1)
            * (if snap.year = 1 then firstYearFraction i else 1)) := by
  have hsp : adjustedSpousalBenefit i
      = 0.5 * i.yourSSBenefitAtFRA
          * (if i.spouseSSAge < 67 then 1 - 0.067 * (67 - i.spouseSSAge) else 1) := by
    by_cases h : i.spouseSSAge < 67
    · simp only [adjustedSpousalBenefit, fra, if_pos h]
      ring
    · simp only [adjustedSpousalBenefit, fra, if_neg h]
      ring
  have hstate : ∀ s : LoopState, (s.spouseAge : ℚ) ≥ i.spouseSSAge →
      (s.yourAge : ℚ) ≥ i.yourSSAge →
      spouseSSIncome i s
        = max i.spouseOwnBenefit
            (0.5 * i.yourSSBenefitAtFRA
              * (if i.spouseSSAge < 67 then 1 - 0.067 * (67 - i.spouseSSAge) else 1))
          * (1 + i.inflationRate / 100) ^ s.yearIdx
          * (if s.isFirstYear then firstYearFraction i else 1) := by
    intro s h1 h2
    have hc : (s.spouseAge : ℚ) ≥ i.spouseSSAge ∧ (s.yourAge : ℚ) ≥ i.yourSSAge := ⟨h1, h2⟩
    simp only [spouseSSIncome, if_pos hc, inflationMultiplier, yearFraction, hsp]
  refine ⟨hstate, ?_⟩
  intro snap hmem h1 h2
  obtain ⟨s, rfl, hP, _⟩ := calculateProjections_mem i snap hmem
  have hyear : (projectYear i s).snapshot.year = s.yearIdx + 1 := rfl
  have hinc : (projectYear i s).snapshot.spouseSSIncome = spouseSSIncome i s := rfl
  rw [hyear, hinc, firstYear_ite i s hP, Nat.add_sub_cancel]
  exact hstate s h1 h2

/-- Witness of the amended C11 on `earlySpouseInputs` (both spouses 73, claiming
ages 67 and 62): the income of the half first year is `1000 * 1 * (1 / 2)`. -/
theorem spouseSSIncome_max_own_spousal_witness :
    (((initialState earlySpouseInputs).spouseAge : ℚ) ≥ earlySpouseInputs.spouseSSAge
      ∧ ((initialState earlySpouseInputs).yourAge : ℚ) ≥ earlySpouseInputs.yourSSAge)
    ∧ spouseSSIncome earlySpouseInputs (initialState earlySpouseInputs)
        = max earlySpouseInputs.spouseOwnBenefit
            (0.5 * earlySpouseInputs.yourSSBenefitAtFRA
              * (if earlySpouseInputs.spouseSSAge < 67
                  then 1 - 0.067 * (67 - earlySpouseInputs.spouseSSAge) else 1))
          * (1 + earlySpouseInputs.inflationRate / 100)
              ^ (initialState earlySpouseInputs).yearIdx
          * (if (initialState earlySpouseInputs).isFirstYear
              then firstYearFraction earlySpouseInputs else 1) := by
  have h1 : ((initialState earlySpouseInputs).spouseAge : ℚ)
      ≥ earlySpouseInputs.spouseSSAge := by
    rw [initialState_earlySpouse]
    norm_num [earlySpouseInputs, sampleInputs]
  have h2 : ((initialState earlySpouseInputs).yourAge : ℚ) ≥ earlySpouseInputs.yourSSAge := by
    rw [initialState_earlySpouse]
    norm_num [earlySpouseInputs, sampleInputs]
  exact ⟨⟨h1, h2⟩, (spouseSSIncome_max_own_spousal earlySpouseInputs).1 _ h1 h2⟩

/-- C12. Spousal benefit requires the primary to have filed: in every year
(loop state `s`, in the projector and in the Monte Carlo loop alike) in which
the primary's age is below the primary's claiming age the secondary's income
is 0, whatever the secondary's age, claiming age and own benefit; every
snapshot of the projector with such an age records 0. -/
theorem spouseSSIncome_requires_primary (i : Inputs) :
    (∀ s : LoopState, (s.yourAge : ℚ) < i.yourSSAge → spouseSSIncome i s = 0)
    ∧ (∀ snap ∈ calculateProjections i,
        (snap.yourAge : ℚ) < i.yourSSAge → snap.spouseSSIncome = 0) := by
  have hstate : ∀ s : LoopState, (s.yourAge : ℚ) < i.yourSSAge → spouseSSIncome i s = 0 := by
    intro s h
    have hc : ¬ ((s.spouseAge : ℚ) ≥ i.spouseSSAge ∧ (s.yourAge : ℚ) ≥ i.yourSSAge) :=
      fun hh => absurd hh.2 (not_le.mpr h)
    simp only [spouseSSIncome, if_neg hc]
  refine ⟨hstate, ?_⟩
  intro snap hmem h
  obtain ⟨s, rfl, _, _⟩ := calculateProjections_mem i snap hmem
  exact hstate s h

/-- Witness of C12 on `waitingPrimaryInputs`: the primary is 73 and claims at
75, the secondary is 73, claims at 67 and has an own benefit of 1000, and
receives 0. -/
theorem spouseSSIncome_requires_primary_witness :
    ((initialState waitingPrimaryInputs).yourAge : ℚ) < waitingPrimaryInputs.yourSSAge
    ∧ ((initialState waitingPrimaryInputs).spouseAge : ℚ) ≥ waitingPrimaryInputs.spouseSSAge
    ∧ waitingPrimaryInputs.spouseOwnBenefit = 1000
    ∧ spouseSSIncome waitingPrimaryInputs (initialState waitingPrimaryInputs) = 0 := by
  have h1 : ((initialState waitingPrimaryInputs).yourAge : ℚ)
      < waitingPrimaryInputs.yourSSAge := by
    rw [initialState_waitingPrimary]
    norm_num [waitingPrimaryInputs, sampleInputs]
  refine ⟨h1, ?_, rfl, (spouseSSIncome_requires_primary waitingPrimaryInputs).1 _ h1⟩
  rw [initialState_waitingPrimary]
  norm_num [waitingPrimaryInputs, sampleInputs]

/-! ## RMD divisor lookup (C13) -/

/-- C13. The divisor `rmdFactor a` is the table entry for `73 <= a <= 95`,
with 27.4 at 73 and 9.5 at 95, strictly decreasing from each age to the next
on 73..94; it is 9.5 for every `a > 95`; the table and the lookup of
`runMonteCarlo` are those of `calculateProjections`; and every divisor exceeds
1, so that the required amount `D / divisor` is strictly less than a positive
tax-deferred balance `D`. -/
theorem rmdFactor_lookup :
    (∀ a : Int, 73 ≤ a → a ≤ 95 → rmdTable.lookup a = some (rmdFactor a))
    ∧ rmdFactor 73 = 27.4 ∧ rmdFactor 95 = 9.5
    ∧ (∀ a : Int, 73 ≤ a → a ≤ 94 → rmdFactor (a + 1) < rmdFactor a)
    ∧ (∀ a : Int, 95 < a → rmdFactor a = 9.5)
    ∧ mcRmdTable = rmdTable ∧ (∀ a : Int, mcRmdFactor a = rmdFactor a)
    ∧ (∀ a : Int, 1 < rmdFactor a)
    ∧ (∀ (a : Int) (D : ℚ), 0 < D → D / rmdFactor a < D ∧ D / mcRmdFactor a < D) := by
  have hgt : ∀ a : Int, 1 < rmdFactor a := by
    intro a
    have h := rmdFactor_ge a
    have h1 : (1 : ℚ) < 9.5 := by norm_num
    exact lt_of_lt_of_le h1 h
  refine ⟨fun a h1 h2 => (rmdFactor_inside a h1 h2).1, rmdFactor_73, ?_,
    rmdFactor_decreasing, fun a h => rmdFactor_outside a (Or.inr h), rfl, mcRmdFactor_eq,
    hgt, ?_⟩
  · simp +decide [rmdFactor, rmdTable, List.lookup, jsOr]
  · intro a D hD
    have h := hgt a
    have hpos : 0 < rmdFactor a := lt_trans zero_lt_one h
    rw [mcRmdFactor_eq]
    exact ⟨(div_lt_iff₀ hpos).mpr (by nlinarith), (div_lt_iff₀ hpos).mpr (by nlinarith)⟩

/-- Witness of C13: the divisors at 73, 74, 95 and 96, and the requirement on
274000 at 73. -/
theorem rmdFactor_lookup_witness :
    rmdFactor 73 = 27.4 ∧ rmdFactor 74 < rmdFactor 73 ∧ rmdFactor 96 = 9.5
    ∧ rmdTable.lookup 95 = some (rmdFactor 95)
    ∧ (274000 : ℚ) / rmdFactor 73 < 274000 :=
  ⟨rmdFactor_lookup.2.1, rmdFactor_lookup.2.2.2.1 73 (by norm_num) (by norm_num),
    rmdFactor_lookup.2.2.2.2.1 96 (by norm_num),
    rmdFactor_lookup.1 95 (by norm_num) (by norm_num),
    (rmdFactor_lookup.2.2.2.2.2.2.2.2 73 274000 (by norm_num)).1⟩

/-! ## No withdrawal when nothing is needed (C14) -/

/-- C14. When `netNeeded <= 0` the withdrawal block of the projector leaves
both balances unchanged and records taxable withdrawal 0, tax-deferred
withdrawal 0 and withdrawal tax 0, and the withdrawal block of the Monte Carlo
loop leaves both balances unchanged.  `netNeeded` is 0 in every year with
current age below the retirement age and `<= 0` in every year in which the net
Social Security income covers the adjusted expenses. -/
theorem no_withdrawal_when_nothing_needed (i : Inputs) :
    (∀ taxRate n T D : ℚ, n ≤ 0 →
        withdrawalStep taxRate n T D
          = { taxable := T, retirement := D, taxableWithdrawal := 0,
              retirementWithdrawal := 0, withdrawalTaxes := 0 }
        ∧ mcWithdrawalStep taxRate n T D = (T, D))
    ∧ (∀ s : LoopState, (s.yourAge : ℚ) < i.retirementAge → netNeeded i s = 0)
    ∧ (∀ s : LoopState, adjustedExpenses i s ≤ netSSIncome i s → netNeeded i s ≤ 0)
    ∧ (∀ s : LoopState, netNeeded i s ≤ 0 →
        yearWithdrawal i s
          = { taxable := s.taxable, retirement := s.retirement, taxableWithdrawal := 0,
              retirementWithdrawal := 0, withdrawalTaxes := 0 }
        ∧ mcWithdrawalStep i.taxRate (netNeeded i s) s.taxable s.retirement
          = (s.taxable, s.retirement)) := by
  have hstep : ∀ taxRate n T D : ℚ, n ≤ 0 →
      withdrawalStep taxRate n T D
        = { taxable := T, retirement := D, taxableWithdrawal := 0,
            retirementWithdrawal := 0, withdrawalTaxes := 0 }
      ∧ mcWithdrawalStep taxRate n T D = (T, D) := by
    intro taxRate n T D hn
    have h : ¬ n > 0 := not_lt.mpr hn
    constructor
    · simp only [withdrawalStep, if_neg h]
    · simp only [mcWithdrawalStep, if_neg h]
  refine ⟨hstep, ?_, ?_, ?_⟩
  · intro s h
    have h1 : ¬ (s.yourAge : ℚ) ≥ i.retirementAge := not_le.mpr h
    simp only [netNeeded, if_neg h1]
  · intro s h
    unfold netNeeded
    split_ifs
    · linarith
    · exact le_refl 0
  · intro s h
    exact hstep i.taxRate (netNeeded i s) s.taxable s.retirement h

/-- Witness of C14 on `youngInputs` with the retirement age moved to 70: the
primary is 65, `netNeeded` is 0 and the balances `(0, 10000)` stay. -/
theorem no_withdrawal_when_nothing_needed_witness :
    ((initialState youngInputs).yourAge : ℚ) < 70
    ∧ netNeeded { youngInputs with retirementAge := 70 } (initialState youngInputs) = 0
    ∧ withdrawalStep 20 0 0 10000
        = { taxable := 0, retirement := 10000, taxableWithdrawal := 0,
            retirementWithdrawal := 0, withdrawalTaxes := 0 }
    ∧ mcWithdrawalStep 20 0 0 10000 = (0, 10000) := by
  have h1 : ((initialState youngInputs).yourAge : ℚ) < 70 := by
    rw [initialState_young]
    norm_num
  have h := no_withdrawal_when_nothing_needed { youngInputs with retirementAge := 70 }
  exact ⟨h1, h.2.1 _ h1, (h.1 20 0 0 10000 (le_refl 0)).1, (h.1 20 0 0 10000 (le_refl 0)).2⟩

/-! ## Uniform draws (C15) -/

/-- C15. For every integer seed and every `k >= 1`, the `k`-th value returned
by the generator `mulberry32(seed)` is `m / 2 ^ 32` for an integer
`0 <= m < 2 ^ 32`, hence lies in `[0, 1)`. -/
theorem mulberry32_unit_interval (seed : Int) (k : ℕ) (hk : 1 ≤ k) :
    ∃ m : ℕ, m < 2 ^ 32 ∧ mulberry32Nth seed (k - 1) = (m : ℚ) / 2 ^ 32
      ∧ 0 ≤ mulberry32Nth seed (k - 1) ∧ mulberry32Nth seed (k - 1) < 1 := by
  obtain ⟨m, hm, hv⟩ := mulberry32Nth_range (k - 1) seed
  have hmq : (m : ℚ) < 4294967296 := by exact_mod_cast hm
  have h0 : (0 : ℚ) ≤ m := by exact_mod_cast Nat.zero_le m
  refine ⟨m, by norm_num; exact hm, by rw [hv]; norm_num, ?_, ?_⟩
  · rw [hv]
    exact div_nonneg h0 (by norm_num)
  · rw [hv, div_lt_one (by norm_num)]
    exact hmq

/-- Witness of C15: the first and the third value drawn from seed 7, and the
first value drawn from seed 0. -/
theorem mulberry32_unit_interval_witness :
    (1 ≤ 1 ∧ ∃ m : ℕ, m < 2 ^ 32 ∧ mulberry32Nth 7 (1 - 1) = (m : ℚ) / 2 ^ 32
      ∧ 0 ≤ mulberry32Nth 7 (1 - 1) ∧ mulberry32Nth 7 (1 - 1) < 1)
    ∧ (1 ≤ 3 ∧ ∃ m : ℕ, m < 2 ^ 32 ∧ mulberry32Nth 7 (3 - 1) = (m : ℚ) / 2 ^ 32
      ∧ 0 ≤ mulberry32Nth 7 (3 - 1) ∧ mulberry32Nth 7 (3 - 1) < 1)
    ∧ (1 ≤ 1 ∧ ∃ m : ℕ, m < 2 ^ 32 ∧ mulberry32Nth 0 (1 - 1) = (m : ℚ) / 2 ^ 32
      ∧ 0 ≤ mulberry32Nth 0 (1 - 1) ∧ mulberry32Nth 0 (1 - 1) < 1) :=
  ⟨⟨le_refl 1, mulberry32_unit_interval 7 1 (le_refl 1)⟩,
    ⟨by decide, mulberry32_unit_interval 7 3 (by decide)⟩,
    ⟨le_refl 1, mulberry32_unit_interval 0 1 (le_refl 1)⟩⟩

/-! ## Growth (C16) -/

/-- C16. Proportional growth with a guarded zero base: with `q = rate * frac`
(the annual return rate times the first-year factor), when `T + D != 0` the
growth step yields `T * (1 + q)` and `D * (1 + q)`, so the allocated growth
sums to `(T + D) * q` and the ratio `T : D` is kept; when `T + D = 0` it
leaves both balances unchanged; in both cases the divisor
`totalAfterWithdrawal || 1` is not zero. -/
theorem applyReturns_proportional (rate frac T D : ℚ) :
    (T + D ≠ 0 →
        applyReturns rate frac T D = (T * (1 + rate * frac), D * (1 + rate * frac))
        ∧ ((applyReturns rate frac T D).1 - T) + ((applyReturns rate frac T D).2 - D)
            = (T + D) * (rate * frac)
        ∧ (applyReturns rate frac T D).1 * D = (applyReturns rate frac T D).2 * T)
    ∧ (T + D = 0 → applyReturns rate frac T D = (T, D))
    ∧ jsOr (T + D) 1 ≠ 0 := by
  refine ⟨?_, ?_, ?_⟩
  · intro h
    have hj : jsOr (T + D) 1 = T + D := by simp only [jsOr, if_neg h]
    have he : applyReturns rate frac T D = (T * (1 + rate * frac), D * (1 + rate * frac)) := by
      simp only [applyReturns, hj, Prod.mk.injEq]
      constructor
      · field_simp
        ring
      · field_simp
        ring
    refine ⟨he, ?_, ?_⟩
    · rw [he]
      ring
    · rw [he]
      ring
  · intro h
    simp only [applyReturns, h, zero_mul, add_zero]
  · unfold jsOr
    split_ifs with h
    · exact one_ne_zero
    · exact h

/-- Witness of C16: 100 and 300 growing by 10% over a half year, and the
balances 50 and -50, which sum to 0 and stay. -/
theorem applyReturns_proportional_witness :
    ((100 : ℚ) + 300 ≠ 0 ∧ applyReturns (1 / 10) (1 / 2) 100 300 = (105, 315))
    ∧ ((50 : ℚ) + -50 = 0 ∧ applyReturns (1 / 10) (1 / 2) 50 (-50) = (50, -50)) := by
  have h1 : (100 : ℚ) + 300 ≠ 0 := by norm_num
  have h2 : (50 : ℚ) + -50 = 0 := by norm_num
  have ha := ((applyReturns_proportional (1 / 10) (1 / 2) 100 300).1 h1).1
  have hb := (applyReturns_proportional (1 / 10) (1 / 2) 50 (-50)).2.1 h2
  refine ⟨⟨h1, ?_⟩, ⟨h2, hb⟩⟩
  rw [ha]
  norm_num

/-! ## Withdrawal rate (C17) -/

/-- C17. For every year of the projector (loop state `s`), with `B` the
combined balance after the withdrawal block and before growth, the snapshot
records the gross withdrawal
`taxableWithdrawal + retirementWithdrawal + rmdAmount` and the withdrawal rate
(before `toFixed(2)`) `100 * gross / B` when `B > 0` and 0 when `B <= 0`; every
snapshot of `calculateProjections` is the snapshot of such a year. -/
theorem withdrawalRate_formula (i : Inputs) :
    (∀ s : LoopState,
        (projectYear i s).snapshot.withdrawal
          = (yearWithdrawal i s).taxableWithdrawal + (yearWithdrawal i s).retirementWithdrawal
            + (yearRmd i s).rmdAmount
        ∧ ((yearWithdrawal i s).taxable + (yearWithdrawal i s).retirement > 0 →
            (projectYear i s).snapshot.withdrawalRate
              = 100 * ((yearWithdrawal i s).taxableWithdrawal
                  + (yearWithdrawal i s).retirementWithdrawal + (yearRmd i s).rmdAmount)
                / ((yearWithdrawal i s).taxable + (yearWithdrawal i s).retirement))
        ∧ ((yearWithdrawal i s).taxable + (yearWithdrawal i s).retirement ≤ 0 →
            (projectYear i s).snapshot.withdrawalRate = 0))
    ∧ (∀ snap ∈ calculateProjections i, ∃ s : LoopState, snap = (projectYear i s).snapshot) := by
  constructor
  · intro s
    have hrate : (projectYear i s).snapshot.withdrawalRate
        = if (yearWithdrawal i s).taxable + (yearWithdrawal i s).retirement > 0 then
            ((yearWithdrawal i s).taxableWithdrawal + (yearWithdrawal i s).retirementWithdrawal
              + (yearRmd i s).rmdAmount)
              / ((yearWithdrawal i s).taxable + (yearWithdrawal i s).retirement) * 100
          else 0 := rfl
    refine ⟨rfl, ?_, ?_⟩
    · intro h
      rw [hrate, if_pos h]
      ring
    · intro h
      rw [hrate, if_neg (not_lt.mpr h)]
  · intro snap hmem
    obtain ⟨s, hs, _, _⟩ := calculateProjections_mem i snap hmem
    exact ⟨s, hs⟩

/-- Witness of C17 on the year of `sampleInputs`: 25000 withdrawn from
tax-deferred, no RMD, `B = 274000`, rate `100 * 25000 / 274000`. -/
theorem withdrawalRate_formula_witness :
    (yearWithdrawal sampleInputs (initialState sampleInputs)).taxable
        + (yearWithdrawal sampleInputs (initialState sampleInputs)).retirement > 0
    ∧ (projectYear sampleInputs (initialState sampleInputs)).snapshot.withdrawalRate
        = 100 * 25000 / 274000 := by
  have hB : (yearWithdrawal sampleInputs (initialState sampleInputs)).taxable
      + (yearWithdrawal sampleInputs (initialState sampleInputs)).retirement > 0 := by
    rw [yearWithdrawal_sample]
    norm_num
  have h := ((withdrawalRate_formula sampleInputs).1 (initialState sampleInputs)).2.1 hB
  refine ⟨hB, ?_⟩
  rw [h, yearWithdrawal_sample, yearRmd_sample]
  norm_num

/-! ## Gross-up divisors (C18) -/

/-- C18, as stated, fails: `fullTaxInputs` has non-negative balances and
rates, with a tax rate of 100%, and a year with `netNeeded = 20000 > 0`; the
taxable balance is 0, so the withdrawal block takes its last branch and
divides by `1 - taxRate / 100`, which is 0. -/
theorem grossUp_divisor_zero_at_full_tax :
    0 ≤ fullTaxInputs.taxableAccounts ∧ 0 ≤ fullTaxInputs.retirementAccounts
    ∧ 0 ≤ fullTaxInputs.inflationRate ∧ 0 ≤ fullTaxInputs.returnRate
    ∧ 0 ≤ fullTaxInputs.taxRate ∧ 0 ≤ fullTaxInputs.stdDev
    ∧ netNeeded fullTaxInputs (initialState fullTaxInputs) > 0
    ∧ 1 - fullTaxInputs.taxRate / 100 = 0
    ∧ (yearWithdrawal fullTaxInputs (initialState fullTaxInputs)).retirementWithdrawal
        = netNeeded fullTaxInputs (initialState fullTaxInputs)
            / (1 - fullTaxInputs.taxRate / 100) := by
  have hinit : initialState fullTaxInputs
      = { taxable := 0, retirement := 299000, yourAge := 73, spouseAge := 73,
          isFirstYear := true, yearIdx := 0 } := by
    simp only [initialState, fullTaxInputs, sampleInputs, calculateAge_sample]
  refine ⟨?_, ?_, ?_, ?_, ?_, ?_, ?_, ?_, ?_⟩
  · norm_num [fullTaxInputs, sampleInputs]
  · norm_num [fullTaxInputs, sampleInputs]
  · norm_num [fullTaxInputs, sampleInputs]
  · norm_num [fullTaxInputs, sampleInputs]
  · norm_num [fullTaxInputs, sampleInputs]
  · norm_num [fullTaxInputs, sampleInputs]
  · rw [netNeeded_fullTax]
    norm_num
  · norm_num [fullTaxInputs, sampleInputs]
  · have hn : netNeeded fullTaxInputs (initialState fullTaxInputs) > 0 := by
      rw [netNeeded_fullTax]
      norm_num
    have h1 : ¬ (initialState fullTaxInputs).taxable
        ≥ netNeeded fullTaxInputs (initialState fullTaxInputs)
            / (1 - 0.5 * (fullTaxInputs.taxRate / 100)) := by
      rw [netNeeded_fullTax, hinit]
      norm_num [fullTaxInputs, sampleInputs]
    have h2 : ¬ (initialState fullTaxInputs).taxable > 0 := by
      rw [hinit]
      norm_num
    simp only [yearWithdrawal, withdrawalStep, if_pos hn, if_neg h1, if_neg h2]

/-- C18, amended. For every input record whose tax rate lies in `[0, 100)`
percent and every year with `netNeeded > 0`, the two gross-up divisors
`1 - 0.5 * taxRate / 100` and `1 - taxRate / 100` are positive, so each
quotient of the withdrawal block times its divisor gives back the amount
grossed up. -/
theorem grossUp_divisors_positive (i : Inputs) (s : LoopState)
    (hr0 : 0 ≤ i.taxRate) (hr1 : i.taxRate < 100) (hn : netNeeded i s > 0) :
    0 < 1 - 0.5 * (i.taxRate / 100) ∧ 0 < 1 - i.taxRate / 100
    ∧ netNeeded i s / (1 - 0.5 * (i.taxRate / 100)) * (1 - 0.5 * (i.taxRate / 100))
        = netNeeded i s
    ∧ 0 < netNeeded i s / (1 - 0.5 * (i.taxRate / 100))
    ∧ ∀ x : ℚ, x / (1 - i.taxRate / 100) * (1 - i.taxRate / 100) = x := by
  have h1 : (0 : ℚ) < 1 - 0.5 * (i.taxRate / 100) := by
    norm_num
    linarith
  have h2 : (0 : ℚ) < 1 - i.taxRate / 100 := by linarith
  refine ⟨h1, h2, div_mul_cancel₀ _ (ne_of_gt h1), div_pos hn h1, ?_⟩
  intro x
  exact div_mul_cancel₀ _ (ne_of_gt h2)

/-- Witness of the amended C18 on the year of `sampleInputs` (tax rate 20%,
`netNeeded = 20000`). -/
theorem grossUp_divisors_positive_witness :
    (0 ≤ sampleInputs.taxRate ∧ sampleInputs.taxRate < 100
      ∧ netNeeded sampleInputs (initialState sampleInputs) > 0)
    ∧ 0 < 1 - 0.5 * (sampleInputs.taxRate / 100) ∧ 0 < 1 - sampleInputs.taxRate / 100 := by
  have h0 : 0 ≤ sampleInputs.taxRate := by norm_num [sampleInputs]
  have h1 : sampleInputs.taxRate < 100 := by norm_num [sampleInputs]
  have hn : netNeeded sampleInputs (initialState sampleInputs) > 0 := by
    rw [netNeeded_sample]
    norm_num
  have h := grossUp_divisors_positive sampleInputs (initialState sampleInputs) h0 h1 hn
  exact ⟨⟨h0, h1, hn⟩, h.1, h.2.1⟩

/-! ## Termination, indexing and the stop rule (C19, C20) -/

/-- C19. The loop of `calculateProjections` terminates: the fuel it is given
is enough, any larger fuel yields the same list.  With `a0` and `s0` the
starting ages, it returns at most `max(0, floor(maxAge) - a0 + 1)` snapshots,
and exactly that many when no snapshot meets the stop test (total `<= 0` at an
age `>= retirementAge`).  The snapshot at position `k` (counted from 0) has
`year = k + 1`, `yourAge = a0 + k`, `spouseAge = s0 + k`; it is the snapshot
of a year whose inflation multiplier is `(1 + inflationRate / 100) ^ k`, and
its expenses are `annualExpenses` times that multiplier (times the first-year
fraction for `k = 0`) from the retirement age on. -/
theorem calculateProjections_indexing (i : Inputs) :
    (∀ fuel : ℕ, yearsLeft i (initialState i).yourAge ≤ fuel →
        projectionLoop i fuel (initialState i) = calculateProjections i)
    ∧ (calculateProjections i).length
        ≤ (⌊i.maxAge⌋ - calculateAge i.yourBirthdate i.currentDate + 1).toNat
    ∧ ((∀ snap ∈ calculateProjections i,
          ¬ (snap.total ≤ 0 ∧ (snap.yourAge : ℚ) ≥ i.retirementAge)) →
        (calculateProjections i).length
          = (⌊i.maxAge⌋ - calculateAge i.yourBirthdate i.currentDate + 1).toNat)
    ∧ (∀ (k : ℕ) (snap : Snapshot), (calculateProjections i)[k]? = some snap →
        snap.year = k + 1
        ∧ snap.yourAge = calculateAge i.yourBirthdate i.currentDate + k
        ∧ snap.spouseAge = calculateAge i.spouseBirthdate i.currentDate + k
        ∧ (∃ s : LoopState, snap = (projectYear i s).snapshot ∧ s.yearIdx = k
            ∧ inflationMultiplier i s.yearIdx = (1 + i.inflationRate / 100) ^ k)
        ∧ snap.expenses
            = if (snap.yourAge : ℚ) ≥ i.retirementAge then
                i.annualExpenses * (1 + i.inflationRate / 100) ^ k
                  * (if k = 0 then firstYearFraction i else 1)
              else 0) := by
  have hfuel : yearsLeft i (initialState i).yourAge
      = (⌊i.maxAge⌋ - calculateAge i.yourBirthdate i.currentDate + 1).toNat := by
    simp only [yearsLeft, initialState]
    congr 1
    ring
  refine ⟨?_, ?_, ?_, ?_⟩
  · intro fuel h
    exact projectionLoop_fuel i fuel (initialState i) h
  · rw [← hfuel]
    exact projectionLoop_length_le i _ _
  · intro hno
    rw [← hfuel]
    exact projectionLoop_length_of_no_stop i _ (initialState i) rfl hno
  · intro k snap h
    obtain ⟨s, rfl, h1, h2, h3, h4, _⟩ :=
      projectionLoop_getElem? i _ (initialState i) k snap h
    have hidx : s.yearIdx = k := by
      rw [h1]
      simp [initialState]
    have hfirst : s.isFirstYear = true ↔ k = 0 := by
      rw [h4]
      simp [initialState]
    refine ⟨?_, h2, h3, ⟨s, rfl, hidx, by rw [hidx]; rfl⟩, ?_⟩
    · show s.yearIdx + 1 = k + 1
      rw [hidx]
    · show (if (s.yourAge : ℚ) ≥ i.retirementAge then adjustedExpenses i s else 0) = _
      have hfrac : yearFraction i s.isFirstYear = (if k = 0 then firstYearFraction i else 1) := by
        unfold yearFraction
        by_cases hk : k = 0
        · rw [if_pos (hfirst.mpr hk), if_pos hk]
        · have hf : ¬ s.isFirstYear = true := fun hh => hk (hfirst.mp hh)
          rw [if_neg hf, if_neg hk]
      simp only [adjustedExpenses, inflationMultiplier, hidx, hfrac]
      rfl

/-- Witness of C19: the projection of `sampleInputs` (age 73, `maxAge` 73, no
depletion) has exactly `73 - 73 + 1 = 1` snapshot, and the projection of
`depletingInputs` (age 65, `maxAge` 66) stops after 1 snapshot of at most 2;
in both the first snapshot has year 1. -/
theorem calculateProjections_indexing_witness :
    ((calculateProjections sampleInputs).length = 1
      ∧ (⌊sampleInputs.maxAge⌋
          - calculateAge sampleInputs.yourBirthdate sampleInputs.currentDate + 1).toNat = 1)
    ∧ ((calculateProjections depletingInputs).length = 1
      ∧ (⌊depletingInputs.maxAge⌋
          - calculateAge depletingInputs.yourBirthdate depletingInputs.currentDate + 1).toNat
          = 2)
    ∧ (∀ snap : Snapshot, (calculateProjections sampleInputs)[0]? = some snap →
        snap.year = 1 ∧ snap.yourAge = 73) := by
  have hs := calculateProjections_indexing sampleInputs
  have hd := calculateProjections_indexing depletingInputs
  have hsl : (calculateProjections sampleInputs).length = 1 := by
    rw [calculateProjections_sample]
    rfl
  have hdl : (calculateProjections depletingInputs).length = 1 := by
    rw [calculateProjections_depleting]
    rfl
  have hsa : calculateAge sampleInputs.yourBirthdate sampleInputs.currentDate = 73 :=
    calculateAge_sample
  have hda : calculateAge depletingInputs.yourBirthdate depletingInputs.currentDate = 65 :=
    calculateAge_young
  have hsn : (⌊sampleInputs.maxAge⌋
      - calculateAge sampleInputs.yourBirthdate sampleInputs.currentDate + 1).toNat = 1 := by
    rw [hsa]
    norm_num [sampleInputs]
  have hdn : (⌊depletingInputs.maxAge⌋
      - calculateAge depletingInputs.yourBirthdate depletingInputs.currentDate + 1).toNat
      = 2 := by
    rw [hda]
    norm_num [depletingInputs, youngInputs, sampleInputs]
    rfl
  refine ⟨⟨hsl, hsn⟩, ⟨hdl, hdn⟩, ?_⟩
  intro snap h
  have h0 := hs.2.2.2 0 snap h
  rw [hsa] at h0
  exact ⟨h0.1, by simpa using h0.2.1⟩

/-- C20. Depletion stops the trajectory.  In the list returned by
`calculateProjections` no snapshot other than the last has both
`yourAge >= retirementAge` and a combined balance `<= 0` (the snapshot total,
which is `<= 0` exactly when the unclamped year-end balance is); the last
snapshot either meets that test or is the one of the last age `<= maxAge`.
The year loop of a Monte Carlo trial applies the same test to the balances
left by its year: when it holds the trial ends there with that balance and
`broke = true`, otherwise the loop goes on to the next year, and when the
guard `yourAge <= maxAge` fails the trial ends with the current balance and
`broke = false`. -/
theorem depletion_stops_trajectory (i : Inputs) :
    (∀ (k : ℕ) (snap : Snapshot), (calculateProjections i)[k]? = some snap →
        k + 1 < (calculateProjections i).length →
        ¬ ((snap.yourAge : ℚ) ≥ i.retirementAge ∧ snap.total ≤ 0))
    ∧ (∀ s : LoopState,
        (projectYear i s).snapshot.total ≤ 0
          ↔ (projectYear i s).taxable + (projectYear i s).retirement ≤ 0)
    ∧ (∀ last : Snapshot, (calculateProjections i).getLast? = some last →
        ((last.yourAge : ℚ) ≥ i.retirementAge ∧ last.total ≤ 0)
          ∨ last.yourAge = ⌊i.maxAge⌋)
    ∧ (∀ (normal : ℚ → ℚ → ℚ) (fuel : ℕ) (g : Rng) (s : LoopState),
        (s.yourAge : ℚ) ≤ i.maxAge →
        ((mcYear i (randomReturn i normal g.next.1 g.next.2.next.1) s).1
            + (mcYear i (randomReturn i normal g.next.1 g.next.2.next.1) s).2 ≤ 0
          ∧ (s.yourAge : ℚ) ≥ i.retirementAge →
          trialLoop i normal (fuel + 1) g s
            = ({ endBalance :=
                  (mcYear i (randomReturn i normal g.next.1 g.next.2.next.1) s).1
                    + (mcYear i (randomReturn i normal g.next.1 g.next.2.next.1) s).2
                 broke := true }, g.next.2.next.2))
        ∧ (¬ ((mcYear i (randomReturn i normal g.next.1 g.next.2.next.1) s).1
              + (mcYear i (randomReturn i normal g.next.1 g.next.2.next.1) s).2 ≤ 0
            ∧ (s.yourAge : ℚ) ≥ i.retirementAge) →
          trialLoop i normal (fuel + 1) g s
            = trialLoop i normal fuel g.next.2.next.2
                (advance s (mcYear i (randomReturn i normal g.next.1 g.next.2.next.1) s).1
                  (mcYear i (randomReturn i normal g.next.1 g.next.2.next.1) s).2)))
    ∧ (∀ (normal : ℚ → ℚ → ℚ) (fuel : ℕ) (g : Rng) (s : LoopState),
        ¬ (s.yourAge : ℚ) ≤ i.maxAge →
        trialLoop i normal fuel g s
          = ({ endBalance := s.taxable + s.retirement, broke := false }, g)) := by
  refine ⟨?_, snapshot_total_le_zero_iff i, ?_, ?_, ?_⟩
  · intro k snap h hlen
    obtain ⟨s, rfl, _, _, _, _, h6⟩ := projectionLoop_getElem? i _ (initialState i) k snap h
    intro hstop
    exact h6 hlen ⟨(snapshot_total_le_zero_iff i s).mp hstop.2, hstop.1⟩
  · intro last h
    rcases projectionLoop_last i _ (initialState i) rfl last h with h1 | h1
    · exact Or.inl ⟨h1.2, h1.1⟩
    · exact Or.inr h1
  · intro normal fuel g s hg
    constructor
    · intro hb
      simp only [trialLoop, if_pos hg, if_pos hb]
    · intro hb
      simp only [trialLoop, if_pos hg, if_neg hb]
  · intro normal fuel g s hg
    cases fuel with
    | zero => rfl
    | succ n => simp only [trialLoop, if_neg hg]

/-- Witness of C20 on `depletingInputs`: two years fit (ages 65 and 66), the
first year ends at -15000 at the retirement age, and the projection stops
there with one snapshot of total 0. -/
theorem depletion_stops_trajectory_witness :
    yearsLeft depletingInputs (initialState depletingInputs).yourAge = 2
    ∧ (calculateProjections depletingInputs).length = 1
    ∧ ∀ last : Snapshot, (calculateProjections depletingInputs).getLast? = some last →
        (((last.yourAge : ℚ) ≥ depletingInputs.retirementAge ∧ last.total ≤ 0)
          ∨ last.yourAge = ⌊depletingInputs.maxAge⌋)
        ∧ last.yourAge = 65 ∧ last.total = 0 := by
  refine ⟨yearsLeft_depleting, ?_, ?_⟩
  · rw [calculateProjections_depleting]
    rfl
  · intro last h
    refine ⟨(depletion_stops_trajectory depletingInputs).2.2.1 last h, ?_, ?_⟩
    · rw [calculateProjections_depleting, List.getLast?_singleton, Option.some.injEq] at h
      subst h
      show (initialState depletingInputs).yourAge = 65
      rw [initialState_depleting]
    · rw [calculateProjections_depleting, List.getLast?_singleton, Option.some.injEq] at h
      subst h
      show max 0 ((projectYear depletingInputs (initialState depletingInputs)).taxable
        + (projectYear depletingInputs (initialState depletingInputs)).retirement) = 0
      rw [projectYear_depleting.1, projectYear_depleting.2]
      norm_num

/-! ## Gross-up and year accounting (C21, C22) -/

/-- C21. Gross-up nets exactly the need: for `netNeeded > 0`, a tax rate in
`[0, 100)` percent, a taxable balance `T >= 0` and any tax-deferred balance,
the withdrawal block, whichever of its three branches it takes, records
`(taxableWithdrawal + retirementWithdrawal) - withdrawalTaxes = netNeeded`;
so does the withdrawal of every year of the projector with `netNeeded > 0`. -/
theorem grossUp_nets_need (taxRate netNeeded T D : ℚ)
    (hn : netNeeded > 0) (hr0 : 0 ≤ taxRate) (hr1 : taxRate < 100) (hT : 0 ≤ T) :
    (withdrawalStep taxRate netNeeded T D).taxableWithdrawal
        + (withdrawalStep taxRate netNeeded T D).retirementWithdrawal
        - (withdrawalStep taxRate netNeeded T D).withdrawalTaxes = netNeeded
    ∧ (T ≥ netNeeded / (1 - 0.5 * (taxRate / 100)) →
        netNeeded / (1 - 0.5 * (taxRate / 100))
          - netNeeded / (1 - 0.5 * (taxRate / 100)) * (0.5 * (taxRate / 100)) = netNeeded)
    ∧ (T < netNeeded / (1 - 0.5 * (taxRate / 100)) → 0 < T →
        T + (netNeeded - (T - T * (0.5 * (taxRate / 100)))) / (1 - taxRate / 100)
          - (T * (0.5 * (taxRate / 100))
              + (netNeeded - (T - T * (0.5 * (taxRate / 100)))) / (1 - taxRate / 100)
                * (taxRate / 100)) = netNeeded)
    ∧ (T < netNeeded / (1 - 0.5 * (taxRate / 100)) → T = 0 →
        netNeeded / (1 - taxRate / 100)
          - netNeeded / (1 - taxRate / 100) * (taxRate / 100) = netNeeded) := by
  have hnet := withdrawalStep_net taxRate netNeeded T D hn hr0 hr1
  refine ⟨hnet, ?_, ?_, ?_⟩
  · intro h1
    have h := hnet
    simp only [withdrawalStep, if_pos hn, if_pos h1] at h
    linear_combination h
  · intro h1 h2
    have h1n : ¬ T ≥ netNeeded / (1 - 0.5 * (taxRate / 100)) := not_le.mpr h1
    have h2p : T > 0 := h2
    have h := hnet
    simp only [withdrawalStep, if_pos hn, if_neg h1n, if_pos h2p] at h
    linear_combination h
  · intro h1 h2
    have h1n : ¬ T ≥ netNeeded / (1 - 0.5 * (taxRate / 100)) := not_le.mpr h1
    have h2n : ¬ T > 0 := by rw [h2]; exact lt_irrefl 0
    have h := hnet
    simp only [withdrawalStep, if_pos hn, if_neg h1n, if_neg h2n] at h
    linear_combination h

/-- Witness of C21 at tax rate 20% and `netNeeded = 900`: with `T = 1000`
(taxable only: 1000 withdrawn, tax 100), with `T = 500` (spillover: 500 and
562.5 withdrawn, tax 162.5) and with `T = 0` (tax-deferred only: 1125
withdrawn, tax 225). -/
theorem grossUp_nets_need_witness :
    ((900 : ℚ) > 0 ∧ (0 : ℚ) ≤ 20 ∧ (20 : ℚ) < 100)
    ∧ ((withdrawalStep 20 900 1000 5000).taxableWithdrawal
        + (withdrawalStep 20 900 1000 5000).retirementWithdrawal
        - (withdrawalStep 20 900 1000 5000).withdrawalTaxes = 900
      ∧ (withdrawalStep 20 900 1000 5000).withdrawalTaxes = 100)
    ∧ ((withdrawalStep 20 900 500 5000).taxableWithdrawal
        + (withdrawalStep 20 900 500 5000).retirementWithdrawal
        - (withdrawalStep 20 900 500 5000).withdrawalTaxes = 900
      ∧ (withdrawalStep 20 900 500 5000).withdrawalTaxes = 162.5)
    ∧ ((withdrawalStep 20 900 0 5000).taxableWithdrawal
        + (withdrawalStep 20 900 0 5000).retirementWithdrawal
        - (withdrawalStep 20 900 0 5000).withdrawalTaxes = 900
      ∧ (withdrawalStep 20 900 0 5000).withdrawalTaxes = 225) := by
  have hn : (900 : ℚ) > 0 := by norm_num
  have h0 : (0 : ℚ) ≤ 20 := by norm_num
  have h1 : (20 : ℚ) < 100 := by norm_num
  refine ⟨⟨hn, h0, h1⟩,
    ⟨(grossUp_nets_need 20 900 1000 5000 hn h0 h1 (by norm_num)).1, ?_⟩,
    ⟨(grossUp_nets_need 20 900 500 5000 hn h0 h1 (by norm_num)).1, ?_⟩,
    ⟨(grossUp_nets_need 20 900 0 5000 hn h0 h1 (le_refl 0)).1, ?_⟩⟩
  · norm_num [withdrawalStep]
  · norm_num [withdrawalStep]
  · norm_num [withdrawalStep]

/-- C22. Year accounting identity of the projector: in every year (loop state
`s` with balances `T0 = s.taxable`, `D0 = s.retirement`) the unclamped year-end
combined balance is
`(T0 + D0 - taxableWithdrawal - retirementWithdrawal) * (1 + q) - rmdTaxes`
with `q = returnRate / 100` times the first-year factor; the RMD block changes
the combined balance by `- rmdTaxes` only, and `rmdTaxes` is the part of the
snapshot's taxes beyond the Social Security and withdrawal taxes. -/
theorem year_accounting_identity (i : Inputs) (s : LoopState) :
    (projectYear i s).taxable + (projectYear i s).retirement
      = (s.taxable + s.retirement - (yearWithdrawal i s).taxableWithdrawal
            - (yearWithdrawal i s).retirementWithdrawal)
          * (1 + i.returnRate / 100 * (if s.isFirstYear then firstYearFraction i else 1))
        - (yearRmd i s).rmdTaxes
    ∧ (yearRmd i s).taxable + (yearRmd i s).retirement
        = (yearGrowth i s).1 + (yearGrowth i s).2 - (yearRmd i s).rmdTaxes
    ∧ (yearRmd i s).rmdTaxes = (yearRmd i s).rmdAmount * (i.taxRate / 100)
    ∧ (projectYear i s).snapshot.taxes
        = ssTaxes i s + (yearWithdrawal i s).withdrawalTaxes + (yearRmd i s).rmdTaxes := by
  have h1 : (projectYear i s).taxable + (projectYear i s).retirement
      = (yearRmd i s).taxable + (yearRmd i s).retirement := rfl
  have h2 : (yearRmd i s).taxable + (yearRmd i s).retirement
      = (yearGrowth i s).1 + (yearGrowth i s).2 - (yearRmd i s).rmdTaxes :=
    rmdStep_total _ _ _ _ _
  have h3 : (yearGrowth i s).1 + (yearGrowth i s).2
      = ((yearWithdrawal i s).taxable + (yearWithdrawal i s).retirement)
          * (1 + i.returnRate / 100 * yearFraction i s.isFirstYear) :=
    applyReturns_total _ _ _ _
  have h4 : (yearWithdrawal i s).taxable + (yearWithdrawal i s).retirement
      = s.taxable + s.retirement - (yearWithdrawal i s).taxableWithdrawal
          - (yearWithdrawal i s).retirementWithdrawal :=
    withdrawalStep_total _ _ _ _
  have h5 : (yearRmd i s).rmdTaxes = (yearRmd i s).rmdAmount * (i.taxRate / 100) :=
    rmdStep_taxes _ _ _ _ _
  refine ⟨?_, h2, h5, rfl⟩
  rw [h1, h2, h3, h4]
  rfl

/-- Witness of C22 on the year of `sampleInputs`: `(0 + 299000 - 0 - 25000)`
at `q = 0`, no RMD tax, year-end balance 274000. -/
theorem year_accounting_identity_witness :
    (projectYear sampleInputs (initialState sampleInputs)).taxable
        + (projectYear sampleInputs (initialState sampleInputs)).retirement
      = (0 + 299000 - 0 - 25000) * (1 + 0 * (1 / 2)) - 0 := by
  have h := (year_accounting_identity sampleInputs (initialState sampleInputs)).1
  rw [h, yearWithdrawal_sample, yearRmd_sample, initialState_sample]
  simp only [firstYearFraction_sample, if_true]
  norm_num [sampleInputs]

/-! ## Snapshot consistency under clamping (C23) -/

/-- C23. For every input record with initial balances `>= 0`, a tax rate in
`[0, 100)` percent, a return rate `>= 0` and an inflation rate `>= 0` (the
first-year fraction is always in `[0, 1]`), every snapshot of
`calculateProjections` has `total = taxable + retirement` on its clamped
fields.  The year of each snapshot starts with both balances `>= 0` and ends
with a taxable balance `>= 0`; its tax-deferred balance is negative at the
year end only when the taxable balance is 0 and the snapshot is the last one
(the trajectory stops at that year). -/
theorem snapshot_total_consistent (i : Inputs)
    (hT : 0 ≤ i.taxableAccounts) (hD : 0 ≤ i.retirementAccounts)
    (hr0 : 0 ≤ i.taxRate) (hr1 : i.taxRate < 100)
    (hret : 0 ≤ i.returnRate) (hinf : 0 ≤ i.inflationRate) :
    (0 ≤ firstYearFraction i ∧ firstYearFraction i ≤ 1)
    ∧ ∀ (k : ℕ) (snap : Snapshot), (calculateProjections i)[k]? = some snap →
        snap.total = snap.taxable + snap.retirement
        ∧ ∃ s : LoopState, snap = (projectYear i s).snapshot
            ∧ 0 ≤ s.taxable ∧ 0 ≤ s.retirement
            ∧ 0 ≤ (projectYear i s).taxable
            ∧ ((projectYear i s).retirement < 0 →
                (projectYear i s).taxable = 0
                ∧ k + 1 = (calculateProjections i).length) := by
  refine ⟨⟨firstYearFraction_nonneg i, firstYearFraction_le_one i⟩, ?_⟩
  intro k snap h
  have hstep : ∀ s : LoopState, (0 ≤ s.taxable ∧ 0 ≤ s.retirement) →
      (s.yourAge : ℚ) ≤ i.maxAge →
      ¬ ((projectYear i s).taxable + (projectYear i s).retirement ≤ 0
          ∧ (s.yourAge : ℚ) ≥ i.retirementAge) →
      (0 ≤ (advance s (projectYear i s).taxable (projectYear i s).retirement).taxable
        ∧ 0 ≤ (advance s (projectYear i s).taxable (projectYear i s).retirement).retirement) := by
    intro s hP _ hb
    obtain ⟨hy1, hy2⟩ := projectYear_signs i s hP.1 hP.2 hr0 hr1 hret
    refine ⟨hy1, ?_⟩
    show 0 ≤ (projectYear i s).retirement
    by_contra hneg
    obtain ⟨hz, hage⟩ := hy2 (not_le.mp hneg)
    apply hb
    refine ⟨?_, hage⟩
    rw [hz]
    linarith [not_le.mp hneg]
  obtain ⟨s, hP, hs, hlast⟩ := projectionLoop_getElem?_inv i
    (fun s => 0 ≤ s.taxable ∧ 0 ≤ s.retirement) hstep _ (initialState i) k snap ⟨hT, hD⟩ h
  obtain ⟨hy1, hy2⟩ := projectYear_signs i s hP.1 hP.2 hr0 hr1 hret
  have hklt : k < (calculateProjections i).length := (List.getElem?_eq_some.mp h).1
  refine ⟨?_, s, hs, hP.1, hP.2, hy1, ?_⟩
  · rw [hs]
    show max 0 ((projectYear i s).taxable + (projectYear i s).retirement)
      = max 0 (projectYear i s).taxable + max 0 (projectYear i s).retirement
    by_cases hneg : (projectYear i s).retirement < 0
    · obtain ⟨hz, _⟩ := hy2 hneg
      rw [hz, zero_add, max_eq_left hneg.le, max_self, add_zero]
    · have hnn : 0 ≤ (projectYear i s).retirement := not_lt.mp hneg
      rw [max_eq_right hy1, max_eq_right hnn, max_eq_right (add_nonneg hy1 hnn)]
  · intro hneg
    obtain ⟨hz, hage⟩ := hy2 hneg
    refine ⟨hz, ?_⟩
    have hb : (projectYear i s).taxable + (projectYear i s).retirement ≤ 0
        ∧ (s.yourAge : ℚ) ≥ i.retirementAge := by
      refine ⟨?_, hage⟩
      rw [hz]
      linarith
    have hnot : ¬ k + 1 < (calculateProjections i).length := fun hlt => hlast hlt hb
    omega

/-- Witness of C23 on `depletingInputs` (balances 0 and 10000, tax rate 20%,
no growth, no inflation): its one snapshot has total 0 = 0 + 0, the year ends
with taxable 0 and tax-deferred -15000, and it is the last. -/
theorem snapshot_total_consistent_witness :
    (0 ≤ depletingInputs.taxableAccounts ∧ 0 ≤ depletingInputs.retirementAccounts
      ∧ 0 ≤ depletingInputs.taxRate ∧ depletingInputs.taxRate < 100
      ∧ 0 ≤ depletingInputs.returnRate ∧ 0 ≤ depletingInputs.inflationRate)
    ∧ (projectYear depletingInputs (initialState depletingInputs)).retirement = -15000
    ∧ ∀ snap : Snapshot, (calculateProjections depletingInputs)[0]? = some snap →
        snap.total = snap.taxable + snap.retirement := by
  have h1 : 0 ≤ depletingInputs.taxableAccounts := by
    norm_num [depletingInputs, youngInputs, sampleInputs]
  have h2 : 0 ≤ depletingInputs.retirementAccounts := by
    norm_num [depletingInputs, youngInputs, sampleInputs]
  have h3 : 0 ≤ depletingInputs.taxRate := by
    norm_num [depletingInputs, youngInputs, sampleInputs]
  have h4 : depletingInputs.taxRate < 100 := by
    norm_num [depletingInputs, youngInputs, sampleInputs]
  have h5 : 0 ≤ depletingInputs.returnRate := by
    norm_num [depletingInputs, youngInputs, sampleInputs]
  have h6 : 0 ≤ depletingInputs.inflationRate := by
    norm_num [depletingInputs, youngInputs, sampleInputs]
  exact ⟨⟨h1, h2, h3, h4, h5, h6⟩, projectYear_depleting.2, fun snap h =>
    ((snapshot_total_consistent depletingInputs h1 h2 h3 h4 h5 h6).2 0 snap h).1⟩

/-! ## Survived flag (C24) -/

/-- C24. For every Monte Carlo trial (the trial run from any state `g` of the
generator): a trial that is broke has a terminal balance `<= 0`; when the
trial simulates at least one year and the age `a` of its last simulated year
is `>= retirementAge`, it is not broke (counted in `successCount`) exactly
when its terminal balance is `> 0`; a trial that simulates a year and is not
broke has simulated the age `floor(maxAge)` last.  The trials counted are at
most the `simulations` trials run, and `successRate` is that count over
`simulations` times 100. -/
theorem survived_flag_agrees (i : Inputs) (normal : ℚ → ℚ → ℚ) :
    (∀ g : Rng,
      ((runTrial i normal g).1.broke = true → (runTrial i normal g).1.endBalance ≤ 0)
      ∧ (∀ a : Int,
          trialLastAge i normal (yearsLeft i (initialState i).yourAge) g (initialState i)
            = some a →
          (a : ℚ) ≥ i.retirementAge →
          ((runTrial i normal g).1.broke = false ↔ (runTrial i normal g).1.endBalance > 0))
      ∧ (((initialState i).yourAge : ℚ) ≤ i.maxAge → (runTrial i normal g).1.broke = false →
          trialLastAge i normal (yearsLeft i (initialState i).yourAge) g (initialState i)
            = some ⌊i.maxAge⌋))
    ∧ (∀ random : ℕ → ℚ,
        (∀ o ∈ runTrials i normal i.simulations.toNat (chooseRng i random),
          o.broke = true → o.endBalance ≤ 0)
        ∧ ((runTrials i normal i.simulations.toNat (chooseRng i random)).filter
              (fun o => !o.broke)).length ≤ i.simulations.toNat
        ∧ (0 ≤ i.simulations →
            (((runTrials i normal i.simulations.toNat (chooseRng i random)).filter
              (fun o => !o.broke)).length : Int) ≤ i.simulations)
        ∧ (runMonteCarlo i random normal).successRate
            = ((((runTrials i normal i.simulations.toNat (chooseRng i random)).filter
                (fun o => !o.broke)).length : ℕ) : ℚ) / (i.simulations : ℚ) * 100) := by
  have htrial : ∀ g : Rng,
      ((runTrial i normal g).1.broke = true → (runTrial i normal g).1.endBalance ≤ 0)
      ∧ (∀ a : Int,
          trialLastAge i normal (yearsLeft i (initialState i).yourAge) g (initialState i)
            = some a →
          (a : ℚ) ≥ i.retirementAge →
          ((runTrial i normal g).1.broke = false ↔ (runTrial i normal g).1.endBalance > 0))
      ∧ (((initialState i).yourAge : ℚ) ≤ i.maxAge → (runTrial i normal g).1.broke = false →
          trialLastAge i normal (yearsLeft i (initialState i).yourAge) g (initialState i)
            = some ⌊i.maxAge⌋) := by
    intro g
    obtain ⟨h1, h2⟩ := trialLoop_flag i normal (yearsLeft i (initialState i).yourAge) g
      (initialState i)
    exact ⟨h1, h2, fun hg hnb =>
      trialLastAge_of_not_broke i normal _ g (initialState i) rfl hg hnb⟩
  refine ⟨htrial, ?_⟩
  intro random
  have hlen : ((runTrials i normal i.simulations.toNat (chooseRng i random)).filter
      (fun o => !o.broke)).length ≤ i.simulations.toNat := by
    have h := List.length_filter_le (fun o : TrialOutcome => !o.broke)
      (runTrials i normal i.simulations.toNat (chooseRng i random))
    rw [runTrials_length] at h
    exact h
  refine ⟨?_, hlen, ?_, rfl⟩
  · intro o ho hb
    obtain ⟨g1, rfl⟩ := runTrials_mem i normal _ _ o ho
    exact (htrial g1).1 hb
  · intro hsim
    omega

/-- Witness of C24: the trial of `youngInputs` is broke and ends at -15000;
the trial of `sampleInputs` (age 73, retirement age 65) is not broke, ends at
272000, and its last simulated age is 73. -/
theorem survived_flag_agrees_witness :
    (∀ (normal : ℚ → ℚ → ℚ) (g : Rng),
      (runTrial youngInputs normal g).1.broke = true
      ∧ (runTrial youngInputs normal g).1.endBalance ≤ 0)
    ∧ (∀ (normal : ℚ → ℚ → ℚ) (g : Rng),
      (runTrial sampleInputs normal g).1.broke = false
      ∧ trialLastAge sampleInputs normal
          (yearsLeft sampleInputs (initialState sampleInputs).yourAge) g
          (initialState sampleInputs) = some 73
      ∧ ((73 : Int) : ℚ) ≥ sampleInputs.retirementAge
      ∧ (runTrial sampleInputs normal g).1.endBalance > 0) := by
  constructor
  · intro normal g
    have hb : (runTrial youngInputs normal g).1.broke = true := by
      rw [runTrial_young]
    exact ⟨hb, ((survived_flag_agrees youngInputs normal).1 g).1 hb⟩
  · intro normal g
    have hnb : (runTrial sampleInputs normal g).1.broke = false := by
      rw [runTrial_sample]
    have hlast := ((survived_flag_agrees sampleInputs normal).1 g).2.2 guard_sample hnb
    have hfloor : ⌊sampleInputs.maxAge⌋ = 73 := by norm_num [sampleInputs]
    rw [hfloor] at hlast
    have hage : ((73 : Int) : ℚ) ≥ sampleInputs.retirementAge := by
      norm_num [sampleInputs]
    exact ⟨hnb, hlast, hage,
      (((survived_flag_agrees sampleInputs normal).1 g).2.1 73 hlast hage).mp hnb⟩

/-! ## Percentile labels (C25) -/

/-- C25. The labels of `displayMonteCarloResults` are 10, 20, 50, 75, 90 and
the quantiles of `runMonteCarlo` times 100 are 10, 25, 50, 75, 90: at index 1
the value computed at the quantile 0.25 is listed under the label 20; the
labels at the indices 0, 2, 3 and 4 are 100 times the quantile. -/
theorem percentile_label_mismatch :
    percentileLabels = [10, 20, 50, 75, 90]
    ∧ quantiles.map (fun p => 100 * p) = [10, 25, 50, 75, 90]
    ∧ percentileLabels[1]? = some 20
    ∧ (quantiles[1]?).map (fun p => 100 * p) = some 25
    ∧ percentileLabels[1]? ≠ (quantiles[1]?).map (fun p => 100 * p)
    ∧ (∀ k : ℕ, k < 5 → k ≠ 1 →
        percentileLabels[k]? = (quantiles[k]?).map (fun p => 100 * p))
    ∧ ∀ sorted : List ℚ, (percentilesOf sorted)[1]? = some (percentileAt sorted 0.25) := by
  have hq : quantiles.map (fun p => 100 * p) = [10, 25, 50, 75, 90] := by
    norm_num [quantiles]
  have h1 : (quantiles[1]?).map (fun p => 100 * p) = some 25 := by
    norm_num [quantiles]
  refine ⟨rfl, hq, rfl, h1, ?_, ?_, fun _ => rfl⟩
  · rw [h1]
    show some (20 : ℚ) ≠ some 25
    norm_num
  · intro k hk hne
    interval_cases k
    · norm_num [percentileLabels, quantiles]
    · exact absurd rfl hne
    · norm_num [percentileLabels, quantiles]
    · norm_num [percentileLabels, quantiles]
    · norm_num [percentileLabels, quantiles]

end RetirementCalculator
